import Mathlib

/-!
# kut : a macro-based C++ unit-testing header (`kut.h`)

A shallow embedding of the counting and logging protocol of `kut.h`
(`kut2.h` repeats the same macros).  Every macro of the header becomes a
function of the same name on an explicit state.

Conventions of the embedding:

* `int` counters (`count_test`, `NbTestTot`, ...) are `Int`.  Signed overflow
  is undefined behaviour in C++, so the embedding describes runs in which
  the counters stay below `2^31`.
* `unsigned int` / `size_t` values (`kut_loop_fails`, `kut_line_counter`,
  `__LINE__`) are `Nat`; each of them is bounded by a number of executed
  statements and cannot wrap in a run that terminates.
* `kut_logfile` is the list of the items inserted with `operator<<`, in
  order.  `std::cout` and `std::cerr` are not part of the state.
* A stringified macro argument `#a` is a `String`; the value of a user
  expression that is streamed is given by its text.
* `exit(1)`, a rethrown exception, an early `return kut_data` and an
  out-of-bounds `operator[]` are the four ways control leaves a macro other
  than by falling through; see `Outcome`.
-/

namespace Kut

/-! ## Data model -/

/-- One item inserted into an output stream. -/
inductive LogItem where
  | str (s : String)
  | int (n : Int)
  | real (q : Rat)
  | endl
  deriving DecidableEq, Repr

/-- The values of `__LINE__`, `__FILE__` and `__PRETTY_FUNCTION__` where a macro is expanded. -/
structure Site where
  line : Nat
  file : String
  func : String
  deriving DecidableEq, Repr

/-- The `struct KUT_TYPE` of `kut.h`: counters of the current unit test. -/
structure KUT_TYPE where
  count_fail : Int
  count_test : Int
  count_test1 : Int
  count_test2 : Int
  StopTestOnFail : Bool
  DoQuit : Bool
  kut_failflag : Bool
  deriving DecidableEq, Repr

/-- The constructor `KUT_TYPE::KUT_TYPE()`. -/
def KUT_TYPE.init : KUT_TYPE :=
  { count_fail := 0, count_test1 := 0, count_test2 := 0, count_test := 0,
    StopTestOnFail := false, DoQuit := false, kut_failflag := false }

/-- The `struct KUT_MASTER` of `kut.h`: counters of the whole suite. -/
structure KUT_MASTER where
  NbTestTot : Int
  NbFailureTot : Int
  NbUnitTests : Int
  NbUTFailures : Int
  v_failed_test_name : List String
  v_failed_test_type : List Int
  v_failed_test_logline : List Nat
  deriving DecidableEq, Repr

/-- The constructor `KUT_MASTER::KUT_MASTER()`; the three vectors start empty. -/
def KUT_MASTER.init : KUT_MASTER :=
  { NbTestTot := 0, NbFailureTot := 0, NbUnitTests := 0, NbUTFailures := 0,
    v_failed_test_name := [], v_failed_test_type := [], v_failed_test_logline := [] }

/-- The globals allocated by `KUT_ALLOC`. -/
structure Globals where
  kut_fail_file : List String
  kut_fail_line : List Nat
  kut_verbose : Bool
  kut_logfile : List LogItem
  kut_line_counter : Nat
  deriving DecidableEq, Repr

/-- The macro `KUT_ALLOC`; `KUT_VERBOSE_MODE` is a compile-time constant. -/
def KUT_ALLOC (KUT_VERBOSE_MODE : Bool) : Globals :=
  { kut_fail_file := [], kut_fail_line := [], kut_verbose := KUT_VERBOSE_MODE,
    kut_logfile := [], kut_line_counter := 0 }

/-- What a test function sees: its local `kut_data` and the globals. -/
structure State where
  kut_data : KUT_TYPE
  g : Globals
  deriving DecidableEq, Repr

/-- How control leaves a piece of code. -/
inductive Outcome (σ : Type) where
  /-- control reaches the next statement -/
  | next (s : σ)
  /-- the enclosing function executed a return statement -/
  | returned (s : σ)
  /-- the process was ended by a call of exit with this status -/
  | exited (s : σ) (status : Int)
  /-- an exception propagates out of the code -/
  | thrown (s : σ)
  /-- an access out of the bounds of a vector: undefined behaviour -/
  | undefined
  deriving Repr

/-- Sequencing: the continuation runs only when control falls through. -/
def Outcome.andThen {σ : Type} (o : Outcome σ) (k : σ → Outcome σ) : Outcome σ :=
  match o with
  | .next s => k s
  | .returned s => .returned s
  | .exited s c => .exited s c
  | .thrown s => .thrown s
  | .undefined => .undefined

/-- The state in which the code was left, when there is one. -/
def Outcome.state? {σ : Type} : Outcome σ → Option σ
  | .next s => some s
  | .returned s => some s
  | .exited s _ => some s
  | .thrown s => some s
  | .undefined => none

/-! ## Logging -/

/-- The macro `KUT_LOG2`: insert into `kut_logfile`. -/
def KUT_LOG2 (items : List LogItem) (g : Globals) : Globals :=
  { g with kut_logfile := g.kut_logfile ++ items }

/-- The macro `KUT_LOG`: `kut_line_counter++; kut_logfile << items`. -/
def KUT_LOG (items : List LogItem) (g : Globals) : Globals :=
  KUT_LOG2 items { g with kut_line_counter := g.kut_line_counter + 1 }

/-- The statement `if( kut_verbose ) KUT_LOG << items;`.  `KUT_LOG` expands to two
statements, so only the increment of the line counter is guarded and the insertion is
always executed. -/
def ifVerbose_KUT_LOG (items : List LogItem) (g : Globals) : Globals :=
  KUT_LOG2 items
    (if g.kut_verbose then { g with kut_line_counter := g.kut_line_counter + 1 } else g)

/-- The default value of the macro `KUT_EPSILON`, `1e-9`. -/
def KUT_EPSILON : Rat := 1 / 1000000000

/-! ## Private macros -/

/-- The macro `KUT_P_FAILURE`. -/
def KUT_P_FAILURE (site : Site) (s : State) : Outcome State :=
  let d := { s.kut_data with count_fail := s.kut_data.count_fail + 1 }
  let g :=
    if s.g.kut_verbose then
      KUT_LOG2 [.int site.line, .str " of file ", .str site.file]
        (KUT_LOG [.str "FAIL (", .int d.count_fail, .str "), on line "] s.g)
    else s.g
  let d := { d with kut_failflag := true }
  let g := { g with kut_fail_file := g.kut_fail_file ++ [site.file],
                    kut_fail_line := g.kut_fail_line ++ [site.line] }
  if d.StopTestOnFail then
    let d := { d with DoQuit := true }
    let g := KUT_LOG [.str "\n- PREMATURE ENDING of test due to failure!\n"] g
    let g := KUT_LOG [.str " - in function : ", .str site.func, .endl] g
    let g := KUT_LOG [.str " - Actual status : ", .int d.count_test, .str " tests done and ",
                      .int d.count_fail, .str " failure(s)\n\n"] g
    .exited { kut_data := d, g := g } 1
  else
    .next { kut_data := d, g := g }

/-- The macro `KUT_P11`, together with the `if( cond )` it completes:
`if( cond ) { if( kut_verbose ) KUT_LOG2 << "PASS"; } else { KUT_P_FAILURE }`. -/
def KUT_P11 (cond : Bool) (site : Site) (s : State) : Outcome State :=
  if cond then
    .next (if s.g.kut_verbose then { s with g := KUT_LOG2 [.str "PASS"] s.g } else s)
  else
    KUT_P_FAILURE site s

/-- The macro `KUT_P_STREAM_VALUES( a, b )`; `va` and `vb` are the streamed values. -/
def KUT_P_STREAM_VALUES (a b : String) (va vb : LogItem) (s : State) : State :=
  if s.kut_data.kut_failflag && s.g.kut_verbose then
    let g := KUT_LOG [.str "  -first value : \"", .str a, .str "\" = \"", va, .str "\"", .endl] s.g
    let g := KUT_LOG [.str "  -second value: \"", .str b, .str "\" = \"", vb, .str "\"", .endl] g
    { s with g := g }
  else s

/-- The macro `KUT_P2`. -/
def KUT_P2 (site : Site) (s : State) : State :=
  let d := { s.kut_data with count_test := s.kut_data.count_test + 1,
                             count_test2 := s.kut_data.count_test2 + 1 }
  let g :=
    if s.g.kut_verbose then
      KUT_LOG [.str " * Test ", .int d.count_test, .str " (", .int d.count_test1, .str ".",
               .int d.count_test2, .str "), line: ", .int site.line, .str ": "] s.g
    else s.g
  { kut_data := { d with kut_failflag := false }, g := g }

/-- The tail of the private comparison macros:
`if( kut_verbose ) KUT_LOG2 << ", expression: " << text << ENDL`. -/
def logExpression (text : List LogItem) (s : State) : State :=
  if s.g.kut_verbose then
    { s with g := KUT_LOG2 ([.str ", expression: "] ++ text ++ [.endl]) s.g }
  else s

/-- The macro `KUT_P_EQ( a, b )`; `eq` is the value of `(a) == (b)`. -/
def KUT_P_EQ (a b : String) (eq : Bool) (site : Site) (s : State) : Outcome State :=
  (KUT_P11 eq site (KUT_P2 site s)).andThen fun s =>
    .next (logExpression [.str a, .str " == ", .str b] s)

/-- The macro `KUT_P_DIFF( a, b )`; `ne` is the value of `(a) != (b)`. -/
def KUT_P_DIFF (a b : String) (ne : Bool) (site : Site) (s : State) : Outcome State :=
  (KUT_P11 ne site (KUT_P2 site s)).andThen fun s =>
    .next (logExpression [.str a, .str " != ", .str b] s)

/-- The macro `KUT_P_LESS( a, b )`; `lt` is the value of `(a) < (b)`. -/
def KUT_P_LESS (a b : String) (lt : Bool) (site : Site) (s : State) : Outcome State :=
  (KUT_P11 lt site (KUT_P2 site s)).andThen fun s =>
    .next (logExpression [.str a, .str " < ", .str b] s)

/-- The macro `KUT_P_TRUE( a )`; `va` is the value of `a` as an integer (a `bool` is 0 or
1), and `if( a )` takes the branch when it is not zero. -/
def KUT_P_TRUE (a : String) (va : Int) (site : Site) (s : State) : Outcome State :=
  (KUT_P11 (va != 0) site (KUT_P2 site s)).andThen fun s =>
    .next (logExpression [.str a, .str " is TRUE"] s)

/-- The macro `KUT_P_FALSE( a )`; the condition is `false == (a)`, where `false` is
promoted to the integer 0. -/
def KUT_P_FALSE (a : String) (va : Int) (site : Site) (s : State) : Outcome State :=
  (KUT_P11 (0 == va) site (KUT_P2 site s)).andThen fun s =>
    .next (logExpression [.str a, .str " is FALSE"] s)

/-! ## Assertion macros for the test function -/

/-- The macro `KUT_MSG( a )`. -/
def KUT_MSG (a : String) (s : State) : State :=
  let d := { s.kut_data with count_test1 := s.kut_data.count_test1 + 1 }
  let g :=
    if s.g.kut_verbose then
      let g := KUT_LOG [.endl] s.g
      let g := { g with kut_line_counter := g.kut_line_counter + 1 }
      KUT_LOG2 [.str "* Test msg (", .int d.count_test1, .str "): ", .str a, .str " TEMP ",
                .int g.kut_line_counter, .endl] g
    else s.g
  { kut_data := { d with count_test2 := 0 }, g := g }

/-- The macro `KUT_STOP_ON_FAIL( a )`. -/
def KUT_STOP_ON_FAIL (a : Bool) (s : State) : State :=
  if a then
    { kut_data := { s.kut_data with StopTestOnFail := true },
      g := KUT_LOG [.str " - Switching to mode \"StopTestOnFail\" : ON\n"] s.g }
  else
    { kut_data := { s.kut_data with StopTestOnFail := false },
      g := KUT_LOG [.str " - Switching to mode \"StopTestOnFail\" : OFF\n"] s.g }

/-- The macro `KUT_EQ_F( a, b )`, operands taken as exact rationals: the condition is
`fabs( (a) - (b) ) < KUT_EPSILON`. -/
def KUT_EQ_F (a b : String) (va vb : Rat) (site : Site) (s : State) : Outcome State :=
  (KUT_P11 (decide (|va - vb| < KUT_EPSILON)) site (KUT_P2 site s)).andThen fun s =>
    let s := { s with g := ifVerbose_KUT_LOG [.str ", expr: ", .str a, .str " == ", .str b, .endl] s.g }
    .next (KUT_P_STREAM_VALUES a b (.real va) (.real vb) s)

/-- The macro `KUT_EQ( a, b )`. -/
def KUT_EQ (a b va vb : String) (eq : Bool) (site : Site) (s : State) : Outcome State :=
  (KUT_P_EQ a b eq site s).andThen fun s =>
    .next (KUT_P_STREAM_VALUES a b (.str va) (.str vb) s)

/-- The macro `KUT_EQ_NS( a, b )`. -/
def KUT_EQ_NS (a b : String) (eq : Bool) (site : Site) (s : State) : Outcome State :=
  KUT_P_EQ a b eq site s

/-- The macro `KUT_DIFF( a, b )` (alias `KUT_NEQ`). -/
def KUT_DIFF (a b va vb : String) (ne : Bool) (site : Site) (s : State) : Outcome State :=
  (KUT_P_DIFF a b ne site s).andThen fun s =>
    .next (KUT_P_STREAM_VALUES a b (.str va) (.str vb) s)

/-- The macro `KUT_DIFF_NS( a, b )`. -/
def KUT_DIFF_NS (a b : String) (ne : Bool) (site : Site) (s : State) : Outcome State :=
  KUT_P_DIFF a b ne site s

/-- The macro `KUT_LESS( a, b )`. -/
def KUT_LESS (a b va vb : String) (lt : Bool) (site : Site) (s : State) : Outcome State :=
  (KUT_P_LESS a b lt site s).andThen fun s =>
    .next (KUT_P_STREAM_VALUES a b (.str va) (.str vb) s)

/-- The macro `KUT_LESS_NS( a, b )`. -/
def KUT_LESS_NS (a b : String) (lt : Bool) (site : Site) (s : State) : Outcome State :=
  KUT_P_LESS a b lt site s

/-- The macro `KUT_TRUE( a )`. -/
def KUT_TRUE (a : String) (va : Int) (site : Site) (s : State) : Outcome State :=
  (KUT_P_TRUE a va site s).andThen fun s =>
    .next (if s.kut_data.kut_failflag && s.g.kut_verbose then
        { s with g := KUT_LOG [.str "   - ", .str a, .str " : ", .str "false", .endl] s.g }
      else s)

/-- The macro `KUT_TRUE_NS( a )`. -/
def KUT_TRUE_NS (a : String) (va : Int) (site : Site) (s : State) : Outcome State :=
  KUT_P_TRUE a va site s

/-- The macro `KUT_TRUE_2( a, b )`; `vb` is the text of the streamed value of `b`. -/
def KUT_TRUE_2 (a b : String) (va : Int) (vb : String) (site : Site) (s : State) :
    Outcome State :=
  (KUT_P11 (va != 0) site (KUT_P2 site s)).andThen fun s =>
    .next (if s.g.kut_verbose then
        let g := KUT_LOG [.str ", expr: ", .str a, .endl] s.g
        let g := if s.kut_data.kut_failflag && s.g.kut_verbose then
            KUT_LOG [.str "   - ", .str b, .str " : ", .str vb, .endl] g
          else g
        { s with g := g }
      else s)

/-- The macro `KUT_TRUE_2P( a, b )`; `b.Print( stderr )` does not write to the log. -/
def KUT_TRUE_2P (a b : String) (va : Int) (site : Site) (s : State) : Outcome State :=
  (KUT_P11 (va != 0) site (KUT_P2 site s)).andThen fun s =>
    .next (if s.g.kut_verbose then
        let g := KUT_LOG [.str ", expr: ", .str a, .endl] s.g
        let g := if s.kut_data.kut_failflag then KUT_LOG [.str "   - ", .str b, .str " : "] g
          else g
        { s with g := g }
      else s)

/-- The macro `KUT_FALSE( a )`; `<< true` inserts the integer 1. -/
def KUT_FALSE (a : String) (va : Int) (site : Site) (s : State) : Outcome State :=
  (KUT_P_FALSE a va site s).andThen fun s =>
    .next (if s.kut_data.kut_failflag then
        { s with g := KUT_LOG [.str "   - ", .str a, .str " : ", .int 1, .endl] s.g }
      else s)

/-- The macro `KUT_FALSE_NS( a )`. -/
def KUT_FALSE_NS (a : String) (va : Int) (site : Site) (s : State) : Outcome State :=
  KUT_P_FALSE a va site s

/-- One use of a regular assertion macro, with the values its arguments evaluate to:
the result of the comparison operator for `==`, `!=` and `<`, and the integer value of
the argument of the truth macros. -/
inductive Assertion where
  | KUT_EQ (a b va vb : String) (eq : Bool)
  | KUT_EQ_NS (a b : String) (eq : Bool)
  | KUT_DIFF (a b va vb : String) (ne : Bool)
  | KUT_DIFF_NS (a b : String) (ne : Bool)
  | KUT_LESS (a b va vb : String) (lt : Bool)
  | KUT_LESS_NS (a b : String) (lt : Bool)
  | KUT_TRUE (a : String) (va : Int)
  | KUT_TRUE_NS (a : String) (va : Int)
  | KUT_FALSE (a : String) (va : Int)
  | KUT_FALSE_NS (a : String) (va : Int)
  deriving DecidableEq, Repr

/-- The predicate an assertion checks, as its macro writes it in the `if`. -/
def Assertion.pred : Assertion → Bool
  | .KUT_EQ _ _ _ _ eq => eq
  | .KUT_EQ_NS _ _ eq => eq
  | .KUT_DIFF _ _ _ _ ne => ne
  | .KUT_DIFF_NS _ _ ne => ne
  | .KUT_LESS _ _ _ _ lt => lt
  | .KUT_LESS_NS _ _ lt => lt
  | .KUT_TRUE _ va => va != 0
  | .KUT_TRUE_NS _ va => va != 0
  | .KUT_FALSE _ va => 0 == va
  | .KUT_FALSE_NS _ va => 0 == va

/-- Expansion of a regular assertion macro at `site`. -/
def Assertion.exec (site : Site) : Assertion → State → Outcome State
  | .KUT_EQ a b va vb eq => Kut.KUT_EQ a b va vb eq site
  | .KUT_EQ_NS a b eq => Kut.KUT_EQ_NS a b eq site
  | .KUT_DIFF a b va vb ne => Kut.KUT_DIFF a b va vb ne site
  | .KUT_DIFF_NS a b ne => Kut.KUT_DIFF_NS a b ne site
  | .KUT_LESS a b va vb lt => Kut.KUT_LESS a b va vb lt site
  | .KUT_LESS_NS a b lt => Kut.KUT_LESS_NS a b lt site
  | .KUT_TRUE a va => Kut.KUT_TRUE a va site
  | .KUT_TRUE_NS a va => Kut.KUT_TRUE_NS a va site
  | .KUT_FALSE a va => Kut.KUT_FALSE a va site
  | .KUT_FALSE_NS a va => Kut.KUT_FALSE_NS a va site

/-! ## Exception macros -/

/-- What running the argument of an exception macro raised. -/
inductive Raised where
  /-- the statement completed -/
  | nothing
  /-- an exception caught by the handler for std::exception, with its message -/
  | stdException (what : String)
  /-- anything else, caught by the catch-all handler -/
  | other
  deriving DecidableEq, Repr

/-- The macro `KUT_TRY_NOTHROW( a )` of `kut.h`. -/
def KUT_TRY_NOTHROW (a : String) (r : Raised) (site : Site) (s : State) : Outcome State :=
  let s := KUT_P2 site s
  match r with
  | .nothing =>
    .next { s with g := KUT_LOG2 [.str "PASS: expression: ", .str a,
                                  .str ": no exception throwed", .endl] s.g }
  | .stdException what =>
    (KUT_P_FAILURE site s).andThen fun s =>
      .next { s with g := KUT_LOG2 [.str ", exception msg: ", .str what, .endl] s.g }
  | .other =>
    (KUT_P_FAILURE site { s with g := KUT_LOG [.str "\nKUT: unhandled exception !!!\n"] s.g }).andThen
      fun s => .thrown s

/-- The macro `KUT_TRY_THROW( a )` of `kut.h`. -/
def KUT_TRY_THROW (a : String) (r : Raised) (site : Site) (s : State) : Outcome State :=
  let s := KUT_P2 site s
  match r with
  | .nothing =>
    (KUT_P_FAILURE site s).andThen fun s =>
      .next { s with g := KUT_LOG2 [.str ", statement did NOT throw exception", .endl] s.g }
  | .stdException _ =>
    .next { s with g := KUT_LOG2 [.str "PASS: expression: ", .str a,
                                  .str ": handled exception throwed\n"] s.g }
  | .other =>
    (KUT_P_FAILURE site { s with g := KUT_LOG [.str "KUT: unhandled exception !!!\n"] s.g }).andThen
      fun s => .thrown s

/-! ## Loop macros -/

/-- The variables declared by `KUT_LOOP_START`, and the position counter
`kut_loop_macro_count` that each iteration declares afresh. -/
structure LoopVars where
  kut_loop_line : Nat
  kut_loop_fails : List Nat
  kut_loop_expr_a : List String
  kut_loop_expr_b : List String
  kut_loop_expr_op : List String
  kut_loop_nb_iter : Nat
  kut_fail_flag : Bool
  kut_loop_macro_count : Nat
  deriving DecidableEq, Repr

/-- The macro `KUT_LOOP_START( nb_iter )` up to the `for` statement.  The statement
`if( kut_verbose ) KUT_LOG << ... << ++kut_data.count_test << ...` guards only the line
counter: the insertion, and with it the increment of `count_test`, is always executed. -/
def KUT_LOOP_START (nb_iter : Nat) (site : Site) (s : State) : State × LoopVars :=
  let d := { s.kut_data with count_test := s.kut_data.count_test + 1 }
  let g := ifVerbose_KUT_LOG [.str " * Test ", .int d.count_test, .str " (loop type) (",
                              .int d.count_test1, .str ".", .int d.count_test2, .str ")\n"] s.g
  ({ kut_data := d, g := g },
   { kut_loop_line := site.line, kut_loop_fails := [], kut_loop_expr_a := [],
     kut_loop_expr_b := [], kut_loop_expr_op := [], kut_loop_nb_iter := nb_iter,
     kut_fail_flag := false, kut_loop_macro_count := 0 })

/-- The macro `KUT_LOOP_P11( expr, op )` in iteration `kut_i`. -/
def KUT_LOOP_P11 (expr op : String) (kut_i : Nat) (v : LoopVars) : LoopVars :=
  if kut_i = 0 then
    { v with kut_loop_expr_a := v.kut_loop_expr_a ++ [expr],
             kut_loop_expr_b := v.kut_loop_expr_b ++ [""],
             kut_loop_expr_op := v.kut_loop_expr_op ++ [op],
             kut_loop_fails := v.kut_loop_fails ++ [0] }
  else v

/-- The macro `KUT_LOOP_P12( expr1, op, expr2 )` in iteration `kut_i`. -/
def KUT_LOOP_P12 (expr1 op expr2 : String) (kut_i : Nat) (v : LoopVars) : LoopVars :=
  if kut_i = 0 then
    { v with kut_loop_expr_a := v.kut_loop_expr_a ++ [expr1],
             kut_loop_expr_b := v.kut_loop_expr_b ++ [expr2],
             kut_loop_expr_op := v.kut_loop_expr_op ++ [op],
             kut_loop_fails := v.kut_loop_fails ++ [0] }
  else v

/-- The statement `if( failed ) KUT_LOOP_P2;`: the block of `KUT_LOOP_P2` is the body of
the `if`, the increment of `kut_loop_macro_count` follows it and is always executed.
`kut_loop_fails[kut_loop_macro_count]` outside the vector is undefined behaviour
(`none`). -/
def KUT_LOOP_P2 (failed : Bool) (v : LoopVars) : Option LoopVars :=
  if failed then
    if v.kut_loop_macro_count < v.kut_loop_fails.length then
      some { v with
        kut_loop_fails := v.kut_loop_fails.set v.kut_loop_macro_count
          (v.kut_loop_fails.getD v.kut_loop_macro_count 0 + 1),
        kut_fail_flag := true,
        kut_loop_macro_count := v.kut_loop_macro_count + 1 }
    else none
  else
    some { v with kut_loop_macro_count := v.kut_loop_macro_count + 1 }

/-- The macro `KUT_LOOP_TRUE( a )`: the check fails when `(a)==false`, where `false` is
promoted to the integer 0. -/
def KUT_LOOP_TRUE (a : String) (va : Int) (kut_i : Nat) (v : LoopVars) : Option LoopVars :=
  KUT_LOOP_P2 (va == 0) (KUT_LOOP_P11 a "TRUE" kut_i v)

/-- The macro `KUT_LOOP_FALSE( a )`: the check fails when `(a)==true`, where `true` is
promoted to the integer 1. -/
def KUT_LOOP_FALSE (a : String) (va : Int) (kut_i : Nat) (v : LoopVars) : Option LoopVars :=
  KUT_LOOP_P2 (va == 1) (KUT_LOOP_P11 a "FALSE" kut_i v)

/-- The macro `KUT_LOOP_EQU( a, b )`: the check fails when `false == ((a) == (b))`. -/
def KUT_LOOP_EQU (a b : String) (eq : Bool) (kut_i : Nat) (v : LoopVars) : Option LoopVars :=
  KUT_LOOP_P2 (false == eq) (KUT_LOOP_P12 a "EQUAL" b kut_i v)

/-- The macro `KUT_LOOP_DIFF( a, b )`: the check fails when `false == ((a) != (b))`. -/
def KUT_LOOP_DIFF (a b : String) (ne : Bool) (kut_i : Nat) (v : LoopVars) : Option LoopVars :=
  KUT_LOOP_P2 (false == ne) (KUT_LOOP_P12 a "DIFF" b kut_i v)

/-- The macro `KUT_LOOP_LESS( a, b )`: the check fails when `false == ((a) < (b))`. -/
def KUT_LOOP_LESS (a b : String) (lt : Bool) (kut_i : Nat) (v : LoopVars) : Option LoopVars :=
  KUT_LOOP_P2 (false == lt) (KUT_LOOP_P12 a "LESS" b kut_i v)

/-- One use of a loop check macro in one iteration, with the values its arguments
evaluate to in that iteration. -/
inductive LoopCheck where
  | KUT_LOOP_TRUE (a : String) (va : Int)
  | KUT_LOOP_FALSE (a : String) (va : Int)
  | KUT_LOOP_EQU (a b : String) (eq : Bool)
  | KUT_LOOP_DIFF (a b : String) (ne : Bool)
  | KUT_LOOP_LESS (a b : String) (lt : Bool)
  deriving DecidableEq, Repr

/-- The condition under which a loop check registers a failure, as its macro writes it. -/
def LoopCheck.failed : LoopCheck → Bool
  | .KUT_LOOP_TRUE _ va => va == 0
  | .KUT_LOOP_FALSE _ va => va == 1
  | .KUT_LOOP_EQU _ _ eq => false == eq
  | .KUT_LOOP_DIFF _ _ ne => false == ne
  | .KUT_LOOP_LESS _ _ lt => false == lt

/-- Expansion of a loop check macro in iteration `kut_i`. -/
def LoopCheck.exec (kut_i : Nat) : LoopCheck → LoopVars → Option LoopVars
  | .KUT_LOOP_TRUE a va => Kut.KUT_LOOP_TRUE a va kut_i
  | .KUT_LOOP_FALSE a va => Kut.KUT_LOOP_FALSE a va kut_i
  | .KUT_LOOP_EQU a b eq => Kut.KUT_LOOP_EQU a b eq kut_i
  | .KUT_LOOP_DIFF a b ne => Kut.KUT_LOOP_DIFF a b ne kut_i
  | .KUT_LOOP_LESS a b lt => Kut.KUT_LOOP_LESS a b lt kut_i

/-- The loop checks of one iteration, in order, from the variables `v`. -/
def loopChecks (kut_i : Nat) : List LoopCheck → LoopVars → Option LoopVars
  | [], v => some v
  | c :: cs, v => (c.exec kut_i v).bind (loopChecks kut_i cs)

/-- One iteration of the `for` statement: `unsigned int kut_loop_macro_count = 0;`
followed by the checks of the body. -/
def loopIteration (kut_i : Nat) (checks : List LoopCheck) (v : LoopVars) : Option LoopVars :=
  loopChecks kut_i checks { v with kut_loop_macro_count := 0 }

/-- The statement `for( unsigned int kut_i=0; kut_i<nb_iter; kut_i++ )`: `loopFor body n`
runs the iterations `0, ..., n-1`, where `body kut_i` lists the checks made by
iteration `kut_i`. -/
def loopFor (body : Nat → List LoopCheck) : Nat → LoopVars → Option LoopVars
  | 0, v => some v
  | n + 1, v => (loopFor body n v).bind (loopIteration n (body n))

/-- The value of `100.0*kut_loop_fails.at(kut_i)/kut_loop_nb_iter`, as an exact
rational (the rounding of the `double` division is not represented). -/
def loopPercent (fails nb_iter : Nat) : Rat := 100 * (fails : Rat) / (nb_iter : Rat)

/-- The body of the summary loop of `KUT_LOOP_END` for slot `kut_i`.  The four vectors
have the same length, so that `.at( kut_i )` is always inside them. -/
def loopSummaryLine (count_test : Int) (v : LoopVars) (kut_i : Nat) (g : Globals) : Globals :=
  let g := KUT_LOG [.str "   - subtest ", .int count_test, .str ".", .int (kut_i + 1),
                    .str ", expr: ", .str (v.kut_loop_expr_a.getD kut_i "")] g
  let g := KUT_LOG2 [.str "  ", .str (v.kut_loop_expr_op.getD kut_i ""), .str " ",
                     .str (v.kut_loop_expr_b.getD kut_i "")] g
  let g := KUT_LOG2 [.str ", failed: ", .int (v.kut_loop_fails.getD kut_i 0)] g
  KUT_LOG2 [.str " over ", .int v.kut_loop_nb_iter, .str " (",
            .real (loopPercent (v.kut_loop_fails.getD kut_i 0) v.kut_loop_nb_iter),
            .str " %)\n"] g

/-- The macro `KUT_LOOP_END`, after the closing brace of the `for` statement. -/
def KUT_LOOP_END (site : Site) (v : LoopVars) (s : State) : Outcome State :=
  let g :=
    if s.g.kut_verbose then
      let g := KUT_LOG [.str (if v.kut_fail_flag then "FAIL" else "PASS"), .str ", ",
                        .int v.kut_loop_nb_iter, .str " iterations, at line ",
                        .int v.kut_loop_line, .endl] s.g
      (List.range v.kut_loop_fails.length).foldl
        (fun g kut_i => loopSummaryLine s.kut_data.count_test v kut_i g) g
    else s.g
  if v.kut_fail_flag == true then
    let d := { s.kut_data with count_fail := s.kut_data.count_fail + 1 }
    let g := { g with kut_fail_file := g.kut_fail_file ++ [site.file],
                      kut_fail_line := g.kut_fail_line ++ [v.kut_loop_line] }
    if d.StopTestOnFail then
      let d := { d with DoQuit := true }
      let g := KUT_LOG [.str "\n- PREMATURE ENDING of test due to failure!\n"] g
      let g := KUT_LOG [.str " - in function : ", .str site.func, .endl] g
      let g := KUT_LOG [.str " - Actual status : ", .int d.count_test, .str " tests done and ",
                        .int d.count_fail, .str " failure(s)\n\n"] g
      .exited { kut_data := d, g := g } 1
    else
      .next { kut_data := d, g := g }
  else
    .next { kut_data := s.kut_data, g := g }

/-- A loop block `KUT_LOOP_START( nb_iter ) { body } KUT_LOOP_END;` whose body consists
of loop checks; `start` and `finish` are the sites of the two macros, and `nb_iter` is
the value of the macro argument, the same at every evaluation. -/
def KUT_LOOP (start finish : Site) (nb_iter : Nat) (body : Nat → List LoopCheck)
    (s : State) : Outcome State :=
  let (s, v) := KUT_LOOP_START nb_iter start s
  match loopFor body nb_iter v with
  | some v => KUT_LOOP_END finish v s
  | none => .undefined

/-! ## Test functions -/

/-- A function of type `KUT_TYPE f()`, as a function of the globals it finds: the outcome
`returned s` stands for `return s.kut_data` with the globals left as `s.g`. -/
abbrev TestFn := Globals → Outcome State

/-- The statements of `KUT_EXECFUNC( a )` that precede the assignment `kut_data = a`.
As in `KUT_LOOP_START`, the `if( kut_verbose )` guards only the line counter. -/
def KUT_EXECFUNC_before (a : String) (s : State) : State :=
  let g := ifVerbose_KUT_LOG [.str "\n - Starting function : ", .str a, .endl] s.g
  let d := { s.kut_data with count_test1 := s.kut_data.count_test1 + 1 }
  { kut_data := { d with count_test2 := 0 }, g := g }

/-- The macro `KUT_EXECFUNC( a )`.  `callee` is the expression written as `a`, a call
that returns a `KUT_TYPE`: it is evaluated in the state the preceding statements left,
where it can read the local `kut_data` and the globals, and `returned r` stands for the
value `r.kut_data` with the globals left as `r.g`. -/
def KUT_EXECFUNC (a : String) (callee : State → Outcome State) (s : State) : Outcome State :=
  match callee (KUT_EXECFUNC_before a s) with
  | .returned r => if r.kut_data.DoQuit == true then .returned r else .next r
  | .exited r c => .exited r c
  | .thrown r => .thrown { kut_data := (KUT_EXECFUNC_before a s).kut_data, g := r.g }
  | .next _ => .undefined
  | .undefined => .undefined

/-- One statement of a test function. -/
inductive Op where
  | assert (site : Site) (a : Assertion)
  | KUT_EQ_F (site : Site) (a b : String) (va vb : Rat)
  | KUT_TRUE_2 (site : Site) (a b : String) (va : Int) (vb : String)
  | KUT_TRUE_2P (site : Site) (a b : String) (va : Int)
  | KUT_MSG (a : String)
  | KUT_STOP_ON_FAIL (a : Bool)
  | KUT_TRY_NOTHROW (site : Site) (a : String) (r : Raised)
  | KUT_TRY_THROW (site : Site) (a : String) (r : Raised)
  | KUT_LOOP (start finish : Site) (nb_iter : Nat) (body : Nat → List LoopCheck)
  | KUT_EXECFUNC (a : String) (callee : State → Outcome State)

/-- Expansion of one statement. -/
def Op.exec : Op → State → Outcome State
  | .assert site a => a.exec site
  | .KUT_EQ_F site a b va vb => Kut.KUT_EQ_F a b va vb site
  | .KUT_TRUE_2 site a b va vb => Kut.KUT_TRUE_2 a b va vb site
  | .KUT_TRUE_2P site a b va => Kut.KUT_TRUE_2P a b va site
  | .KUT_MSG a => fun s => .next (Kut.KUT_MSG a s)
  | .KUT_STOP_ON_FAIL a => fun s => .next (Kut.KUT_STOP_ON_FAIL a s)
  | .KUT_TRY_NOTHROW site a r => Kut.KUT_TRY_NOTHROW a r site
  | .KUT_TRY_THROW site a r => Kut.KUT_TRY_THROW a r site
  | .KUT_LOOP start finish nb_iter body => Kut.KUT_LOOP start finish nb_iter body
  | .KUT_EXECFUNC a callee => Kut.KUT_EXECFUNC a callee

/-- The statements of a test function, one after the other. -/
def run : List Op → State → Outcome State
  | [], s => .next s
  | op :: ops, s => (op.exec s).andThen (run ops)

/-- The macro `KUT_CTM_START( a )`. -/
def KUT_CTM_START (a : String) (site : Site) (g : Globals) : State :=
  let g := { g with kut_fail_file := [], kut_fail_line := [] }
  let g := { g with kut_line_counter := g.kut_line_counter + 1 }
  { kut_data := KUT_TYPE.init,
    g := KUT_LOG2 [.str "- BEGIN unit test of class ", .str a, .str ", file: ", .str site.file,
                   .str " TEMP ", .int g.kut_line_counter, .endl] g }

/-- The loop of `KUT_CTM_END` over the recorded failure sites: index `kut_i` runs over
`kut_fail_line`; `kut_fail_file.at( kut_i )` beyond the end of `kut_fail_file` throws,
which the second component reports as `false`. -/
def logFailedSites : List Nat → List String → Globals → Globals × Bool
  | [], _, g => (g, true)
  | _ :: _, [], g => ({ g with kut_line_counter := g.kut_line_counter + 1 }, false)
  | l :: ls, f :: fs, g =>
    logFailedSites ls fs
      (KUT_LOG [.str " - failed at line ", .int l, .str " of file ", .str f, .endl] g)

/-- The macro `KUT_CTM_END`; `kut_class_name` is the local set by `KUT_CTM_START`. -/
def KUT_CTM_END (kut_class_name : String) (s : State) : Outcome State :=
  let g := { s.g with kut_line_counter := s.g.kut_line_counter + 1 }
  let g := KUT_LOG2 [.str "- END Unit test of class ", .str kut_class_name, .str ", ",
                     .int s.kut_data.count_test, .str " tests done and ",
                     .int s.kut_data.count_fail, .str " failure(s)", .str " TEMP ",
                     .int g.kut_line_counter, .endl] g
  let r := if s.kut_data.count_fail > 0 then logFailedSites s.g.kut_fail_line s.g.kut_fail_file g
    else (g, true)
  if r.2 then .returned { s with g := KUT_LOG [.endl] r.1 }
  else .thrown { s with g := r.1 }

/-- The macro `KUT_FT_START( a )`; `site.func` is `__FUNCTION__`. -/
def KUT_FT_START (a : String) (site : Site) (g : Globals) : State :=
  let g := { g with kut_fail_file := [], kut_fail_line := [] }
  let g := { g with kut_line_counter := g.kut_line_counter + 1 }
  { kut_data := KUT_TYPE.init,
    g := KUT_LOG2 [.str "- BEGIN unit test of function \x27", .str a,
                   .str "()\x27 through test function ", .str site.func,
                   .str " TEMP ", .int g.kut_line_counter, .endl] g }

/-- The macro `KUT_FT_END`. -/
def KUT_FT_END (s : State) : Outcome State :=
  .returned { s with g := KUT_LOG [.str "\n- END of test function, ", .int s.kut_data.count_test,
                                  .str " tests and ", .int s.kut_data.count_fail,
                                  .str " failure(s)\n\n"] s.g }

/-- A class test method: `KUT_CTM_START( a ); ops; KUT_CTM_END;`. -/
def classTest (a : String) (site : Site) (ops : List Op) : TestFn :=
  fun g => (run ops (KUT_CTM_START a site g)).andThen (KUT_CTM_END a)

/-- A test function: `KUT_FT_START( a ); ops; KUT_FT_END;`. -/
def functionTest (a : String) (site : Site) (ops : List Op) : TestFn :=
  fun g => (run ops (KUT_FT_START a site g)).andThen KUT_FT_END

/-! ## The test application -/

/-- What `main` sees: its local `kut_m` and the globals. -/
structure Suite where
  kut_m : KUT_MASTER
  g : Globals
  deriving DecidableEq, Repr

/-- The statements of `KUT_MAIN_START` that follow the opening of the two files;
`asctime` is the text of the current time. -/
def KUT_MAIN_START_log (asctime : String) (g : Globals) : Suite :=
  let g := KUT_LOG [.str "KUT logfile, created at ", .str asctime] g
  let g := KUT_LOG [.str " - version of KUT is ", .str "20120518", .endl] g
  { kut_m := KUT_MASTER.init, g := g }

/-- The macro `KUT_MAIN_START`.  `logOpened` and `stderrReopened` tell whether the two
files could be opened. -/
def KUT_MAIN_START (logOpened stderrReopened : Bool) (asctime : String) (g : Globals) :
    Outcome Suite :=
  if !logOpened then .exited { kut_m := KUT_MASTER.init, g := g } 1
  else if !stderrReopened then .exited { kut_m := KUT_MASTER.init, g := g } 1
  else .next (KUT_MAIN_START_log asctime g)

/-- The part of `KUT_TEST_CLASS` and `KUT_TEST_FUNC` that follows the call of the test:
`kut_data` is the context the test returned. -/
def recordUnitTest (name : String) (type : Int) (kut_data : KUT_TYPE) (s : Suite) : Suite :=
  let m := { s.kut_m with NbTestTot := s.kut_m.NbTestTot + kut_data.count_test }
  if kut_data.count_fail == 0 then
    { s with kut_m := m }
  else
    { s with kut_m :=
      { m with NbFailureTot := m.NbFailureTot + kut_data.count_fail,
               NbUTFailures := m.NbUTFailures + 1,
               v_failed_test_name := m.v_failed_test_name ++ [name],
               v_failed_test_type := m.v_failed_test_type ++ [type],
               v_failed_test_logline := m.v_failed_test_logline ++ [s.g.kut_line_counter] } }

/-- The call `KUT_TYPE kut_data = test();` inside `main`, followed by `record`. -/
def callUnitTest (test : TestFn) (record : KUT_TYPE → Suite → Suite) (s : Suite) :
    Outcome Suite :=
  match test s.g with
  | .returned r => .next (record r.kut_data { s with g := r.g })
  | .exited r c => .exited { s with g := r.g } c
  | .thrown r => .thrown { s with g := r.g }
  | .next _ => .undefined
  | .undefined => .undefined

/-- The statements of `KUT_TEST_CLASS( A )` and `KUT_TEST_FUNC( a )` before the call
of the test; `testing` is the text `", testing class "` or `", testing function "`.  The default
constructor of the tested class, which `KUT_TEST_CLASS` runs first, is user code and is
left out. -/
def announceUnitTest (testing name : String) (s : Suite) : Suite :=
  let m := { s.kut_m with NbUnitTests := s.kut_m.NbUnitTests + 1 }
  let g := KUT_LOG [.str "*****************************************************\n"] s.g
  let g := { g with kut_line_counter := g.kut_line_counter + 1 }
  let g := KUT_LOG2 [.str "* Unit test no ", .int m.NbUnitTests, .str testing, .str name,
                     .str " TEMP ", .int g.kut_line_counter, .endl] g
  { kut_m := m, g := g }

/-- The macro `KUT_TEST_CLASS( A )`; `cutm` is the method `A::KUT_CUTM`. -/
def KUT_TEST_CLASS (A : String) (cutm : TestFn) (s : Suite) : Outcome Suite :=
  callUnitTest cutm (recordUnitTest A 0) (announceUnitTest ", testing class " A s)

/-- The macro `KUT_TEST_FUNC( a )`; `f` is the function named `a`. -/
def KUT_TEST_FUNC (a : String) (f : TestFn) (s : Suite) : Outcome Suite :=
  callUnitTest f (recordUnitTest a 1) (announceUnitTest ", testing function " a s)

/-- One line of `main` between `KUT_MAIN_START` and `KUT_MAIN_END`. -/
inductive UnitTest where
  | KUT_TEST_CLASS (A : String) (cutm : TestFn)
  | KUT_TEST_FUNC (a : String) (f : TestFn)

/-- Expansion of one line of `main`. -/
def UnitTest.exec : UnitTest → Suite → Outcome Suite
  | .KUT_TEST_CLASS A cutm => Kut.KUT_TEST_CLASS A cutm
  | .KUT_TEST_FUNC a f => Kut.KUT_TEST_FUNC a f

/-- The outcome of the call of the test function made by one line of `main`. -/
def UnitTest.call : UnitTest → Suite → Outcome State
  | .KUT_TEST_CLASS A cutm => fun s => cutm (announceUnitTest ", testing class " A s).g
  | .KUT_TEST_FUNC a f => fun s => f (announceUnitTest ", testing function " a s).g

/-- The lines of `main`, one after the other. -/
def runTests : List UnitTest → Suite → Outcome Suite
  | [], s => .next s
  | t :: ts, s => (t.exec s).andThen (runTests ts)

/-- The contexts the test functions return to `main`, in the order of the calls, up to
the first test that does not return. -/
def returnedContexts : List UnitTest → Suite → List KUT_TYPE
  | [], _ => []
  | t :: ts, s =>
    match t.call s, t.exec s with
    | .returned r, .next s1 => r.kut_data :: returnedContexts ts s1
    | _, _ => []

/-- The body of the `for` statement of `KUT_MAIN_END` for index `i`. -/
def logFailedTest (m : KUT_MASTER) (i : Nat) (g : Globals) : Globals :=
  let g := KUT_LOG [.int i, .str ": test failed for "] g
  let g := if m.v_failed_test_type.getD i 0 == 0 then KUT_LOG2 [.str "class"] g
    else KUT_LOG2 [.str "function"] g
  let g := KUT_LOG2 [.str ": ", .str (m.v_failed_test_name.getD i "")] g
  KUT_LOG2 [.str ", see at line ", .int (m.v_failed_test_logline.getD i 0), .endl] g

/-- The macro `KUT_MAIN_END`: the final state, and the value of
`return kut_m.NbFailureTot`. -/
def KUT_MAIN_END (s : Suite) : Suite × Int :=
  let m := s.kut_m
  let g := KUT_LOG [.str "*****************************************************\n"] s.g
  let g := KUT_LOG [.str "Test end :"] g
  let g := KUT_LOG [.str " - Nb of U.T. = ", .int m.NbUnitTests, .endl] g
  let g := KUT_LOG [.str " - Nb U.T. Failures = ", .int m.NbUTFailures, .endl] g
  let g := KUT_LOG [.str " - Total Nb of tests = ", .int m.NbTestTot, .endl] g
  let g := KUT_LOG [.str " - Total Nb failures = ", .int m.NbFailureTot, .endl] g
  let g := if m.v_failed_test_name.length != 0 then
      { g with kut_line_counter := g.kut_line_counter + 1 }
    else g
  let g := KUT_LOG2 [.str " - List of failed tests:", .endl] g
  let g := (List.range m.v_failed_test_name.length).foldl (fun g i => logFailedTest m i g) g
  ({ s with g := g }, m.NbFailureTot)

/-- How the function `main` of a test application ends. -/
inductive MainResult where
  /-- the `return` of `KUT_MAIN_END` was reached, with this value -/
  | returned (s : Suite) (value : Int)
  /-- `exit( status )` was called before -/
  | exited (s : Suite) (status : Int)
  /-- an exception left `main` -/
  | thrown (s : Suite)
  /-- undefined behaviour -/
  | undefined
  deriving Repr

/-- The function `main` of the documentation:
`KUT_MAIN_START; tests; KUT_MAIN_END;` after `KUT_ALLOC`. -/
def testMain (KUT_VERBOSE_MODE logOpened stderrReopened : Bool) (asctime : String)
    (tests : List UnitTest) : MainResult :=
  match (KUT_MAIN_START logOpened stderrReopened asctime (KUT_ALLOC KUT_VERBOSE_MODE)).andThen
      (runTests tests) with
  | .next s => .returned (KUT_MAIN_END s).1 (KUT_MAIN_END s).2
  | .returned _ => .undefined
  | .exited s c => .exited s c
  | .thrown s => .thrown s
  | .undefined => .undefined

/-! ## The counters of a test, without the log -/

/-- What a state holds besides the log file and its line counter. -/
structure Counters where
  kut_data : KUT_TYPE
  kut_fail_file : List String
  kut_fail_line : List Nat
  kut_verbose : Bool
  deriving DecidableEq, Repr

/-- Forget the log file and its line counter. -/
def State.counters (s : State) : Counters :=
  { kut_data := s.kut_data, kut_fail_file := s.g.kut_fail_file,
    kut_fail_line := s.g.kut_fail_line, kut_verbose := s.g.kut_verbose }

/-- Apply a function to the state an outcome carries. -/
def Outcome.map {σ τ : Type} (f : σ → τ) : Outcome σ → Outcome τ
  | .next s => .next (f s)
  | .returned s => .returned (f s)
  | .exited s c => .exited (f s) c
  | .thrown s => .thrown (f s)
  | .undefined => .undefined

/-- The counters after the statements of `KUT_P2`. -/
def Counters.afterP2 (c : Counters) : Counters :=
  { c with kut_data := { c.kut_data with count_test := c.kut_data.count_test + 1,
                                         count_test2 := c.kut_data.count_test2 + 1,
                                         kut_failflag := false } }

/-- The counters after the statements of `KUT_P_FAILURE` expanded at `site`, and whether
`exit(1)` was reached. -/
def Counters.afterFailure (site : Site) (c : Counters) : Outcome Counters :=
  if c.kut_data.StopTestOnFail then
    .exited { c with kut_data := { c.kut_data with count_fail := c.kut_data.count_fail + 1,
                                                   kut_failflag := true, DoQuit := true },
                     kut_fail_file := c.kut_fail_file ++ [site.file],
                     kut_fail_line := c.kut_fail_line ++ [site.line] } 1
  else
    .next { c with kut_data := { c.kut_data with count_fail := c.kut_data.count_fail + 1,
                                                 kut_failflag := true },
                   kut_fail_file := c.kut_fail_file ++ [site.file],
                   kut_fail_line := c.kut_fail_line ++ [site.line] }

/-- The counters after a regular assertion expanded at `site` whose predicate has the
value `pred`. -/
def Counters.afterAssertion (pred : Bool) (site : Site) (c : Counters) : Outcome Counters :=
  if pred then .next c.afterP2 else c.afterP2.afterFailure site

/-- The counters after the statements of `KUT_LOOP_START` that precede the `for`. -/
def Counters.afterLoopStart (c : Counters) : Counters :=
  { c with kut_data := { c.kut_data with count_test := c.kut_data.count_test + 1 } }

/-- The counters after `KUT_LOOP_END` expanded in `file`, for a loop block that started
at `kut_loop_line` and whose flag `kut_fail_flag` has the value `failed`. -/
def Counters.afterLoopEnd (file : String) (kut_loop_line : Nat) (failed : Bool) (c : Counters) :
    Outcome Counters :=
  if failed then
    if c.kut_data.StopTestOnFail then
      .exited { c with kut_data := { c.kut_data with count_fail := c.kut_data.count_fail + 1,
                                                     DoQuit := true },
                       kut_fail_file := c.kut_fail_file ++ [file],
                       kut_fail_line := c.kut_fail_line ++ [kut_loop_line] } 1
    else
      .next { c with kut_data := { c.kut_data with count_fail := c.kut_data.count_fail + 1 },
                     kut_fail_file := c.kut_fail_file ++ [file],
                     kut_fail_line := c.kut_fail_line ++ [kut_loop_line] }
  else .next c

/-- The macro `KUT_TRY_NOTHROW( a )` of `kut2.h`, which repeats that of `kut.h`. -/
def Kut2.KUT_TRY_NOTHROW (a : String) (r : Raised) (site : Site) (s : State) : Outcome State :=
  let s := KUT_P2 site s
  match r with
  | .nothing =>
    .next { s with g := KUT_LOG2 [.str "PASS: expression: ", .str a,
                                  .str ": no exception throwed", .endl] s.g }
  | .stdException what =>
    (KUT_P_FAILURE site s).andThen fun s =>
      .next { s with g := KUT_LOG2 [.str ", exception msg: ", .str what, .endl] s.g }
  | .other =>
    (KUT_P_FAILURE site { s with g := KUT_LOG [.str "\nKUT: unhandled exception !!!\n"] s.g }).andThen
      fun s => .thrown s

/-- The macro `KUT_TRY_THROW( a )` of `kut2.h`: it differs from that of `kut.h` in the
logged text. -/
def Kut2.KUT_TRY_THROW (a : String) (r : Raised) (site : Site) (s : State) : Outcome State :=
  let s := KUT_P2 site s
  match r with
  | .nothing =>
    (KUT_P_FAILURE site s).andThen fun s =>
      .next { s with g := KUT_LOG2 [.str ", statement did NOT throw exception\n"] s.g }
  | .stdException what =>
    .next { s with g := KUT_LOG2 [.str "PASS: expression: ", .str a,
                                  .str ": handled exception throwed, msg=", .str what,
                                  .str "\n"] s.g }
  | .other =>
    (KUT_P_FAILURE site { s with g := KUT_LOG [.str "KUT: unhandled exception !!!\n"] s.g }).andThen
      fun s => .thrown s

/-- The counters after `KUT_TRY_THROW` expanded at `site`, when its argument raised `r`. -/
def Counters.afterTryThrow (r : Raised) (site : Site) (c : Counters) : Outcome Counters :=
  match r with
  | .nothing => c.afterP2.afterFailure site
  | .stdException _ => .next c.afterP2
  | .other => (c.afterP2.afterFailure site).andThen fun c => .thrown c

/-- The counters after `KUT_TRY_NOTHROW` expanded at `site`, when its argument raised `r`. -/
def Counters.afterTryNoThrow (r : Raised) (site : Site) (c : Counters) : Outcome Counters :=
  match r with
  | .nothing => .next c.afterP2
  | .stdException _ => c.afterP2.afterFailure site
  | .other => (c.afterP2.afterFailure site).andThen fun c => .thrown c

/-- The statements of a test that consists of regular assertions. -/
def assertions (as : List (Site × Assertion)) : List Op :=
  as.map fun p => Op.assert p.1 p.2

/-- Whether the check at position `j` of the list registered a failure (`false` when the
list has no check at that position). -/
def failedIn : List LoopCheck → Nat → Bool
  | [], _ => false
  | c :: _, 0 => c.failed
  | _ :: cs, j + 1 => failedIn cs j

/-- Whether the check at position `j` of iteration `i` registered a failure. -/
def failedAt (body : Nat → List LoopCheck) (i j : Nat) : Bool :=
  failedIn (body i) j

/-- Whether some check of some iteration below `n` registered a failure. -/
def anyFailed (body : Nat → List LoopCheck) (n : Nat) : Bool :=
  (List.range n).any fun i => (body i).any LoopCheck.failed

/-- The variables of a loop block when the `for` statement starts. -/
def LoopVars.init (kut_loop_line nb_iter : Nat) : LoopVars :=
  { kut_loop_line := kut_loop_line, kut_loop_fails := [], kut_loop_expr_a := [],
    kut_loop_expr_b := [], kut_loop_expr_op := [], kut_loop_nb_iter := nb_iter,
    kut_fail_flag := false, kut_loop_macro_count := 0 }

/-- The failure site a statement records when it fails (`none` when it passes or is no
check): the file and line of the macro for an assertion, the file of `KUT_LOOP_END` and
the line of `KUT_LOOP_START` for a loop block. -/
def Op.failureSite : Op → Option (String × Nat)
  | .assert site a => if a.pred then none else some (site.file, site.line)
  | .KUT_EQ_F site _ _ va vb =>
    if decide (|va - vb| < KUT_EPSILON) then none else some (site.file, site.line)
  | .KUT_TRUE_2 site _ _ va _ => if va != 0 then none else some (site.file, site.line)
  | .KUT_TRUE_2P site _ _ va => if va != 0 then none else some (site.file, site.line)
  | .KUT_MSG _ => none
  | .KUT_STOP_ON_FAIL _ => none
  | .KUT_TRY_NOTHROW _ _ .nothing => none
  | .KUT_TRY_NOTHROW site _ (.stdException _) => some (site.file, site.line)
  | .KUT_TRY_NOTHROW site _ .other => some (site.file, site.line)
  | .KUT_TRY_THROW site _ .nothing => some (site.file, site.line)
  | .KUT_TRY_THROW _ _ (.stdException _) => none
  | .KUT_TRY_THROW site _ .other => some (site.file, site.line)
  | .KUT_LOOP start finish nb_iter body =>
    if anyFailed body nb_iter then some (finish.file, start.line) else none
  | .KUT_EXECFUNC _ _ => none

/-- The counters `c2` come from `c` by recording the failure site `site`, if any. -/
def Counters.recordedFrom (c2 c : Counters) (site : Option (String × Nat)) : Prop :=
  c2.kut_fail_file = c.kut_fail_file ++ (site.map Prod.fst).toList ∧
  c2.kut_fail_line = c.kut_fail_line ++ (site.map Prod.snd).toList ∧
  c2.kut_data.count_fail = c.kut_data.count_fail + (site.toList.length : Int)

/-- The name a line of `main` gives to its test: the stringified macro argument. -/
def UnitTest.name : UnitTest → String
  | .KUT_TEST_CLASS A _ => A
  | .KUT_TEST_FUNC a _ => a

/-- The tag `KUT_TEST_CLASS` (0) or `KUT_TEST_FUNC` (1) pushes to `v_failed_test_type`. -/
def UnitTest.type : UnitTest → Int
  | .KUT_TEST_CLASS _ _ => 0
  | .KUT_TEST_FUNC _ _ => 1

/-- The tests that returned a non-zero `count_fail`, among tests paired with the
contexts they returned. -/
def failedTests (tests : List UnitTest) (ds : List KUT_TYPE) : List UnitTest :=
  ((tests.zip ds).filter fun p => p.2.count_fail != 0).map Prod.fst

/-! ## Example tests -/

/-- A site of the example test file, at the given line. -/
def exampleSite (line : Nat) : Site :=
  { line := line, file := "test_classes.cpp", func := "KUT_TYPE KUT_CUTM()" }

/-- A class test with three assertions, the second of which fails. -/
def exampleTestA : TestFn :=
  classTest "ClassA" (exampleSite 10)
    (assertions [(exampleSite 11, .KUT_TRUE_NS "a.ok()" 1),
                 (exampleSite 12, .KUT_EQ "a.size()" "3" "2" "3" false),
                 (exampleSite 13, .KUT_FALSE_NS "a.empty()" 0)])

/-- A class test with two assertions, both passing. -/
def exampleTestB : TestFn :=
  classTest "ClassB" (exampleSite 20)
    (assertions [(exampleSite 21, .KUT_DIFF_NS "b1" "b2" true),
                 (exampleSite 22, .KUT_LESS "b1" "b2" "1" "2" true)])

/-- The lines of `main` of the example application. -/
def exampleMain : List UnitTest :=
  [.KUT_TEST_CLASS "ClassA" exampleTestA, .KUT_TEST_CLASS "ClassB" exampleTestB]

/-- A function test with one failing assertion. -/
def exampleTestF : TestFn :=
  functionTest "MyFunc" { line := 30, file := "test_funcs.cpp", func := "MyTestFunc" }
    (assertions [({ line := 31, file := "test_funcs.cpp", func := "KUT_TYPE MyTestFunc()" },
                  .KUT_TRUE "MyFunc(4) == 2" 0)])

/-- The body of a loop block with two checks; the second fails in iterations 3 and 4. -/
def exampleLoopBody (kut_i : Nat) : List LoopCheck :=
  [.KUT_LOOP_LESS "lo()" "hi()" true,
   .KUT_LOOP_EQU "f(i)" "g(i)" (decide (kut_i < 3 ∨ 4 < kut_i))]

/-- A context in which seven assertions were made, two of which failed. -/
def exampleState (StopTestOnFail kut_verbose : Bool) : State :=
  { kut_data := { count_fail := 2, count_test := 7, count_test1 := 1, count_test2 := 4,
                  StopTestOnFail := StopTestOnFail, DoQuit := false, kut_failflag := false },
    g := { kut_fail_file := ["test_classes.cpp", "test_classes.cpp"], kut_fail_line := [12, 15],
           kut_verbose := kut_verbose, kut_logfile := [], kut_line_counter := 40 } }

/-- The body of a loop block of 50 iterations with one check, whose predicate fails in
iterations 10 to 20. -/
def exampleLoopBody50 (kut_i : Nat) : List LoopCheck :=
  [.KUT_LOOP_TRUE "pred(kut_i)" (if 10 ≤ kut_i ∧ kut_i ≤ 20 then 0 else 1)]

/-- The counters `d2` come from `d1` by counting tests: neither counter decreased, and
`count_fail` grew by no more than `count_test`. -/
def KUT_TYPE.countedFrom (d2 d1 : KUT_TYPE) : Prop :=
  d1.count_test ≤ d2.count_test ∧ d1.count_fail ≤ d2.count_fail ∧
    d2.count_fail - d1.count_fail ≤ d2.count_test - d1.count_test

/-- Whether a statement is a use of `KUT_EXECFUNC`. -/
def Op.isExecFunc : Op → Bool
  | .KUT_EXECFUNC _ _ => true
  | _ => false

/-- A test body with a message, a toggle, assertions of both kinds and a loop block. -/
def exampleOps : List Op :=
  [.KUT_MSG "first part",
   .assert (exampleSite 101) (.KUT_EQ "a" "b" "1" "1" true),
   .assert (exampleSite 102) (.KUT_FALSE "flag" 2),
   .KUT_TRY_THROW (exampleSite 103) "f()" .nothing,
   .KUT_TRY_NOTHROW (exampleSite 104) "g()" .nothing,
   .KUT_LOOP (exampleSite 105) (exampleSite 109) 5 exampleLoopBody,
   .KUT_STOP_ON_FAIL true,
   .KUT_TRY_NOTHROW (exampleSite 111) "h()" (.stdException "bad"),
   .assert (exampleSite 112) (.KUT_TRUE_NS "never reached" 1)]

/-- The lines of `main` of an application with two class tests and a function test. -/
def exampleMain3 : List UnitTest :=
  [.KUT_TEST_CLASS "ClassA" exampleTestA, .KUT_TEST_CLASS "ClassB" exampleTestB,
   .KUT_TEST_FUNC "MyTestFunc" exampleTestF]

/-- The macro `KUT_FAILED`. -/
def KUT_FAILED (s : State) : Bool := s.kut_data.kut_failflag

/-- A function test that switches stop-on-fail on and makes one passing assertion. -/
def exampleTestStop : TestFn :=
  functionTest "First" (exampleSite 130)
    [.KUT_STOP_ON_FAIL true, .assert (exampleSite 131) (.KUT_TRUE_NS "ok" 1)]

/-- The context `exampleState false true` after a failing assertion set the fail flag. -/
def exampleStateFailed : State :=
  { exampleState false true with
    kut_data := { (exampleState false true).kut_data with kut_failflag := true } }

/-- The call `MyTestFunc()` of a test function written with `KUT_FT_START` and
`KUT_FT_END`, as the argument of `KUT_EXECFUNC`: it does not read the `kut_data` of the
caller. -/
def exampleCallee : State → Outcome State :=
  fun s => functionTest "MyFunc" (exampleSite 160)
    (assertions [(exampleSite 161, .KUT_TRUE_NS "MyFunc(4) == 2" 1)]) s.g

/-- The number of line ends an inserted item writes to the file: one for `std::endl`,
and for a text one for each newline character (code 10) in it. -/
def LogItem.lineEnds : LogItem → Nat
  | .str s => s.toList.count (Char.ofNat 10)
  | .int _ => 0
  | .real _ => 0
  | .endl => 1

/-- The number of lines written so far to the log file. -/
def linesWritten (g : Globals) : Nat :=
  (g.kut_logfile.map LogItem.lineEnds).sum

/-- The body of a loop block with one check that always passes. -/
def exampleLoopBodyPassing (_ : Nat) : List LoopCheck :=
  [.KUT_LOOP_LESS "lo()" "hi()" true]

/-- A class test that switches stop-on-fail on and then runs a loop block that fails
in two of its five iterations; two statements follow the loop block. -/
def exampleTestAbort : TestFn :=
  classTest "ClassC" (exampleSite 140)
    ([.KUT_MSG "part one", .assert (exampleSite 141) (.KUT_TRUE "c.ok()" 1),
      .KUT_STOP_ON_FAIL true] ++
     .KUT_LOOP (exampleSite 143) (exampleSite 147) 5 exampleLoopBody ::
     [.assert (exampleSite 148) (.KUT_TRUE "c.done()" 0), .KUT_STOP_ON_FAIL false])

/-- The state of `main` of the example application after the three unit tests of
`exampleMain3`, in quiet mode. -/
def exampleSuite3 : Suite :=
  ((runTests exampleMain3 (KUT_MAIN_START_log "Mon Jan  1 00:00:00 2024\n"
    (KUT_ALLOC false))).state?).getD (KUT_MAIN_START_log "" (KUT_ALLOC false))

/-- The body of a loop block whose iteration 2 makes a third check, which fails, after the
two checks that every iteration makes. -/
def exampleLoopBodyExtra (kut_i : Nat) : List LoopCheck :=
  if kut_i = 2 then exampleLoopBody kut_i ++ [.KUT_LOOP_TRUE "extra()" 0]
  else exampleLoopBody kut_i

/-! # Properties -/

/-! ## Regular assertions -/

section Lemmas

variable {σ τ : Type}

@[simp] theorem Outcome.map_next (f : σ → τ) (s : σ) :
    (Outcome.next s).map f = .next (f s) := rfl

@[simp] theorem Outcome.map_exited (f : σ → τ) (s : σ) (c : Int) :
    (Outcome.exited s c).map f = .exited (f s) c := rfl

@[simp] theorem Outcome.map_thrown (f : σ → τ) (s : σ) :
    (Outcome.thrown s).map f = .thrown (f s) := rfl

@[simp] theorem Outcome.map_returned (f : σ → τ) (s : σ) :
    (Outcome.returned s).map f = .returned (f s) := rfl

@[simp] theorem Outcome.next_andThen (s : σ) (k : σ → Outcome σ) :
    (Outcome.next s).andThen k = k s := rfl

@[simp] theorem Outcome.exited_andThen (s : σ) (c : Int) (k : σ → Outcome σ) :
    (Outcome.exited s c).andThen k = .exited s c := rfl

@[simp] theorem Outcome.thrown_andThen (s : σ) (k : σ → Outcome σ) :
    (Outcome.thrown s).andThen k = .thrown s := rfl

@[simp] theorem Outcome.returned_andThen (s : σ) (k : σ → Outcome σ) :
    (Outcome.returned s).andThen k = .returned s := rfl

@[simp] theorem Outcome.undefined_andThen (k : σ → Outcome σ) :
    (Outcome.undefined : Outcome σ).andThen k = .undefined := rfl

/-- A continuation that only writes to the log does not show in the mapped outcome. -/
theorem Outcome.map_andThen_next (f : σ → τ) (o : Outcome σ) (k : σ → σ)
    (h : ∀ s, f (k s) = f s) :
    (o.andThen fun s => .next (k s)).map f = o.map f := by
  cases o <;> simp [Outcome.andThen, Outcome.map, h]

end Lemmas

@[simp] theorem KUT_LOG2_counters (items : List LogItem) (s : State) :
    ({ s with g := KUT_LOG2 items s.g } : State).counters = s.counters := rfl

@[simp] theorem KUT_LOG_counters (items : List LogItem) (s : State) :
    ({ s with g := KUT_LOG items s.g } : State).counters = s.counters := rfl

@[simp] theorem ifVerbose_KUT_LOG_counters (items : List LogItem) (s : State) :
    ({ s with g := ifVerbose_KUT_LOG items s.g } : State).counters = s.counters := by
  simp only [ifVerbose_KUT_LOG, State.counters, KUT_LOG2]
  split <;> rfl

theorem KUT_P2_counters (site : Site) (s : State) :
    (KUT_P2 site s).counters = s.counters.afterP2 := by
  simp only [KUT_P2, State.counters, Counters.afterP2]
  split <;> rfl

theorem KUT_P_FAILURE_counters (site : Site) (s : State) :
    (KUT_P_FAILURE site s).map State.counters = s.counters.afterFailure site := by
  rcases s with ⟨d, g⟩
  cases hs : d.StopTestOnFail <;> cases hv : g.kut_verbose <;>
    simp [KUT_P_FAILURE, Counters.afterFailure, State.counters, hs, hv, KUT_LOG, KUT_LOG2]

theorem KUT_P11_counters (cond : Bool) (site : Site) (s : State) :
    (KUT_P11 cond site s).map State.counters =
      if cond then .next s.counters else s.counters.afterFailure site := by
  cases cond
  · simp [KUT_P11, KUT_P_FAILURE_counters]
  · simp only [KUT_P11, if_true, Outcome.map_next]
    split <;> rfl

theorem KUT_P_STREAM_VALUES_counters (a b : String) (va vb : LogItem) (s : State) :
    (KUT_P_STREAM_VALUES a b va vb s).counters = s.counters := by
  simp only [KUT_P_STREAM_VALUES]
  split <;> rfl

theorem logExpression_counters (text : List LogItem) (s : State) :
    (logExpression text s).counters = s.counters := by
  simp only [logExpression]
  split <;> rfl

/-- The statements `KUT_P2; if( cond ) KUT_P11` on the counters. -/
theorem KUT_P2_P11_counters (cond : Bool) (site : Site) (s : State) :
    (KUT_P11 cond site (KUT_P2 site s)).map State.counters =
      s.counters.afterAssertion cond site := by
  rw [KUT_P11_counters, KUT_P2_counters]
  rfl

theorem KUT_P_EQ_counters (a b : String) (eq : Bool) (site : Site) (s : State) :
    (KUT_P_EQ a b eq site s).map State.counters = s.counters.afterAssertion eq site := by
  unfold KUT_P_EQ
  rw [Outcome.map_andThen_next _ _ _ (logExpression_counters _), KUT_P2_P11_counters]

theorem KUT_P_DIFF_counters (a b : String) (ne : Bool) (site : Site) (s : State) :
    (KUT_P_DIFF a b ne site s).map State.counters = s.counters.afterAssertion ne site := by
  unfold KUT_P_DIFF
  rw [Outcome.map_andThen_next _ _ _ (logExpression_counters _), KUT_P2_P11_counters]

theorem KUT_P_LESS_counters (a b : String) (lt : Bool) (site : Site) (s : State) :
    (KUT_P_LESS a b lt site s).map State.counters = s.counters.afterAssertion lt site := by
  unfold KUT_P_LESS
  rw [Outcome.map_andThen_next _ _ _ (logExpression_counters _), KUT_P2_P11_counters]

theorem KUT_P_TRUE_counters (a : String) (va : Int) (site : Site) (s : State) :
    (KUT_P_TRUE a va site s).map State.counters =
      s.counters.afterAssertion (va != 0) site := by
  unfold KUT_P_TRUE
  rw [Outcome.map_andThen_next _ _ _ (logExpression_counters _), KUT_P2_P11_counters]

theorem KUT_P_FALSE_counters (a : String) (va : Int) (site : Site) (s : State) :
    (KUT_P_FALSE a va site s).map State.counters =
      s.counters.afterAssertion (0 == va) site := by
  unfold KUT_P_FALSE
  rw [Outcome.map_andThen_next _ _ _ (logExpression_counters _), KUT_P2_P11_counters]

/-- Every regular assertion macro acts on the counters as `Counters.afterAssertion`
says, with the value of its predicate. -/
theorem Assertion.exec_counters (site : Site) (a : Assertion) (s : State) :
    (a.exec site s).map State.counters = s.counters.afterAssertion a.pred site := by
  cases a with
  | KUT_EQ a b va vb eq =>
    simp only [Assertion.exec, Assertion.pred, Kut.KUT_EQ]
    rw [Outcome.map_andThen_next _ _ _ (KUT_P_STREAM_VALUES_counters _ _ _ _),
      KUT_P_EQ_counters]
  | KUT_EQ_NS a b eq => exact KUT_P_EQ_counters a b eq site s
  | KUT_DIFF a b va vb ne =>
    simp only [Assertion.exec, Assertion.pred, Kut.KUT_DIFF]
    rw [Outcome.map_andThen_next _ _ _ (KUT_P_STREAM_VALUES_counters _ _ _ _),
      KUT_P_DIFF_counters]
  | KUT_DIFF_NS a b ne => exact KUT_P_DIFF_counters a b ne site s
  | KUT_LESS a b va vb lt =>
    simp only [Assertion.exec, Assertion.pred, Kut.KUT_LESS]
    rw [Outcome.map_andThen_next _ _ _ (KUT_P_STREAM_VALUES_counters _ _ _ _),
      KUT_P_LESS_counters]
  | KUT_LESS_NS a b lt => exact KUT_P_LESS_counters a b lt site s
  | KUT_TRUE a va =>
    simp only [Assertion.exec, Assertion.pred, Kut.KUT_TRUE]
    rw [Outcome.map_andThen_next, KUT_P_TRUE_counters]
    intro s
    split <;> rfl
  | KUT_TRUE_NS a va => exact KUT_P_TRUE_counters a va site s
  | KUT_FALSE a va =>
    simp only [Assertion.exec, Assertion.pred, Kut.KUT_FALSE]
    rw [Outcome.map_andThen_next, KUT_P_FALSE_counters]
    intro s
    split <;> rfl
  | KUT_FALSE_NS a va => exact KUT_P_FALSE_counters a va site s

theorem Outcome.map_eq_next {σ τ : Type} {f : σ → τ} {o : Outcome σ} {c : τ}
    (h : o.map f = .next c) : ∃ s, o = .next s ∧ f s = c := by
  cases o <;> simp [Outcome.map] at h
  exact ⟨_, rfl, h⟩

theorem Outcome.map_eq_exited {σ τ : Type} {f : σ → τ} {o : Outcome σ} {c : τ} {n : Int}
    (h : o.map f = .exited c n) : ∃ s, o = .exited s n ∧ f s = c := by
  cases o <;> simp [Outcome.map] at h
  obtain ⟨h1, h2⟩ := h
  subst h2
  exact ⟨_, rfl, h1⟩

theorem Outcome.map_eq_thrown {σ τ : Type} {f : σ → τ} {o : Outcome σ} {c : τ}
    (h : o.map f = .thrown c) : ∃ s, o = .thrown s ∧ f s = c := by
  cases o <;> simp [Outcome.map] at h
  exact ⟨_, rfl, h⟩

/-- A regular assertion with stop-on-fail off falls through, with the counters of
`Counters.afterAssertion`. -/
theorem Assertion.exec_next (site : Site) (a : Assertion) (s : State)
    (h : s.kut_data.StopTestOnFail = false) :
    ∃ t, a.exec site s = .next t ∧
      t.kut_data.StopTestOnFail = false ∧
      t.kut_data.count_test = s.kut_data.count_test + 1 ∧
      t.kut_data.count_fail = s.kut_data.count_fail + (if a.pred then 0 else 1) ∧
      t.kut_data.kut_failflag = !a.pred ∧
      t.g.kut_fail_file = s.g.kut_fail_file ++ (if a.pred then [] else [site.file]) ∧
      t.g.kut_fail_line = s.g.kut_fail_line ++ (if a.pred then [] else [site.line]) := by
  have key := Assertion.exec_counters site a s
  cases hp : a.pred
  · have h2 : s.counters.afterP2.kut_data.StopTestOnFail = false := h
    simp only [Counters.afterAssertion, Counters.afterFailure, hp, h2] at key
    obtain ⟨t, ht, hc⟩ := Outcome.map_eq_next key
    refine ⟨t, ht, ?_⟩
    have e1 := congrArg Counters.kut_data hc
    have e2 := congrArg Counters.kut_fail_file hc
    have e3 := congrArg Counters.kut_fail_line hc
    simp only [State.counters, Counters.afterP2] at e1 e2 e3
    simp [e1, e2, e3, h]
  · simp only [Counters.afterAssertion, hp] at key
    obtain ⟨t, ht, hc⟩ := Outcome.map_eq_next key
    refine ⟨t, ht, ?_⟩
    have e1 := congrArg Counters.kut_data hc
    have e2 := congrArg Counters.kut_fail_file hc
    have e3 := congrArg Counters.kut_fail_line hc
    simp only [State.counters, Counters.afterP2] at e1 e2 e3
    simp [e1, e2, e3, h]

theorem run_assertions (as : List (Site × Assertion)) (s : State)
    (h : s.kut_data.StopTestOnFail = false) :
    ∃ t, run (assertions as) s = .next t ∧
      t.kut_data.StopTestOnFail = false ∧
      t.kut_data.count_test = s.kut_data.count_test + as.length ∧
      t.kut_data.count_fail = s.kut_data.count_fail + as.countP (fun p => !p.2.pred) ∧
      t.g.kut_fail_file.length = s.g.kut_fail_file.length + as.countP (fun p => !p.2.pred) ∧
      t.g.kut_fail_line.length = s.g.kut_fail_line.length + as.countP (fun p => !p.2.pred) := by
  induction as generalizing s with
  | nil => exact ⟨s, rfl, h, by simp, by simp, by simp, by simp⟩
  | cons p as ih =>
    obtain ⟨t, ht, hstop, hct, hcf, -, hff, hfl⟩ := Assertion.exec_next p.1 p.2 s h
    obtain ⟨u, hu, hustop, huct, hucf, huff, hufl⟩ := ih t hstop
    refine ⟨u, ?_, hustop, ?_, ?_, ?_, ?_⟩
    · simp only [assertions, List.map_cons, run, Op.exec, ht, Outcome.next_andThen]
      exact hu
    · rw [huct, hct, List.length_cons]; push_cast; ring
    · rw [hucf, hcf, List.countP_cons]
      cases p.2.pred
      · simp; omega
      · simp
    · rw [huff, hff, List.countP_cons]
      cases p.2.pred
      · simp; omega
      · simp
    · rw [hufl, hfl, List.countP_cons]
      cases p.2.pred
      · simp; omega
      · simp

theorem logFailedSites_ok (lines : List Nat) (files : List String) (g : Globals)
    (h : lines.length ≤ files.length) : (logFailedSites lines files g).2 = true := by
  induction lines generalizing files g with
  | nil => rfl
  | cons l ls ih =>
    cases files with
    | nil => simp at h
    | cons f fs =>
      simp only [logFailedSites]
      exact ih fs _ (by simpa using h)

/-- With as many recorded files as recorded lines, `KUT_CTM_END` returns the context
unchanged. -/
theorem KUT_CTM_END_returned (name : String) (s : State)
    (h : s.g.kut_fail_line.length ≤ s.g.kut_fail_file.length) :
    ∃ t, KUT_CTM_END name s = .returned t ∧ t.kut_data = s.kut_data := by
  unfold KUT_CTM_END
  by_cases hc : s.kut_data.count_fail > 0
  · simp only [hc, if_true]
    rw [logFailedSites_ok _ _ _ h]
    exact ⟨_, rfl, rfl⟩
  · simp only [hc, if_false]
    exact ⟨_, rfl, rfl⟩

theorem KUT_FT_END_returned (s : State) :
    ∃ t, KUT_FT_END s = .returned t ∧ t.kut_data = s.kut_data :=
  ⟨_, rfl, rfl⟩

/-- C1: a test function or class test method that consists of `N` regular assertions
(`KUT_EQ`, `KUT_DIFF`, `KUT_LESS`, `KUT_TRUE`, `KUT_FALSE` and their `_NS` forms), run
from the fresh context of `KUT_FT_START` / `KUT_CTM_START` (stop-on-fail off), returns
a context whose `count_test` is `N` and whose `count_fail` is the number of assertions
whose predicate was false. -/
theorem regular_assertions_counted (as : List (Site × Assertion)) (a : String) (site : Site)
    (g : Globals) :
    (∃ t, functionTest a site (assertions as) g = .returned t ∧
      t.kut_data.count_test = as.length ∧
      t.kut_data.count_fail = as.countP (fun p => !p.2.pred)) ∧
    (∃ t, classTest a site (assertions as) g = .returned t ∧
      t.kut_data.count_test = as.length ∧
      t.kut_data.count_fail = as.countP (fun p => !p.2.pred)) := by
  constructor
  · obtain ⟨t, ht, -, hct, hcf, -, -⟩ := run_assertions as (KUT_FT_START a site g) rfl
    obtain ⟨u, hu, hud⟩ := KUT_FT_END_returned t
    refine ⟨u, by simp only [functionTest, ht, Outcome.next_andThen, hu], ?_, ?_⟩
    · rw [hud]; simpa [KUT_FT_START, KUT_TYPE.init] using hct
    · rw [hud]; simpa [KUT_FT_START, KUT_TYPE.init] using hcf
  · obtain ⟨t, ht, -, hct, hcf, hff, hfl⟩ := run_assertions as (KUT_CTM_START a site g) rfl
    obtain ⟨u, hu, hud⟩ := KUT_CTM_END_returned a t (by
      rw [hff, hfl]; simp [KUT_CTM_START, KUT_LOG2])
    refine ⟨u, by simp only [classTest, ht, Outcome.next_andThen, hu], ?_, ?_⟩
    · rw [hud]; simpa [KUT_CTM_START, KUT_TYPE.init] using hct
    · rw [hud]; simpa [KUT_CTM_START, KUT_TYPE.init] using hcf

/-! ## Suite totals -/

theorem recordUnitTest_totals (name : String) (type : Int) (d : KUT_TYPE) (s : Suite) :
    (recordUnitTest name type d s).kut_m.NbUnitTests = s.kut_m.NbUnitTests ∧
    (recordUnitTest name type d s).kut_m.NbTestTot = s.kut_m.NbTestTot + d.count_test ∧
    (recordUnitTest name type d s).kut_m.NbFailureTot = s.kut_m.NbFailureTot + d.count_fail ∧
    (recordUnitTest name type d s).kut_m.NbUTFailures =
      s.kut_m.NbUTFailures + (if d.count_fail = 0 then 0 else 1) := by
  unfold recordUnitTest
  by_cases h : d.count_fail = 0 <;> simp [h]

/-- One line of `main` whose test returns the context `r.kut_data`. -/
theorem UnitTest.exec_returned (t : UnitTest) (s : Suite) (r : State)
    (h : t.call s = .returned r) :
    ∃ s1, t.exec s = .next s1 ∧
      s1.kut_m.NbUnitTests = s.kut_m.NbUnitTests + 1 ∧
      s1.kut_m.NbTestTot = s.kut_m.NbTestTot + r.kut_data.count_test ∧
      s1.kut_m.NbFailureTot = s.kut_m.NbFailureTot + r.kut_data.count_fail ∧
      s1.kut_m.NbUTFailures =
        s.kut_m.NbUTFailures + (if r.kut_data.count_fail = 0 then 0 else 1) := by
  cases t with
  | KUT_TEST_CLASS A cutm =>
    simp only [UnitTest.call] at h
    simp only [UnitTest.exec, Kut.KUT_TEST_CLASS, callUnitTest, h]
    refine ⟨_, rfl, ?_⟩
    have := recordUnitTest_totals A 0 r.kut_data
      { announceUnitTest ", testing class " A s with g := r.g }
    simpa [announceUnitTest] using this
  | KUT_TEST_FUNC a f =>
    simp only [UnitTest.call] at h
    simp only [UnitTest.exec, Kut.KUT_TEST_FUNC, callUnitTest, h]
    refine ⟨_, rfl, ?_⟩
    have := recordUnitTest_totals a 1 r.kut_data
      { announceUnitTest ", testing function " a s with g := r.g }
    simpa [announceUnitTest] using this

/-- The totals of `kut_m` after the lines of `main`, when every test returns. -/
theorem runTests_totals (tests : List UnitTest) (s : Suite)
    (hret : (returnedContexts tests s).length = tests.length) :
    ∃ s1, runTests tests s = .next s1 ∧
      s1.kut_m.NbUnitTests = s.kut_m.NbUnitTests + tests.length ∧
      s1.kut_m.NbTestTot =
        s.kut_m.NbTestTot + ((returnedContexts tests s).map (·.count_test)).sum ∧
      s1.kut_m.NbFailureTot =
        s.kut_m.NbFailureTot + ((returnedContexts tests s).map (·.count_fail)).sum ∧
      s1.kut_m.NbUTFailures =
        s.kut_m.NbUTFailures + (returnedContexts tests s).countP (fun d => d.count_fail != 0) := by
  induction tests generalizing s with
  | nil => exact ⟨s, rfl, by simp, by simp [returnedContexts], by simp [returnedContexts],
      by simp [returnedContexts]⟩
  | cons t ts ih =>
    cases hcall : t.call s with
    | returned r =>
      obtain ⟨s1, hs1, h1, h2, h3, h4⟩ := UnitTest.exec_returned t s r hcall
      have hrc : returnedContexts (t :: ts) s = r.kut_data :: returnedContexts ts s1 := by
        simp only [returnedContexts, hcall, hs1]
      rw [hrc] at hret ⊢
      obtain ⟨s2, hs2, k1, k2, k3, k4⟩ := ih s1 (by simpa using hret)
      refine ⟨s2, by simp only [runTests, hs1, Outcome.next_andThen, hs2], ?_, ?_, ?_, ?_⟩
      · rw [k1, h1, List.length_cons]; push_cast; ring
      · rw [k2, h2, List.map_cons, List.sum_cons]; ring
      · rw [k3, h3, List.map_cons, List.sum_cons]; ring
      · rw [k4, h4, List.countP_cons]
        by_cases h0 : r.kut_data.count_fail = 0
        · simp [h0]
        · simp [h0]; ring
    | next r => simp [returnedContexts, hcall] at hret
    | exited r c => simp [returnedContexts, hcall] at hret
    | thrown r => simp [returnedContexts, hcall] at hret
    | undefined => simp [returnedContexts, hcall] at hret

theorem testMain_started (v : Bool) (asctime : String) (tests : List UnitTest) (s : Suite)
    (h : runTests tests (KUT_MAIN_START_log asctime (KUT_ALLOC v)) = .next s) :
    testMain v true true asctime tests = .returned (KUT_MAIN_END s).1 s.kut_m.NbFailureTot := by
  simp only [testMain, KUT_MAIN_START, Bool.not_true, Bool.false_eq_true, if_false,
    Outcome.next_andThen, h]
  rfl

/-- C2: when every unit test run by `KUT_TEST_CLASS` / `KUT_TEST_FUNC` returns, with a
non-negative `count_fail`, then at `KUT_MAIN_END` `NbUnitTests` is the number of tests,
`NbTestTot` the sum of the returned `count_test`, `NbFailureTot` the sum of the returned
`count_fail`, `NbUTFailures` the number of tests with `count_fail > 0`, and `main`
returns `NbFailureTot`. -/
theorem suite_totals_exact (v : Bool) (asctime : String) (tests : List UnitTest)
    (hret : (returnedContexts tests (KUT_MAIN_START_log asctime (KUT_ALLOC v))).length
      = tests.length)
    (hpos : ∀ d ∈ returnedContexts tests (KUT_MAIN_START_log asctime (KUT_ALLOC v)),
      0 ≤ d.count_fail) :
    ∃ s, testMain v true true asctime tests = .returned s s.kut_m.NbFailureTot ∧
      s.kut_m.NbUnitTests = tests.length ∧
      s.kut_m.NbTestTot =
        ((returnedContexts tests (KUT_MAIN_START_log asctime (KUT_ALLOC v))).map
          (·.count_test)).sum ∧
      s.kut_m.NbFailureTot =
        ((returnedContexts tests (KUT_MAIN_START_log asctime (KUT_ALLOC v))).map
          (·.count_fail)).sum ∧
      s.kut_m.NbUTFailures =
        (returnedContexts tests (KUT_MAIN_START_log asctime (KUT_ALLOC v))).countP
          (fun d => decide (0 < d.count_fail)) := by
  obtain ⟨s1, hs1, h1, h2, h3, h4⟩ := runTests_totals tests _ hret
  refine ⟨(KUT_MAIN_END s1).1, testMain_started v asctime tests s1 hs1, ?_, ?_, ?_, ?_⟩
  · simpa [KUT_MAIN_END, KUT_MAIN_START_log, KUT_MASTER.init] using h1
  · simpa [KUT_MAIN_END, KUT_MAIN_START_log, KUT_MASTER.init] using h2
  · simpa [KUT_MAIN_END, KUT_MAIN_START_log, KUT_MASTER.init] using h3
  · have e : (returnedContexts tests (KUT_MAIN_START_log asctime (KUT_ALLOC v))).countP
        (fun d => decide (0 < d.count_fail)) =
        (returnedContexts tests (KUT_MAIN_START_log asctime (KUT_ALLOC v))).countP
        (fun d => d.count_fail != 0) := by
      apply List.countP_congr
      intro d hd
      have := hpos d hd
      simp only [decide_eq_true_eq, bne_iff_ne, ne_eq]
      omega
    rw [e]
    simpa [KUT_MAIN_END, KUT_MAIN_START_log, KUT_MASTER.init] using h4

/-- Witness of C2: the application with the two example class tests (three assertions
with one failure, then two passing assertions) returns 1. -/
theorem suite_totals_exact_witness :
    ((returnedContexts exampleMain (KUT_MAIN_START_log "now" (KUT_ALLOC true))).length
      = exampleMain.length ∧
    ∀ d ∈ returnedContexts exampleMain (KUT_MAIN_START_log "now" (KUT_ALLOC true)),
      0 ≤ d.count_fail) ∧
    ∃ s, testMain true true true "now" exampleMain = .returned s 1 ∧
      s.kut_m.NbUnitTests = 2 ∧ s.kut_m.NbTestTot = 5 ∧ s.kut_m.NbFailureTot = 1 ∧
      s.kut_m.NbUTFailures = 1 := by
  have h1 : (returnedContexts exampleMain (KUT_MAIN_START_log "now" (KUT_ALLOC true))).length
      = exampleMain.length := by decide
  have h2 : ∀ d ∈ returnedContexts exampleMain (KUT_MAIN_START_log "now" (KUT_ALLOC true)),
      0 ≤ d.count_fail := by decide
  refine ⟨⟨h1, h2⟩, ?_⟩
  obtain ⟨s, hs, k1, k2, k3, k4⟩ := suite_totals_exact true "now" exampleMain h1 h2
  have e2 : ((returnedContexts exampleMain (KUT_MAIN_START_log "now" (KUT_ALLOC true))).map
      (·.count_test)).sum = 5 := by decide
  have e3 : ((returnedContexts exampleMain (KUT_MAIN_START_log "now" (KUT_ALLOC true))).map
      (·.count_fail)).sum = 1 := by decide
  have e4 : (returnedContexts exampleMain (KUT_MAIN_START_log "now" (KUT_ALLOC true))).countP
      (fun d => decide (0 < d.count_fail)) = 1 := by decide
  refine ⟨s, ?_, ?_, ?_, ?_, ?_⟩
  · rw [hs, k3, e3]
  · rw [k1]; rfl
  · rw [k2, e2]
  · rw [k3, e3]
  · rw [k4, e4]; rfl

theorem sum_eq_zero_iff_of_nonneg (l : List Int) (h : ∀ x ∈ l, 0 ≤ x) :
    l.sum = 0 ↔ ∀ x ∈ l, x = 0 := by
  induction l with
  | nil => simp
  | cons a l ih =>
    have ha : 0 ≤ a := h a (by simp)
    have hl : ∀ x ∈ l, 0 ≤ x := fun x hx => h x (by simp [hx])
    have hs : 0 ≤ l.sum := List.sum_nonneg hl
    rw [List.sum_cons, List.forall_mem_cons, ← ih hl]
    constructor
    · intro e
      constructor <;> omega
    · rintro ⟨e1, e2⟩
      omega

/-- C5: when every unit test returns, with a non-negative `count_fail`, the value
`KUT_MAIN_END` returns from `main` is 0 if and only if every unit test returned
`count_fail = 0`. -/
theorem main_status_zero_iff (v : Bool) (asctime : String) (tests : List UnitTest)
    (hret : (returnedContexts tests (KUT_MAIN_START_log asctime (KUT_ALLOC v))).length
      = tests.length)
    (hpos : ∀ d ∈ returnedContexts tests (KUT_MAIN_START_log asctime (KUT_ALLOC v)),
      0 ≤ d.count_fail) :
    ∃ s status, testMain v true true asctime tests = .returned s status ∧
      (status = 0 ↔
        ∀ d ∈ returnedContexts tests (KUT_MAIN_START_log asctime (KUT_ALLOC v)),
          d.count_fail = 0) := by
  obtain ⟨s1, hs1, -, -, h3, -⟩ := runTests_totals tests _ hret
  refine ⟨(KUT_MAIN_END s1).1, s1.kut_m.NbFailureTot,
    testMain_started v asctime tests s1 hs1, ?_⟩
  have e : s1.kut_m.NbFailureTot =
      ((returnedContexts tests (KUT_MAIN_START_log asctime (KUT_ALLOC v))).map
        (·.count_fail)).sum := by
    simpa [KUT_MAIN_START_log, KUT_MASTER.init] using h3
  rw [e, sum_eq_zero_iff_of_nonneg _ (by simpa using hpos)]
  simp

/-- Witness of C5: an application whose second test fails once does not return 0, and
that test returned a non-zero `count_fail`. -/
theorem main_status_zero_iff_witness :
    ((returnedContexts [.KUT_TEST_CLASS "ClassB" exampleTestB, .KUT_TEST_FUNC "MyTestFunc"
        exampleTestF] (KUT_MAIN_START_log "now" (KUT_ALLOC false))).length = 2 ∧
    ∀ d ∈ returnedContexts [.KUT_TEST_CLASS "ClassB" exampleTestB, .KUT_TEST_FUNC "MyTestFunc"
        exampleTestF] (KUT_MAIN_START_log "now" (KUT_ALLOC false)), 0 ≤ d.count_fail) ∧
    ∃ s status, testMain false true true "now" [.KUT_TEST_CLASS "ClassB" exampleTestB,
        .KUT_TEST_FUNC "MyTestFunc" exampleTestF] = .returned s status ∧
      (status = 0 ↔
        ∀ d ∈ returnedContexts [.KUT_TEST_CLASS "ClassB" exampleTestB,
            .KUT_TEST_FUNC "MyTestFunc" exampleTestF]
          (KUT_MAIN_START_log "now" (KUT_ALLOC false)), d.count_fail = 0) :=
  ⟨⟨by decide, by decide⟩,
   main_status_zero_iff false "now" _ (by decide) (by decide)⟩

/-! ## Loop blocks -/

/-- Every loop check macro is `if( kut_i == 0 ) push` followed by `if( failed ) KUT_LOOP_P2`. -/
theorem LoopCheck.exec_eq (i : Nat) (c : LoopCheck) (v : LoopVars) :
    ∃ w, c.exec i v = KUT_LOOP_P2 c.failed w ∧
      w.kut_loop_fails = (if i = 0 then v.kut_loop_fails ++ [0] else v.kut_loop_fails) ∧
      w.kut_loop_macro_count = v.kut_loop_macro_count ∧
      w.kut_fail_flag = v.kut_fail_flag ∧
      w.kut_loop_line = v.kut_loop_line ∧ w.kut_loop_nb_iter = v.kut_loop_nb_iter := by
  cases c <;>
    refine ⟨_, rfl, ?_⟩ <;>
    simp only [KUT_LOOP_P11, KUT_LOOP_P12] <;>
    split <;> simp

theorem getD_set_succ (l : List Nat) (m j : Nat) (h : m < l.length) :
    (l.set m (l.getD m 0 + 1)).getD j 0 = l.getD j 0 + (if j = m then 1 else 0) := by
  simp only [List.getD_eq_getElem?_getD, List.getElem?_set]
  by_cases e : m = j
  · subst e
    simp [h]
  · have e2 : ¬ j = m := fun x => e x.symm
    simp [e, e2]

theorem KUT_LOOP_P2_passed (v : LoopVars) :
    KUT_LOOP_P2 false v =
      some { v with kut_loop_macro_count := v.kut_loop_macro_count + 1 } := by
  simp [KUT_LOOP_P2]

theorem KUT_LOOP_P2_failed (v : LoopVars)
    (h : v.kut_loop_macro_count < v.kut_loop_fails.length) :
    KUT_LOOP_P2 true v =
      some { v with
        kut_loop_fails := v.kut_loop_fails.set v.kut_loop_macro_count
          (v.kut_loop_fails.getD v.kut_loop_macro_count 0 + 1),
        kut_fail_flag := true,
        kut_loop_macro_count := v.kut_loop_macro_count + 1 } := by
  simp [KUT_LOOP_P2, h]

/-- One loop check whose slot exists, or is created by iteration 0. -/
theorem LoopCheck.exec_some (i : Nat) (c : LoopCheck) (v : LoopVars)
    (h0 : i = 0 → v.kut_loop_macro_count = v.kut_loop_fails.length)
    (h1 : i ≠ 0 → v.kut_loop_macro_count < v.kut_loop_fails.length) :
    ∃ w, c.exec i v = some w ∧
      w.kut_loop_macro_count = v.kut_loop_macro_count + 1 ∧
      w.kut_loop_fails.length = v.kut_loop_fails.length + (if i = 0 then 1 else 0) ∧
      (∀ j, w.kut_loop_fails.getD j 0 = v.kut_loop_fails.getD j 0 +
        (if j = v.kut_loop_macro_count ∧ c.failed = true then 1 else 0)) ∧
      w.kut_fail_flag = (v.kut_fail_flag || c.failed) ∧
      w.kut_loop_line = v.kut_loop_line ∧ w.kut_loop_nb_iter = v.kut_loop_nb_iter := by
  obtain ⟨u, hu, hf, hm, hg, hl, hn⟩ := LoopCheck.exec_eq i c v
  have hlt : u.kut_loop_macro_count < u.kut_loop_fails.length := by
    rw [hm, hf]
    by_cases e : i = 0
    · simp [e, h0 e]
    · simpa [e] using h1 e
  have hget : ∀ j, u.kut_loop_fails.getD j 0 = v.kut_loop_fails.getD j 0 := by
    intro j
    rw [hf]
    by_cases e : i = 0
    · simp only [e, if_true, List.getD_eq_getElem?_getD]
      by_cases hj : j < v.kut_loop_fails.length
      · rw [List.getElem?_append_left hj]
      · have hj2 : v.kut_loop_fails.length ≤ j := Nat.le_of_not_lt hj
        rw [List.getElem?_append_right hj2, List.getElem?_eq_none hj2]
        cases hk : j - v.kut_loop_fails.length <;> simp
    · simp [e]
  rw [hu]
  cases hc : c.failed
  · refine ⟨_, KUT_LOOP_P2_passed u, ?_, ?_, ?_, ?_, ?_, ?_⟩
    · simp [hm]
    · rw [hf]; by_cases e : i = 0 <;> simp [e]
    · intro j; simpa using hget j
    · simp [hg]
    · exact hl
    · exact hn
  · refine ⟨_, KUT_LOOP_P2_failed u hlt, ?_, ?_, ?_, ?_, ?_, ?_⟩
    · simp [hm]
    · rw [List.length_set, hf]; by_cases e : i = 0 <;> simp [e]
    · intro j
      simp only [and_true]
      rw [getD_set_succ _ _ _ hlt, hget, hm]
    · simp
    · exact hl
    · exact hn

/-- The checks of one iteration, when their slots exist or are created by iteration 0. -/
theorem loopChecks_some (i : Nat) (cs : List LoopCheck) (v : LoopVars)
    (h0 : i = 0 → v.kut_loop_macro_count = v.kut_loop_fails.length)
    (h1 : i ≠ 0 → v.kut_loop_macro_count + cs.length ≤ v.kut_loop_fails.length) :
    ∃ w, loopChecks i cs v = some w ∧
      w.kut_loop_macro_count = v.kut_loop_macro_count + cs.length ∧
      w.kut_loop_fails.length = v.kut_loop_fails.length + (if i = 0 then cs.length else 0) ∧
      (∀ j, w.kut_loop_fails.getD j 0 = v.kut_loop_fails.getD j 0 +
        (if v.kut_loop_macro_count ≤ j ∧ failedIn cs (j - v.kut_loop_macro_count) = true
          then 1 else 0)) ∧
      w.kut_fail_flag = (v.kut_fail_flag || cs.any LoopCheck.failed) ∧
      w.kut_loop_line = v.kut_loop_line ∧ w.kut_loop_nb_iter = v.kut_loop_nb_iter := by
  induction cs generalizing v with
  | nil =>
    refine ⟨v, rfl, by simp, by simp, ?_, by simp, rfl, rfl⟩
    intro j
    simp [failedIn]
  | cons c cs ih =>
    obtain ⟨u, hu, um, ul, ug, uf, uline, unb⟩ := LoopCheck.exec_some i c v h0
      (fun e => by have := h1 e; simp only [List.length_cons] at this; omega)
    obtain ⟨w, hw, wm, wl, wg, wf, wline, wnb⟩ := ih u
      (fun e => by rw [um, ul, h0 e]; simp [e])
      (fun e => by
        have := h1 e
        simp only [List.length_cons] at this
        rw [um, ul]; simp only [e, if_false]; omega)
    refine ⟨w, by simp only [loopChecks, hu, Option.some_bind, hw], ?_, ?_, ?_, ?_, ?_, ?_⟩
    · rw [wm, um, List.length_cons]; omega
    · rw [wl, ul, List.length_cons]; by_cases e : i = 0 <;> simp [e]; omega
    · intro j
      rw [wg, ug, um]
      rcases Nat.lt_trichotomy j v.kut_loop_macro_count with hj | hj | hj
      · have a1 : ¬ j = v.kut_loop_macro_count := by omega
        have a2 : ¬ v.kut_loop_macro_count + 1 ≤ j := by omega
        have a3 : ¬ v.kut_loop_macro_count ≤ j := by omega
        simp [a1, a2, a3]
      · subst hj
        simp [failedIn]
      · have a1 : ¬ j = v.kut_loop_macro_count := by omega
        have a2 : v.kut_loop_macro_count + 1 ≤ j := by omega
        have a3 : v.kut_loop_macro_count ≤ j := by omega
        have a4 : j - v.kut_loop_macro_count = (j - (v.kut_loop_macro_count + 1)) + 1 := by omega
        rw [a4]
        simp [a1, a2, a3, failedIn]
    · rw [wf, uf, List.any_cons, Bool.or_assoc]
    · rw [wline, uline]
    · rw [wnb, unb]

/-- The `for` statement of a loop block whose iterations all make `checks` checks. -/
theorem loopFor_some (body : Nat → List LoopCheck) (checks n line nb : Nat)
    (hlen : ∀ i, i < n → (body i).length = checks) :
    ∃ w, loopFor body n (LoopVars.init line nb) = some w ∧
      w.kut_loop_fails.length = (if n = 0 then 0 else checks) ∧
      (∀ j, w.kut_loop_fails.getD j 0 = (List.range n).countP (fun i => failedAt body i j)) ∧
      w.kut_fail_flag = anyFailed body n ∧
      w.kut_loop_line = line ∧ w.kut_loop_nb_iter = nb := by
  induction n with
  | zero =>
    exact ⟨_, rfl, rfl, fun j => by simp [LoopVars.init], rfl, rfl, rfl⟩
  | succ n ih =>
    obtain ⟨u, hu, ul, ug, uf, uline, unb⟩ := ih (fun i hi => hlen i (by omega))
    obtain ⟨w, hw, -, wl, wg, wf, wline, wnb⟩ :=
      loopChecks_some n (body n) { u with kut_loop_macro_count := 0 }
        (fun e => by simp [ul, e])
        (fun e => by simp [ul, e, hlen n (by omega)])
    refine ⟨w, by simp only [loopFor, hu, Option.some_bind, loopIteration, hw], ?_, ?_, ?_,
      ?_, ?_⟩
    · rw [wl]
      simp only [ul]
      by_cases e : n = 0
      · simp [e, hlen 0 (by omega)]
      · simp [e]
    · intro j
      rw [wg]
      simp only [ug, Nat.zero_le, true_and, Nat.sub_zero]
      rw [List.range_succ, List.countP_append]
      simp [failedAt, List.countP_cons]
    · rw [wf]
      simp only [uf, anyFailed, List.range_succ, List.any_append, List.any_cons, List.any_nil,
        Bool.or_false]
    · rw [wline]; exact uline
    · rw [wnb]; exact unb

theorem loopSummary_frame (count_test : Int) (v : LoopVars) (l : List Nat) (g : Globals) :
    (l.foldl (fun g kut_i => loopSummaryLine count_test v kut_i g) g).kut_fail_file
        = g.kut_fail_file ∧
    (l.foldl (fun g kut_i => loopSummaryLine count_test v kut_i g) g).kut_fail_line
        = g.kut_fail_line ∧
    (l.foldl (fun g kut_i => loopSummaryLine count_test v kut_i g) g).kut_verbose
        = g.kut_verbose := by
  induction l generalizing g with
  | nil => exact ⟨rfl, rfl, rfl⟩
  | cons i l ih =>
    simp only [List.foldl_cons]
    obtain ⟨h1, h2, h3⟩ := ih (loopSummaryLine count_test v i g)
    exact ⟨h1, h2, h3⟩

theorem KUT_LOOP_START_counters (nb_iter : Nat) (site : Site) (s : State) :
    (KUT_LOOP_START nb_iter site s).1.counters = s.counters.afterLoopStart ∧
    (KUT_LOOP_START nb_iter site s).2 = LoopVars.init site.line nb_iter := by
  refine ⟨?_, rfl⟩
  simp only [KUT_LOOP_START, State.counters, Counters.afterLoopStart, ifVerbose_KUT_LOG, KUT_LOG2]
  split <;> rfl

theorem KUT_LOOP_END_counters (site : Site) (v : LoopVars) (s : State) :
    (KUT_LOOP_END site v s).map State.counters =
      s.counters.afterLoopEnd site.file v.kut_loop_line v.kut_fail_flag := by
  rcases s with ⟨d, g⟩
  have hframe := loopSummary_frame d.count_test v (List.range v.kut_loop_fails.length)
  cases hv : g.kut_verbose <;> cases hf : v.kut_fail_flag <;> cases hs : d.StopTestOnFail <;>
    simp [KUT_LOOP_END, Counters.afterLoopEnd, State.counters, hv, hf, hs, KUT_LOG, KUT_LOG2,
      hframe]

/-- A loop block whose iterations all make `checks` checks acts on the counters as
`KUT_LOOP_START` followed by `KUT_LOOP_END` with the flag `anyFailed`. -/
theorem KUT_LOOP_counters (start finish : Site) (nb_iter checks : Nat)
    (body : Nat → List LoopCheck) (s : State)
    (hlen : ∀ i, i < nb_iter → (body i).length = checks) :
    (KUT_LOOP start finish nb_iter body s).map State.counters =
      s.counters.afterLoopStart.afterLoopEnd finish.file start.line
        (anyFailed body nb_iter) := by
  obtain ⟨w, hw, -, -, wf, wline, -⟩ := loopFor_some body checks nb_iter start.line nb_iter hlen
  obtain ⟨h1, h2⟩ := KUT_LOOP_START_counters nb_iter start s
  show (match loopFor body nb_iter (KUT_LOOP_START nb_iter start s).2 with
    | some v => KUT_LOOP_END finish v (KUT_LOOP_START nb_iter start s).1
    | none => Outcome.undefined).map State.counters = _
  rw [h2, hw]
  simp only [KUT_LOOP_END_counters, h1, wf, wline]

theorem anyFailed_iff (body : Nat → List LoopCheck) (n : Nat) :
    anyFailed body n = true ↔ ∃ i, i < n ∧ ∃ c ∈ body i, c.failed = true := by
  simp [anyFailed]

/-- C3: a loop block whose iterations all make the same number of loop checks adds
exactly 1 to `count_test` of the enclosing context, and adds 1 to `count_fail` if some
check failed in some iteration and 0 otherwise, whatever the iteration count `K` and
the number of checks.  The block ends either by falling through or, when it failed with
stop-on-fail on, by `exit(1)`; `t` is the state it leaves. -/
theorem loop_block_counts_once (start finish : Site) (K checks : Nat)
    (body : Nat → List LoopCheck) (s : State)
    (hsame : ∀ i, i < K → (body i).length = checks) :
    ∃ t, (KUT_LOOP start finish K body s).state? = some t ∧
      t.kut_data.count_test = s.kut_data.count_test + 1 ∧
      ((∃ i, i < K ∧ ∃ c ∈ body i, c.failed = true) →
        t.kut_data.count_fail = s.kut_data.count_fail + 1) ∧
      ((¬ ∃ i, i < K ∧ ∃ c ∈ body i, c.failed = true) →
        t.kut_data.count_fail = s.kut_data.count_fail) := by
  have key := KUT_LOOP_counters start finish K checks body s hsame
  rw [← anyFailed_iff]
  cases hf : anyFailed body K
  · simp only [hf, Counters.afterLoopEnd] at key
    obtain ⟨t, ht, hc⟩ := Outcome.map_eq_next key
    have e := congrArg Counters.kut_data hc
    simp only [State.counters, Counters.afterLoopStart] at e
    refine ⟨t, by rw [ht]; rfl, by rw [e], by simp, fun _ => by rw [e]⟩
  · cases hs : s.kut_data.StopTestOnFail
    · have hs2 : s.counters.afterLoopStart.kut_data.StopTestOnFail = false := hs
      simp only [hf, Counters.afterLoopEnd, hs2, if_true] at key
      obtain ⟨t, ht, hc⟩ := Outcome.map_eq_next key
      have e := congrArg Counters.kut_data hc
      simp only [State.counters, Counters.afterLoopStart] at e
      refine ⟨t, by rw [ht]; rfl, by rw [e], fun _ => by rw [e], by simp⟩
    · have hs2 : s.counters.afterLoopStart.kut_data.StopTestOnFail = true := hs
      simp only [hf, Counters.afterLoopEnd, hs2, if_true] at key
      obtain ⟨t, ht, hc⟩ := Outcome.map_eq_exited key
      have e := congrArg Counters.kut_data hc
      simp only [State.counters, Counters.afterLoopStart] at e
      refine ⟨t, by rw [ht]; rfl, by rw [e], fun _ => by rw [e], by simp⟩

/-- Witness of C3: five iterations of two checks, the second failing in iterations 3 and
4, in a context with 7 tests and 2 failures: the block leaves 8 tests and 3 failures. -/
theorem loop_block_counts_once_witness :
    (∀ i, i < 5 → (exampleLoopBody i).length = 2) ∧
    ∃ t, (KUT_LOOP (exampleSite 50) (exampleSite 54) 5 exampleLoopBody
        (exampleState false true)).state? = some t ∧
      t.kut_data.count_test = 8 ∧ t.kut_data.count_fail = 3 := by
  refine ⟨fun _ _ => rfl, ?_⟩
  obtain ⟨t, ht, h1, h2, -⟩ := loop_block_counts_once (exampleSite 50) (exampleSite 54) 5 2
    exampleLoopBody (exampleState false true) (fun _ _ => rfl)
  exact ⟨t, ht, h1, h2 ⟨3, by decide, _, List.mem_cons_of_mem _ (List.mem_singleton_self _),
    by decide⟩⟩

/-- C9: a loop block with iteration count 0 falls through whatever its body contains: it
adds 1 to `count_test`, leaves `count_fail` and the recorded failure sites unchanged,
and does not reach the stop-on-fail `exit(1)` (also when stop-on-fail is on). -/
theorem loop_zero_iterations_passes (start finish : Site) (body : Nat → List LoopCheck)
    (s : State) :
    ∃ t, KUT_LOOP start finish 0 body s = .next t ∧
      t.kut_data.count_test = s.kut_data.count_test + 1 ∧
      t.kut_data.count_fail = s.kut_data.count_fail ∧
      t.g.kut_fail_file = s.g.kut_fail_file ∧
      t.g.kut_fail_line = s.g.kut_fail_line ∧
      t.kut_data.DoQuit = s.kut_data.DoQuit := by
  have key := KUT_LOOP_counters start finish 0 0 body s (fun i hi => absurd hi (by omega))
  have hf : anyFailed body 0 = false := rfl
  simp only [hf, Counters.afterLoopEnd] at key
  obtain ⟨t, ht, hc⟩ := Outcome.map_eq_next key
  have e1 := congrArg Counters.kut_data hc
  have e2 := congrArg Counters.kut_fail_file hc
  have e3 := congrArg Counters.kut_fail_line hc
  simp only [State.counters, Counters.afterLoopStart] at e1 e2 e3
  exact ⟨t, ht, by rw [e1], by rw [e1], e2, e3, by rw [e1]⟩

/-! ## Stop on fail -/

theorem run_append (xs ys : List Op) (s : State) :
    run (xs ++ ys) s = (run xs s).andThen (run ys) := by
  induction xs generalizing s with
  | nil => rfl
  | cons x xs ih =>
    simp only [List.cons_append, run]
    cases x.exec s <;> simp [Outcome.andThen, ih]

/-- A regular assertion that fails with stop-on-fail on ends the process. -/
theorem Assertion.exec_exited (site : Site) (a : Assertion) (s : State)
    (hstop : s.kut_data.StopTestOnFail = true) (hfail : a.pred = false) :
    ∃ t, a.exec site s = .exited t 1 ∧
      t.kut_data.count_test = s.kut_data.count_test + 1 ∧
      t.kut_data.count_fail = s.kut_data.count_fail + 1 ∧
      t.kut_data.DoQuit = true := by
  have key := Assertion.exec_counters site a s
  have h2 : s.counters.afterP2.kut_data.StopTestOnFail = true := hstop
  simp only [Counters.afterAssertion, Counters.afterFailure, hfail, h2, if_true] at key
  obtain ⟨t, ht, hc⟩ := Outcome.map_eq_exited key
  have e := congrArg Counters.kut_data hc
  simp only [State.counters, Counters.afterP2] at e
  exact ⟨t, ht, by rw [e], by rw [e], by rw [e]⟩

/-- C4: when the statements `pre` of a test lead to a regular assertion that fails while
stop-on-fail is on, the assertion ends the run by `exit(1)`: whatever statements `rest`
follow it, the run of the whole test ends in the state `t` the failing assertion left,
whose `count_test` and `count_fail` are those reached at the assertion. -/
theorem stop_on_fail_freezes (pre rest : List Op) (site : Site) (a : Assertion) (s0 s : State)
    (hpre : run pre s0 = .next s)
    (hstop : s.kut_data.StopTestOnFail = true) (hfail : a.pred = false) :
    ∃ t, a.exec site s = .exited t 1 ∧
      run (pre ++ Op.assert site a :: rest) s0 = .exited t 1 ∧
      t.kut_data.count_test = s.kut_data.count_test + 1 ∧
      t.kut_data.count_fail = s.kut_data.count_fail + 1 := by
  obtain ⟨t, ht, h1, h2, -⟩ := Assertion.exec_exited site a s hstop hfail
  refine ⟨t, ht, ?_, h1, h2⟩
  rw [run_append, hpre]
  simp only [Outcome.next_andThen, run, Op.exec, ht, Outcome.exited_andThen]

/-- Witness of C4: after `KUT_STOP_ON_FAIL( true )`, a failing `KUT_EQ_NS` ends the run
with 8 tests and 3 failures, although a passing and a failing assertion and a toggle
follow it. -/
theorem stop_on_fail_freezes_witness :
    (run [.KUT_STOP_ON_FAIL true] (exampleState false true) =
      .next (KUT_STOP_ON_FAIL true (exampleState false true)) ∧
    (KUT_STOP_ON_FAIL true (exampleState false true)).kut_data.StopTestOnFail = true ∧
    (Assertion.KUT_EQ_NS "a" "b" false).pred = false) ∧
    ∃ t, run ([.KUT_STOP_ON_FAIL true] ++
        .assert (exampleSite 62) (.KUT_EQ_NS "a" "b" false) ::
          [.assert (exampleSite 63) (.KUT_TRUE_NS "ok" 1),
           .assert (exampleSite 64) (.KUT_TRUE_NS "ko" 0), .KUT_STOP_ON_FAIL false])
        (exampleState false true) = .exited t 1 ∧
      t.kut_data.count_test = 8 ∧ t.kut_data.count_fail = 3 := by
  refine ⟨⟨rfl, rfl, rfl⟩, ?_⟩
  obtain ⟨t, -, ht, h1, h2⟩ := stop_on_fail_freezes [.KUT_STOP_ON_FAIL true]
    [.assert (exampleSite 63) (.KUT_TRUE_NS "ok" 1),
     .assert (exampleSite 64) (.KUT_TRUE_NS "ko" 0), .KUT_STOP_ON_FAIL false]
    (exampleSite 62) (.KUT_EQ_NS "a" "b" false) (exampleState false true)
    (KUT_STOP_ON_FAIL true (exampleState false true)) rfl rfl rfl
  exact ⟨t, ht, h1, h2⟩

/-! ## Exception macros -/

theorem Outcome.map_andThen_thrown {σ τ : Type} (f : σ → τ) (o : Outcome σ) :
    (o.andThen fun s => .thrown s).map f = (o.map f).andThen fun c => .thrown c := by
  cases o <;> rfl

theorem KUT_TRY_THROW_counters (a : String) (r : Raised) (site : Site) (s : State) :
    (KUT_TRY_THROW a r site s).map State.counters = s.counters.afterTryThrow r site ∧
    (Kut2.KUT_TRY_THROW a r site s).map State.counters = s.counters.afterTryThrow r site := by
  cases r with
  | nothing =>
    simp only [KUT_TRY_THROW, Kut2.KUT_TRY_THROW, Counters.afterTryThrow]
    rw [Outcome.map_andThen_next _ _ _ (fun s => KUT_LOG2_counters _ s),
      Outcome.map_andThen_next _ _ _ (fun s => KUT_LOG2_counters _ s),
      KUT_P_FAILURE_counters, KUT_P2_counters]
    exact ⟨rfl, rfl⟩
  | stdException what =>
    simp only [KUT_TRY_THROW, Kut2.KUT_TRY_THROW, Counters.afterTryThrow, Outcome.map_next,
      KUT_LOG2_counters, KUT_P2_counters]
    exact ⟨trivial, trivial⟩
  | other =>
    simp only [KUT_TRY_THROW, Kut2.KUT_TRY_THROW, Counters.afterTryThrow,
      Outcome.map_andThen_thrown, KUT_P_FAILURE_counters, KUT_LOG_counters, KUT_P2_counters]
    exact ⟨trivial, trivial⟩

theorem KUT_TRY_NOTHROW_counters (a : String) (r : Raised) (site : Site) (s : State) :
    (KUT_TRY_NOTHROW a r site s).map State.counters = s.counters.afterTryNoThrow r site ∧
    (Kut2.KUT_TRY_NOTHROW a r site s).map State.counters
      = s.counters.afterTryNoThrow r site := by
  cases r with
  | nothing =>
    simp only [KUT_TRY_NOTHROW, Kut2.KUT_TRY_NOTHROW, Counters.afterTryNoThrow,
      Outcome.map_next, KUT_LOG2_counters, KUT_P2_counters]
    exact ⟨trivial, trivial⟩
  | stdException what =>
    simp only [KUT_TRY_NOTHROW, Kut2.KUT_TRY_NOTHROW, Counters.afterTryNoThrow]
    rw [Outcome.map_andThen_next _ _ _ (fun s => KUT_LOG2_counters _ s),
      KUT_P_FAILURE_counters, KUT_P2_counters]
    exact ⟨rfl, rfl⟩
  | other =>
    simp only [KUT_TRY_NOTHROW, Kut2.KUT_TRY_NOTHROW, Counters.afterTryNoThrow,
      Outcome.map_andThen_thrown, KUT_P_FAILURE_counters, KUT_LOG_counters, KUT_P2_counters]
    exact ⟨trivial, trivial⟩

theorem afterFailure_cases (site : Site) (s : State) (o : Outcome State)
    (h : o.map State.counters = s.counters.afterP2.afterFailure site) :
    ∃ t, o = (if s.kut_data.StopTestOnFail then .exited t 1 else .next t) ∧
      t.kut_data.count_test = s.kut_data.count_test + 1 ∧
      t.kut_data.count_fail = s.kut_data.count_fail + 1 := by
  cases hs : s.kut_data.StopTestOnFail
  · have h2 : s.counters.afterP2.kut_data.StopTestOnFail = false := hs
    simp only [Counters.afterFailure, h2] at h
    obtain ⟨t, ht, hc⟩ := Outcome.map_eq_next h
    have e := congrArg Counters.kut_data hc
    simp only [State.counters, Counters.afterP2] at e
    exact ⟨t, by simp [ht], by rw [e], by rw [e]⟩
  · have h2 : s.counters.afterP2.kut_data.StopTestOnFail = true := hs
    simp only [Counters.afterFailure, h2, if_true] at h
    obtain ⟨t, ht, hc⟩ := Outcome.map_eq_exited h
    have e := congrArg Counters.kut_data hc
    simp only [State.counters, Counters.afterP2] at e
    exact ⟨t, by simp [ht], by rw [e], by rw [e]⟩

theorem afterFailure_thrown_cases (site : Site) (s : State) (o : Outcome State)
    (h : o.map State.counters =
      (s.counters.afterP2.afterFailure site).andThen fun c => .thrown c) :
    ∃ t, o = (if s.kut_data.StopTestOnFail then .exited t 1 else .thrown t) ∧
      t.kut_data.count_test = s.kut_data.count_test + 1 ∧
      t.kut_data.count_fail = s.kut_data.count_fail + 1 := by
  cases hs : s.kut_data.StopTestOnFail
  · have h2 : s.counters.afterP2.kut_data.StopTestOnFail = false := hs
    simp only [Counters.afterFailure, h2, Outcome.next_andThen] at h
    obtain ⟨t, ht, hc⟩ := Outcome.map_eq_thrown h
    have e := congrArg Counters.kut_data hc
    simp only [State.counters, Counters.afterP2] at e
    exact ⟨t, by simp [ht], by rw [e], by rw [e]⟩
  · have h2 : s.counters.afterP2.kut_data.StopTestOnFail = true := hs
    simp only [Counters.afterFailure, h2, if_true, Outcome.exited_andThen] at h
    obtain ⟨t, ht, hc⟩ := Outcome.map_eq_exited h
    have e := congrArg Counters.kut_data hc
    simp only [State.counters, Counters.afterP2] at e
    exact ⟨t, by simp [ht], by rw [e], by rw [e]⟩

theorem afterP2_next_cases (s : State) (o : Outcome State)
    (h : o.map State.counters = .next s.counters.afterP2) :
    ∃ t, o = .next t ∧
      t.kut_data.count_test = s.kut_data.count_test + 1 ∧
      t.kut_data.count_fail = s.kut_data.count_fail := by
  obtain ⟨t, ht, hc⟩ := Outcome.map_eq_next h
  have e := congrArg Counters.kut_data hc
  simp only [State.counters, Counters.afterP2] at e
  exact ⟨t, ht, by rw [e], by rw [e]⟩

/-- Counterexample of C6: with stop-on-fail on, `KUT_TRY_THROW` whose argument raises a
fault that is not a `std::exception` counts the failure and ends the process by
`exit(1)`; the fault is not raised again out of the macro. -/
theorem try_throw_other_fault_exits :
    (exampleState true false).kut_data.StopTestOnFail = true ∧
    (∃ t, KUT_TRY_THROW "f()" .other (exampleSite 70) (exampleState true false) = .exited t 1 ∧
      t.kut_data.count_fail = 3) ∧
    ¬ ∃ t, KUT_TRY_THROW "f()" .other (exampleSite 70) (exampleState true false) = .thrown t := by
  refine ⟨rfl, ⟨_, rfl, rfl⟩, ?_⟩
  rintro ⟨t, ht⟩
  have e : ∃ u, KUT_TRY_THROW "f()" .other (exampleSite 70) (exampleState true false)
      = .exited u 1 := ⟨_, rfl⟩
  obtain ⟨u, hu⟩ := e
  rw [hu] at ht
  cases ht

/-- C6, amended: `KUT_TRY_THROW( a )`, in `kut.h` and in `kut2.h`, adds exactly 1 to
`count_test`; it passes (falls through with `count_fail` unchanged) if and only if
running `a` raised a `std::exception`; if `a` raised nothing it adds 1 to `count_fail`
and falls through when stop-on-fail is off; if `a` raised any other fault it adds 1 to
`count_fail` and raises that fault again when stop-on-fail is off; in both failing cases
the macro calls `exit(1)` instead when stop-on-fail is on. -/
theorem try_throw_effect :
    ∀ M ∈ [Kut.KUT_TRY_THROW, Kut2.KUT_TRY_THROW],
    ∀ (a : String) (r : Raised) (site : Site) (s : State),
    ∃ t, (M a r site s).state? = some t ∧
      t.kut_data.count_test = s.kut_data.count_test + 1 ∧
      ((M a r site s = .next t ∧ t.kut_data.count_fail = s.kut_data.count_fail) ↔
        ∃ what, r = .stdException what) ∧
      (r = .nothing → t.kut_data.count_fail = s.kut_data.count_fail + 1 ∧
        M a r site s = (if s.kut_data.StopTestOnFail then .exited t 1 else .next t)) ∧
      (r = .other → t.kut_data.count_fail = s.kut_data.count_fail + 1 ∧
        M a r site s = (if s.kut_data.StopTestOnFail then .exited t 1 else .thrown t)) := by
  intro M hM a r site s
  have key : (M a r site s).map State.counters = s.counters.afterTryThrow r site := by
    simp only [List.mem_cons, List.mem_singleton, List.not_mem_nil, or_false] at hM
    rcases hM with rfl | rfl
    · exact (KUT_TRY_THROW_counters a r site s).1
    · exact (KUT_TRY_THROW_counters a r site s).2
  cases r with
  | nothing =>
    obtain ⟨t, ht, h1, h2⟩ := afterFailure_cases site s _ key
    refine ⟨t, by rw [ht]; split <;> rfl, h1, ?_, fun _ => ⟨h2, ht⟩, fun h => (nomatch h)⟩
    constructor
    · rintro ⟨-, h3⟩
      omega
    · rintro ⟨w, hw⟩
      cases hw
  | stdException what =>
    obtain ⟨t, ht, h1, h2⟩ := afterP2_next_cases s _ key
    exact ⟨t, by rw [ht]; rfl, h1, ⟨fun _ => ⟨what, rfl⟩, fun _ => ⟨ht, h2⟩⟩,
      fun h => (nomatch h), fun h => (nomatch h)⟩
  | other =>
    obtain ⟨t, ht, h1, h2⟩ := afterFailure_thrown_cases site s _ key
    refine ⟨t, by rw [ht]; split <;> rfl, h1, ?_, fun h => (nomatch h), fun _ => ⟨h2, ht⟩⟩
    constructor
    · rintro ⟨-, h3⟩
      omega
    · rintro ⟨w, hw⟩
      cases hw

/-- Witness of C6: in a context with 7 tests and 2 failures, `KUT_TRY_THROW` of `kut2.h`
whose argument raises a `std::exception` falls through with 8 tests and 2 failures. -/
theorem try_throw_effect_witness :
    Kut2.KUT_TRY_THROW ∈ [Kut.KUT_TRY_THROW, Kut2.KUT_TRY_THROW] ∧
    ∃ t, Kut2.KUT_TRY_THROW "f()" (.stdException "bad") (exampleSite 71)
        (exampleState false true) = .next t ∧
      t.kut_data.count_test = 8 ∧ t.kut_data.count_fail = 2 := by
  have hM : Kut2.KUT_TRY_THROW ∈ [Kut.KUT_TRY_THROW, Kut2.KUT_TRY_THROW] :=
    List.mem_cons_of_mem _ (List.mem_singleton_self _)
  obtain ⟨t, -, h1, h2, -, -⟩ := try_throw_effect Kut2.KUT_TRY_THROW hM "f()"
    (.stdException "bad") (exampleSite 71) (exampleState false true)
  obtain ⟨h3, h4⟩ := h2.mpr ⟨_, rfl⟩
  exact ⟨hM, t, h3, h1, h4⟩

/-- Counterexample of C7: with stop-on-fail on, `KUT_TRY_NOTHROW` whose argument raises a
`std::exception` counts the failure and ends the process by `exit(1)`: the exception is
not swallowed with execution going on to the next statement. -/
theorem try_nothrow_std_exception_exits :
    (exampleState true true).kut_data.StopTestOnFail = true ∧
    (∃ t, KUT_TRY_NOTHROW "f()" (.stdException "bad") (exampleSite 80) (exampleState true true)
        = .exited t 1 ∧ t.kut_data.count_fail = 3) ∧
    ¬ ∃ t, KUT_TRY_NOTHROW "f()" (.stdException "bad") (exampleSite 80) (exampleState true true)
        = .next t := by
  refine ⟨rfl, ⟨_, rfl, rfl⟩, ?_⟩
  rintro ⟨t, ht⟩
  have e : ∃ u, KUT_TRY_NOTHROW "f()" (.stdException "bad") (exampleSite 80)
      (exampleState true true) = .exited u 1 := ⟨_, rfl⟩
  obtain ⟨u, hu⟩ := e
  rw [hu] at ht
  cases ht

/-- C7, amended: `KUT_TRY_NOTHROW( a )`, in `kut.h` and in `kut2.h`, adds exactly 1 to
`count_test`; it leaves `count_fail` unchanged if and only if running `a` raised
nothing, and then falls through; a `std::exception` adds 1 to `count_fail` and, when
stop-on-fail is off, is swallowed (control falls through to the next statement); any
other fault adds 1 to `count_fail` and, when stop-on-fail is off, is raised again; in
both failing cases the macro calls `exit(1)` instead when stop-on-fail is on. -/
theorem try_nothrow_effect :
    ∀ M ∈ [Kut.KUT_TRY_NOTHROW, Kut2.KUT_TRY_NOTHROW],
    ∀ (a : String) (r : Raised) (site : Site) (s : State),
    ∃ t, (M a r site s).state? = some t ∧
      t.kut_data.count_test = s.kut_data.count_test + 1 ∧
      (t.kut_data.count_fail = s.kut_data.count_fail ↔ r = .nothing) ∧
      (r = .nothing → M a r site s = .next t) ∧
      (∀ what, r = .stdException what →
        t.kut_data.count_fail = s.kut_data.count_fail + 1 ∧
        M a r site s = (if s.kut_data.StopTestOnFail then .exited t 1 else .next t)) ∧
      (r = .other → t.kut_data.count_fail = s.kut_data.count_fail + 1 ∧
        M a r site s = (if s.kut_data.StopTestOnFail then .exited t 1 else .thrown t)) := by
  intro M hM a r site s
  have key : (M a r site s).map State.counters = s.counters.afterTryNoThrow r site := by
    simp only [List.mem_cons, List.mem_singleton, List.not_mem_nil, or_false] at hM
    rcases hM with rfl | rfl
    · exact (KUT_TRY_NOTHROW_counters a r site s).1
    · exact (KUT_TRY_NOTHROW_counters a r site s).2
  cases r with
  | nothing =>
    obtain ⟨t, ht, h1, h2⟩ := afterP2_next_cases s _ key
    exact ⟨t, by rw [ht]; rfl, h1, ⟨fun _ => rfl, fun _ => h2⟩, fun _ => ht,
      fun _ h => (nomatch h), fun h => (nomatch h)⟩
  | stdException what =>
    obtain ⟨t, ht, h1, h2⟩ := afterFailure_cases site s _ key
    refine ⟨t, by rw [ht]; split <;> rfl, h1, ?_, fun h => (nomatch h), fun _ _ => ⟨h2, ht⟩,
      fun h => (nomatch h)⟩
    constructor
    · intro h3
      omega
    · intro h
      cases h
  | other =>
    obtain ⟨t, ht, h1, h2⟩ := afterFailure_thrown_cases site s _ key
    refine ⟨t, by rw [ht]; split <;> rfl, h1, ?_, fun h => (nomatch h), fun _ h => (nomatch h),
      fun _ => ⟨h2, ht⟩⟩
    constructor
    · intro h3
      omega
    · intro h
      cases h

/-- Witness of C7: in a context with 7 tests and 2 failures and stop-on-fail off,
`KUT_TRY_NOTHROW` of `kut.h` whose argument raises a fault that is not a `std::exception`
raises it again, with 8 tests and 3 failures. -/
theorem try_nothrow_effect_witness :
    Kut.KUT_TRY_NOTHROW ∈ [Kut.KUT_TRY_NOTHROW, Kut2.KUT_TRY_NOTHROW] ∧
    ∃ t, Kut.KUT_TRY_NOTHROW "f()" .other (exampleSite 81) (exampleState false true)
        = .thrown t ∧
      t.kut_data.count_test = 8 ∧ t.kut_data.count_fail = 3 := by
  have hM : Kut.KUT_TRY_NOTHROW ∈ [Kut.KUT_TRY_NOTHROW, Kut2.KUT_TRY_NOTHROW] :=
    List.mem_cons_self _ _
  obtain ⟨t, -, h1, -, -, -, h2⟩ := try_nothrow_effect Kut.KUT_TRY_NOTHROW hM "f()"
    .other (exampleSite 81) (exampleState false true)
  obtain ⟨h3, h4⟩ := h2 rfl
  exact ⟨hM, t, h4, h1, h3⟩

/-! ## The slots of a loop block -/

theorem loopSummaryLine_log (count_test : Int) (v : LoopVars) (j : Nat) (g : Globals) :
    (loopSummaryLine count_test v j g).kut_logfile =
      (g.kut_logfile ++ [.str "   - subtest ", .int count_test, .str ".", .int (j + 1),
          .str ", expr: ", .str (v.kut_loop_expr_a.getD j ""), .str "  ",
          .str (v.kut_loop_expr_op.getD j ""), .str " ", .str (v.kut_loop_expr_b.getD j "")]) ++
        [.str ", failed: ", .int (v.kut_loop_fails.getD j 0), .str " over ",
         .int v.kut_loop_nb_iter, .str " (",
         .real (100 * (v.kut_loop_fails.getD j 0 : Rat) / (v.kut_loop_nb_iter : Rat)),
         .str " %)\n"] := by
  simp [loopSummaryLine, KUT_LOG, KUT_LOG2, loopPercent]

theorem loopSummary_prefix (count_test : Int) (v : LoopVars) (n : Nat) (g : Globals) :
    g.kut_logfile <+:
      ((List.range n).foldl (fun g i => loopSummaryLine count_test v i g) g).kut_logfile := by
  induction n with
  | zero => exact List.prefix_refl _
  | succ n ih =>
    rw [List.range_succ, List.foldl_append]
    simp only [List.foldl_cons, List.foldl_nil]
    refine ih.trans ?_
    rw [loopSummaryLine_log, List.append_assoc]
    exact List.prefix_append _ _

theorem loopSummary_infix (count_test : Int) (v : LoopVars) (n j : Nat) (g : Globals)
    (hj : j < n) :
    [.str ", failed: ", .int (v.kut_loop_fails.getD j 0), .str " over ",
     .int v.kut_loop_nb_iter, .str " (",
     .real (100 * (v.kut_loop_fails.getD j 0 : Rat) / (v.kut_loop_nb_iter : Rat)),
     .str " %)\n"] <:+:
      ((List.range n).foldl (fun g i => loopSummaryLine count_test v i g) g).kut_logfile := by
  induction n with
  | zero => omega
  | succ n ih =>
    rw [List.range_succ, List.foldl_append]
    simp only [List.foldl_cons, List.foldl_nil]
    by_cases e : j = n
    · subst e
      rw [loopSummaryLine_log]
      exact (List.suffix_append _ _).isInfix
    · refine (ih (by omega)).trans ?_
      rw [loopSummaryLine_log, List.append_assoc]
      exact (List.prefix_append _ _).isInfix

/-- In verbose mode the log `KUT_LOOP_END` leaves starts with the summary lines. -/
theorem KUT_LOOP_END_log (site : Site) (v : LoopVars) (s t : State)
    (hv : s.g.kut_verbose = true) (ht : (KUT_LOOP_END site v s).state? = some t) :
    ((List.range v.kut_loop_fails.length).foldl
        (fun g i => loopSummaryLine s.kut_data.count_test v i g)
        (KUT_LOG [.str (if v.kut_fail_flag then "FAIL" else "PASS"), .str ", ",
                  .int v.kut_loop_nb_iter, .str " iterations, at line ",
                  .int v.kut_loop_line, .endl] s.g)).kut_logfile
      <+: t.g.kut_logfile := by
  cases hf : v.kut_fail_flag <;> cases hs : s.kut_data.StopTestOnFail <;>
    simp only [KUT_LOOP_END, hv, hf, hs, if_true, Outcome.state?, Option.some.injEq,
      beq_self_eq_true, Bool.false_eq_true, if_false, beq_iff_eq] at ht <;>
    subst ht <;>
    simp [KUT_LOG, KUT_LOG2, List.append_assoc]

theorem KUT_LOOP_END_state (site : Site) (v : LoopVars) (s : State) :
    ∃ t, (KUT_LOOP_END site v s).state? = some t := by
  unfold KUT_LOOP_END
  simp only
  split
  · split <;> exact ⟨_, rfl⟩
  · exact ⟨_, rfl⟩

/-- C8: in a loop block of `K >= 1` iterations that all make `checks` loop checks, the
`for` statement leaves a vector `kut_loop_fails` of length `checks` whose entry `j` is
the number of iterations in which the check at position `j` failed, hence at most `K`;
and in verbose mode the summary written by `KUT_LOOP_END` reports for slot `j` that
entry, `K`, and the percentage `100 * entry / K` (as an exact rational). -/
theorem loop_slots_count_failures (start finish : Site) (K checks : Nat)
    (body : Nat → List LoopCheck) (s : State)
    (hK : 1 ≤ K) (hsame : ∀ i, i < K → (body i).length = checks) :
    ∃ v t, loopFor body K (KUT_LOOP_START K start s).2 = some v ∧
      (KUT_LOOP start finish K body s).state? = some t ∧
      v.kut_loop_fails.length = checks ∧
      ∀ j, j < checks →
        v.kut_loop_fails.getD j 0 = (List.range K).countP (fun i => failedAt body i j) ∧
        v.kut_loop_fails.getD j 0 ≤ K ∧
        (s.g.kut_verbose = true →
          [.str ", failed: ", .int (v.kut_loop_fails.getD j 0), .str " over ", .int K,
           .str " (", .real (100 * (v.kut_loop_fails.getD j 0 : Rat) / (K : Rat)),
           .str " %)\n"] <:+: t.g.kut_logfile) := by
  obtain ⟨v, hv, vl, vg, -, -, vnb⟩ := loopFor_some body checks K start.line K hsame
  obtain ⟨h1, h2⟩ := KUT_LOOP_START_counters K start s
  have hloop : KUT_LOOP start finish K body s =
      KUT_LOOP_END finish v (KUT_LOOP_START K start s).1 := by
    show (match loopFor body K (KUT_LOOP_START K start s).2 with
      | some v => KUT_LOOP_END finish v (KUT_LOOP_START K start s).1
      | none => Outcome.undefined) = _
    rw [h2, hv]
  obtain ⟨t, ht⟩ := KUT_LOOP_END_state finish v (KUT_LOOP_START K start s).1
  have hlen : v.kut_loop_fails.length = checks := by
    rw [vl]; simp; omega
  refine ⟨v, t, by rw [h2, hv], by rw [hloop, ht], hlen, ?_⟩
  intro j hj
  refine ⟨vg j, ?_, ?_⟩
  · rw [vg j]
    exact (List.countP_le_length _).trans (by simp)
  · intro hverb
    have hverb1 : (KUT_LOOP_START K start s).1.g.kut_verbose = true := by
      have := congrArg Counters.kut_verbose h1
      simp only [State.counters, Counters.afterLoopStart] at this
      rw [this, hverb]
    have hpre := KUT_LOOP_END_log finish v _ t hverb1 ht
    have hin := loopSummary_infix (KUT_LOOP_START K start s).1.kut_data.count_test v
      v.kut_loop_fails.length j
      (KUT_LOG [.str (if v.kut_fail_flag then "FAIL" else "PASS"), .str ", ",
                .int v.kut_loop_nb_iter, .str " iterations, at line ",
                .int v.kut_loop_line, .endl] (KUT_LOOP_START K start s).1.g)
      (by rw [hlen]; exact hj)
    rw [vnb] at hin hpre
    exact hin.trans hpre.isInfix

/-- Witness of C8: a loop block of 50 iterations with one check that fails in iterations
10 to 20: the vector has one entry, 11, and the verbose summary reports
`failed: 11 over 50 (22 %)`. -/
theorem loop_slots_count_failures_witness :
    (1 ≤ 50 ∧ ∀ i, i < 50 → (exampleLoopBody50 i).length = 1) ∧
    ∃ v t, loopFor exampleLoopBody50 50
        (KUT_LOOP_START 50 (exampleSite 90) (exampleState false true)).2 = some v ∧
      (KUT_LOOP (exampleSite 90) (exampleSite 93) 50 exampleLoopBody50
        (exampleState false true)).state? = some t ∧
      v.kut_loop_fails.length = 1 ∧ v.kut_loop_fails.getD 0 0 = 11 ∧
      [.str ", failed: ", .int 11, .str " over ", .int 50, .str " (", .real 22,
       .str " %)\n"] <:+: t.g.kut_logfile := by
  refine ⟨⟨by decide, fun _ _ => rfl⟩, ?_⟩
  obtain ⟨v, t, hv, ht, hlen, h⟩ := loop_slots_count_failures (exampleSite 90) (exampleSite 93)
    50 1 exampleLoopBody50 (exampleState false true) (by decide) (fun _ _ => rfl)
  obtain ⟨h1, -, h3⟩ := h 0 (by decide)
  have e : (List.range 50).countP (fun i => failedAt exampleLoopBody50 i 0) = 11 := by decide
  rw [e] at h1
  have h4 := h3 rfl
  rw [h1] at h4
  have e2 : (100 * ((11 : Nat) : Rat) / ((50 : Nat) : Rat)) = 22 := by norm_num
  rw [e2] at h4
  exact ⟨v, t, hv, ht, hlen, h1, h4⟩

/-! ## The invariant `0 <= count_fail <= count_test` -/

theorem Outcome.state?_map {σ τ : Type} (f : σ → τ) (o : Outcome σ) :
    (o.map f).state? = o.state?.map f := by
  cases o <;> rfl

theorem KUT_EQ_F_counters (a b : String) (va vb : Rat) (site : Site) (s : State) :
    (KUT_EQ_F a b va vb site s).map State.counters =
      s.counters.afterAssertion (decide (|va - vb| < KUT_EPSILON)) site := by
  unfold KUT_EQ_F
  rw [Outcome.map_andThen_next State.counters _
    (fun s => KUT_P_STREAM_VALUES a b (.real va) (.real vb)
      { s with g := ifVerbose_KUT_LOG [.str ", expr: ", .str a, .str " == ", .str b, .endl] s.g })
    (fun s => by rw [KUT_P_STREAM_VALUES_counters, ifVerbose_KUT_LOG_counters]),
    KUT_P2_P11_counters]

theorem KUT_TRUE_2_counters (a b : String) (va : Int) (vb : String) (site : Site) (s : State) :
    (KUT_TRUE_2 a b va vb site s).map State.counters =
      s.counters.afterAssertion (va != 0) site := by
  unfold KUT_TRUE_2
  rw [Outcome.map_andThen_next, KUT_P2_P11_counters]
  intro s
  simp only [State.counters]
  split
  · split <;> rfl
  · rfl

theorem KUT_TRUE_2P_counters (a b : String) (va : Int) (site : Site) (s : State) :
    (KUT_TRUE_2P a b va site s).map State.counters =
      s.counters.afterAssertion (va != 0) site := by
  unfold KUT_TRUE_2P
  rw [Outcome.map_andThen_next, KUT_P2_P11_counters]
  intro s
  simp only [State.counters]
  split
  · split <;> rfl
  · rfl

theorem afterFailure_countedFrom (site : Site) (c c2 : Counters)
    (h : (c.afterFailure site).state? = some c2) :
    c2.kut_data.count_test = c.kut_data.count_test ∧
    c2.kut_data.count_fail = c.kut_data.count_fail + 1 := by
  unfold Counters.afterFailure at h
  split at h <;> simp only [Outcome.state?, Option.some.injEq] at h <;> subst h <;> simp

theorem afterAssertion_countedFrom (pred : Bool) (site : Site) (c c2 : Counters)
    (h : (c.afterAssertion pred site).state? = some c2) :
    c2.kut_data.countedFrom c.kut_data := by
  unfold Counters.afterAssertion at h
  split at h
  · simp only [Outcome.state?, Option.some.injEq] at h
    subst h
    simp [KUT_TYPE.countedFrom, Counters.afterP2]
  · obtain ⟨h1, h2⟩ := afterFailure_countedFrom site _ _ h
    simp only [Counters.afterP2] at h1 h2
    simp only [KUT_TYPE.countedFrom, h1, h2]
    omega

theorem afterFailure_thrown_countedFrom (site : Site) (c c2 : Counters)
    (h : ((c.afterFailure site).andThen fun c => .thrown c).state? = some c2) :
    c2.kut_data.count_test = c.kut_data.count_test ∧
    c2.kut_data.count_fail = c.kut_data.count_fail + 1 := by
  unfold Counters.afterFailure at h
  split at h <;>
    simp only [Outcome.andThen, Outcome.state?, Option.some.injEq] at h <;> subst h <;> simp

theorem afterTry_countedFrom (r : Raised) (site : Site) (c c2 : Counters)
    (h : (c.afterTryThrow r site).state? = some c2 ∨
      (c.afterTryNoThrow r site).state? = some c2) :
    c2.kut_data.countedFrom c.kut_data := by
  have pass : ∀ c3 : Counters, (Outcome.next c.afterP2).state? = some c3 →
      c3.kut_data.countedFrom c.kut_data := by
    intro c3 h3
    simp only [Outcome.state?, Option.some.injEq] at h3
    subst h3
    simp [KUT_TYPE.countedFrom, Counters.afterP2]
  have fail : ∀ c3 : Counters, (c.afterP2.afterFailure site).state? = some c3 →
      c3.kut_data.countedFrom c.kut_data := by
    intro c3 h3
    obtain ⟨h1, h2⟩ := afterFailure_countedFrom site _ _ h3
    simp only [Counters.afterP2] at h1 h2
    simp only [KUT_TYPE.countedFrom, h1, h2]
    omega
  have rethrow : ∀ c3 : Counters,
      ((c.afterP2.afterFailure site).andThen fun c => .thrown c).state? = some c3 →
      c3.kut_data.countedFrom c.kut_data := by
    intro c3 h3
    obtain ⟨h1, h2⟩ := afterFailure_thrown_countedFrom site _ _ h3
    simp only [Counters.afterP2] at h1 h2
    simp only [KUT_TYPE.countedFrom, h1, h2]
    omega
  cases r with
  | nothing => exact h.elim (fail c2) (pass c2)
  | stdException what => exact h.elim (pass c2) (fail c2)
  | other => exact h.elim (rethrow c2) (rethrow c2)

theorem afterLoop_countedFrom (file : String) (line : Nat) (failed : Bool) (c c2 : Counters)
    (h : (c.afterLoopStart.afterLoopEnd file line failed).state? = some c2) :
    c2.kut_data.countedFrom c.kut_data := by
  unfold Counters.afterLoopEnd at h
  split at h
  · split at h <;> simp only [Outcome.state?, Option.some.injEq] at h <;> subst h <;>
      simp [KUT_TYPE.countedFrom, Counters.afterLoopStart]
  · simp only [Outcome.state?, Option.some.injEq] at h
    subst h
    simp [KUT_TYPE.countedFrom, Counters.afterLoopStart]

/-- A loop block, whatever its body: either an access outside `kut_loop_fails` occurs,
or the counters are those of `KUT_LOOP_START` followed by `KUT_LOOP_END`. -/
theorem KUT_LOOP_counters_any (start finish : Site) (nb_iter : Nat)
    (body : Nat → List LoopCheck) (s : State) :
    KUT_LOOP start finish nb_iter body s = .undefined ∨
    ∃ failed line, (KUT_LOOP start finish nb_iter body s).map State.counters =
      s.counters.afterLoopStart.afterLoopEnd finish.file line failed := by
  obtain ⟨h1, h2⟩ := KUT_LOOP_START_counters nb_iter start s
  cases hv : loopFor body nb_iter (KUT_LOOP_START nb_iter start s).2 with
  | none =>
    left
    show (match loopFor body nb_iter (KUT_LOOP_START nb_iter start s).2 with
      | some v => KUT_LOOP_END finish v (KUT_LOOP_START nb_iter start s).1
      | none => Outcome.undefined) = _
    rw [hv]
  | some v =>
    right
    refine ⟨v.kut_fail_flag, v.kut_loop_line, ?_⟩
    show (match loopFor body nb_iter (KUT_LOOP_START nb_iter start s).2 with
      | some v => KUT_LOOP_END finish v (KUT_LOOP_START nb_iter start s).1
      | none => Outcome.undefined).map State.counters = _
    rw [hv]
    simp only [KUT_LOOP_END_counters, h1]

/-- Every statement other than `KUT_EXECFUNC` leaves counters that come from those it
found by counting tests. -/
theorem Op.exec_countedFrom (op : Op) (s t : State) (hop : op.isExecFunc = false)
    (ht : (op.exec s).state? = some t) : t.kut_data.countedFrom s.kut_data := by
  have lift : ∀ (o : Outcome State) (oc : Outcome Counters), o.map State.counters = oc →
      o.state? = some t → oc.state? = some t.counters := by
    intro o oc h1 h2
    rw [← h1, Outcome.state?_map, h2]
    rfl
  cases op with
  | assert site a =>
    exact afterAssertion_countedFrom _ _ _ _ (lift _ _ (Assertion.exec_counters site a s) ht)
  | KUT_EQ_F site a b va vb =>
    exact afterAssertion_countedFrom _ _ _ _ (lift _ _ (KUT_EQ_F_counters a b va vb site s) ht)
  | KUT_TRUE_2 site a b va vb =>
    exact afterAssertion_countedFrom _ _ _ _ (lift _ _ (KUT_TRUE_2_counters a b va vb site s) ht)
  | KUT_TRUE_2P site a b va =>
    exact afterAssertion_countedFrom _ _ _ _ (lift _ _ (KUT_TRUE_2P_counters a b va site s) ht)
  | KUT_MSG a =>
    simp only [Op.exec, Outcome.state?, Option.some.injEq] at ht
    subst ht
    simp [KUT_TYPE.countedFrom, Kut.KUT_MSG]
  | KUT_STOP_ON_FAIL a =>
    simp only [Op.exec, Outcome.state?, Option.some.injEq] at ht
    subst ht
    cases a <;> simp [KUT_TYPE.countedFrom, Kut.KUT_STOP_ON_FAIL]
  | KUT_TRY_NOTHROW site a r =>
    exact afterTry_countedFrom r site _ _
      (Or.inr (lift _ _ (KUT_TRY_NOTHROW_counters a r site s).1 ht))
  | KUT_TRY_THROW site a r =>
    exact afterTry_countedFrom r site _ _
      (Or.inl (lift _ _ (KUT_TRY_THROW_counters a r site s).1 ht))
  | KUT_LOOP start finish nb_iter body =>
    rcases KUT_LOOP_counters_any start finish nb_iter body s with h | ⟨failed, line, h⟩
    · simp only [Op.exec, h, Outcome.state?] at ht
      cases ht
    · exact afterLoop_countedFrom _ _ _ _ _ (lift _ _ h ht)
  | KUT_EXECFUNC a callee => cases hop

theorem run_countedFrom (ops : List Op) (s t : State)
    (hops : ∀ op ∈ ops, op.isExecFunc = false)
    (ht : (run ops s).state? = some t) : t.kut_data.countedFrom s.kut_data := by
  induction ops generalizing s with
  | nil =>
    simp only [run, Outcome.state?, Option.some.injEq] at ht
    subst ht
    simp [KUT_TYPE.countedFrom]
  | cons op ops ih =>
    have hop : op.isExecFunc = false := hops op (List.mem_cons_self _ _)
    have step := Op.exec_countedFrom op s
    simp only [run] at ht
    cases ho : op.exec s with
    | next u =>
      rw [ho] at ht step
      have h1 := step u hop rfl
      have h2 := ih u (fun x hx => hops x (List.mem_cons_of_mem _ hx)) ht
      simp only [KUT_TYPE.countedFrom] at h1 h2 ⊢
      omega
    | returned u =>
      rw [ho] at ht step
      exact step t hop ht
    | exited u c =>
      rw [ho] at ht step
      exact step t hop ht
    | thrown u =>
      rw [ho] at ht step
      exact step t hop ht
    | undefined =>
      rw [ho] at ht
      cases ht

/-- C10: every context a test reaches from a freshly constructed `KUT_TYPE` by regular
assertions, exception assertions, `KUT_MSG`, `KUT_STOP_ON_FAIL` and loop blocks (any
statements but `KUT_EXECFUNC`) satisfies `0 <= count_fail <= count_test`; `t` is the
state in which the run of the statements `ops` falls through, exits or throws. -/
theorem count_fail_le_count_test (ops : List Op) (g : Globals) (t : State)
    (hops : ∀ op ∈ ops, op.isExecFunc = false)
    (ht : (run ops { kut_data := KUT_TYPE.init, g := g }).state? = some t) :
    0 ≤ t.kut_data.count_fail ∧ t.kut_data.count_fail ≤ t.kut_data.count_test := by
  have h := run_countedFrom ops _ t hops ht
  simp only [KUT_TYPE.countedFrom, KUT_TYPE.init] at h
  omega

/-- Witness of C10: the example test body (a message, two regular assertions, two
exception assertions, a loop block, the toggle and a failing exception assertion that
ends the run) exits with 6 tests and 4 failures. -/
theorem count_fail_le_count_test_witness :
    (∀ op ∈ exampleOps, op.isExecFunc = false) ∧
    ∃ t, run exampleOps { kut_data := KUT_TYPE.init, g := KUT_ALLOC true } = .exited t 1 ∧
      t.kut_data.count_test = 6 ∧ t.kut_data.count_fail = 4 ∧
      0 ≤ t.kut_data.count_fail ∧ t.kut_data.count_fail ≤ t.kut_data.count_test := by
  have hops : ∀ op ∈ exampleOps, op.isExecFunc = false := by decide
  have e : ∃ t, run exampleOps { kut_data := KUT_TYPE.init, g := KUT_ALLOC true }
      = .exited t 1 ∧ t.kut_data.count_test = 6 ∧ t.kut_data.count_fail = 4 :=
    ⟨_, rfl, rfl, rfl⟩
  obtain ⟨t, ht, h1, h2⟩ := e
  have h := count_fail_le_count_test exampleOps (KUT_ALLOC true) t hops (by rw [ht]; rfl)
  exact ⟨hops, t, ht, h1, h2, h.1, h.2⟩

/-! ## Recorded failure sites -/

theorem KUT_LOOP_P2_flag (failed : Bool) (u w : LoopVars) (h : KUT_LOOP_P2 failed u = some w) :
    w.kut_fail_flag = (u.kut_fail_flag || failed) ∧ w.kut_loop_line = u.kut_loop_line := by
  unfold KUT_LOOP_P2 at h
  cases failed
  · simp only [Bool.false_eq_true, if_false, Option.some.injEq] at h
    subst h
    simp
  · simp only [if_true] at h
    split at h
    · simp only [Option.some.injEq] at h
      subst h
      simp
    · cases h

theorem loopChecks_flag (i : Nat) (cs : List LoopCheck) (v w : LoopVars)
    (h : loopChecks i cs v = some w) :
    w.kut_fail_flag = (v.kut_fail_flag || cs.any LoopCheck.failed) ∧
      w.kut_loop_line = v.kut_loop_line := by
  induction cs generalizing v with
  | nil =>
    simp only [loopChecks, Option.some.injEq] at h
    subst h
    simp
  | cons c cs ih =>
    simp only [loopChecks] at h
    cases hc : c.exec i v with
    | none => simp [hc] at h
    | some u =>
      rw [hc, Option.some_bind] at h
      obtain ⟨x, hx, -, -, xf, xl, -⟩ := LoopCheck.exec_eq i c v
      rw [hx] at hc
      obtain ⟨h1, h2⟩ := KUT_LOOP_P2_flag _ _ _ hc
      obtain ⟨h3, h4⟩ := ih u h
      refine ⟨?_, by rw [h4, h2, xl]⟩
      rw [h3, h1, xf, List.any_cons, Bool.or_assoc]

theorem loopFor_flag (body : Nat → List LoopCheck) (n : Nat) (v w : LoopVars)
    (h : loopFor body n v = some w) :
    w.kut_fail_flag = (v.kut_fail_flag || anyFailed body n) ∧
      w.kut_loop_line = v.kut_loop_line := by
  induction n generalizing w with
  | zero =>
    simp only [loopFor, Option.some.injEq] at h
    subst h
    simp [anyFailed]
  | succ n ih =>
    simp only [loopFor] at h
    cases hu : loopFor body n v with
    | none => simp [hu] at h
    | some u =>
      rw [hu, Option.some_bind] at h
      obtain ⟨h1, h2⟩ := ih u hu
      obtain ⟨h3, h4⟩ := loopChecks_flag n (body n) _ w h
      refine ⟨?_, by rw [h4]; exact h2⟩
      rw [h3]
      simp only [h1, anyFailed, List.range_succ, List.any_append, List.any_cons, List.any_nil,
        Bool.or_false, Bool.or_assoc]

/-- A loop block that leaves a state acts on the counters as `KUT_LOOP_START` followed by
`KUT_LOOP_END` with the flag `anyFailed`, whatever its body. -/
theorem KUT_LOOP_counters_of_state (start finish : Site) (nb_iter : Nat)
    (body : Nat → List LoopCheck) (s t : State)
    (ht : (KUT_LOOP start finish nb_iter body s).state? = some t) :
    (KUT_LOOP start finish nb_iter body s).map State.counters =
      s.counters.afterLoopStart.afterLoopEnd finish.file start.line
        (anyFailed body nb_iter) := by
  obtain ⟨h1, h2⟩ := KUT_LOOP_START_counters nb_iter start s
  have hdef : KUT_LOOP start finish nb_iter body s =
      (match loopFor body nb_iter (KUT_LOOP_START nb_iter start s).2 with
      | some v => KUT_LOOP_END finish v (KUT_LOOP_START nb_iter start s).1
      | none => Outcome.undefined) := rfl
  cases hv : loopFor body nb_iter (KUT_LOOP_START nb_iter start s).2 with
  | none =>
    rw [hdef, hv] at ht
    cases ht
  | some v =>
    rw [hdef, hv]
    rw [h2] at hv
    obtain ⟨hf, hl⟩ := loopFor_flag body nb_iter _ v hv
    simp only [KUT_LOOP_END_counters, h1, hf, hl, LoopVars.init, Bool.false_or]

theorem afterFailure_recorded (site : Site) (c c2 : Counters)
    (h : (c.afterFailure site).state? = some c2 ∨
      ((c.afterFailure site).andThen fun c => .thrown c).state? = some c2) :
    c2.kut_fail_file = c.kut_fail_file ++ [site.file] ∧
    c2.kut_fail_line = c.kut_fail_line ++ [site.line] ∧
    c2.kut_data.count_fail = c.kut_data.count_fail + 1 := by
  unfold Counters.afterFailure at h
  rcases h with h | h <;> split at h <;>
    simp only [Outcome.andThen, Outcome.state?, Option.some.injEq] at h <;> subst h <;> simp

theorem afterAssertion_recorded (pred : Bool) (site : Site) (c c2 : Counters)
    (h : (c.afterAssertion pred site).state? = some c2) :
    c2.recordedFrom c (if pred then none else some (site.file, site.line)) := by
  unfold Counters.afterAssertion at h
  cases pred
  · simp only [Bool.false_eq_true, if_false] at h ⊢
    obtain ⟨h1, h2, h3⟩ := afterFailure_recorded site _ _ (Or.inl h)
    exact ⟨h1, h2, by simpa [Counters.afterP2] using h3⟩
  · simp only [if_true, Outcome.state?, Option.some.injEq] at h ⊢
    subst h
    simp [Counters.recordedFrom, Counters.afterP2]

theorem afterTryNoThrow_recorded (a : String) (r : Raised) (site : Site) (c c2 : Counters)
    (h : (c.afterTryNoThrow r site).state? = some c2) :
    c2.recordedFrom c (Op.KUT_TRY_NOTHROW site a r).failureSite := by
  cases r with
  | nothing =>
    simp only [Counters.afterTryNoThrow, Outcome.state?, Option.some.injEq] at h
    subst h
    simp [Counters.recordedFrom, Counters.afterP2, Op.failureSite]
  | stdException what =>
    obtain ⟨h1, h2, h3⟩ := afterFailure_recorded site _ _ (Or.inl h)
    exact ⟨h1, h2, by simpa [Counters.afterP2] using h3⟩
  | other =>
    obtain ⟨h1, h2, h3⟩ := afterFailure_recorded site _ _ (Or.inr h)
    exact ⟨h1, h2, by simpa [Counters.afterP2] using h3⟩

theorem afterTryThrow_recorded (a : String) (r : Raised) (site : Site) (c c2 : Counters)
    (h : (c.afterTryThrow r site).state? = some c2) :
    c2.recordedFrom c (Op.KUT_TRY_THROW site a r).failureSite := by
  cases r with
  | nothing =>
    obtain ⟨h1, h2, h3⟩ := afterFailure_recorded site _ _ (Or.inl h)
    exact ⟨h1, h2, by simpa [Counters.afterP2] using h3⟩
  | stdException what =>
    simp only [Counters.afterTryThrow, Outcome.state?, Option.some.injEq] at h
    subst h
    simp [Counters.recordedFrom, Counters.afterP2, Op.failureSite]
  | other =>
    obtain ⟨h1, h2, h3⟩ := afterFailure_recorded site _ _ (Or.inr h)
    exact ⟨h1, h2, by simpa [Counters.afterP2] using h3⟩

theorem afterLoop_recorded (file : String) (line : Nat) (failed : Bool) (c c2 : Counters)
    (h : (c.afterLoopStart.afterLoopEnd file line failed).state? = some c2) :
    c2.recordedFrom c (if failed then some (file, line) else none) := by
  unfold Counters.afterLoopEnd at h
  cases failed
  · simp only [Bool.false_eq_true, if_false, Outcome.state?, Option.some.injEq] at h ⊢
    subst h
    simp [Counters.recordedFrom, Counters.afterLoopStart]
  · simp only [if_true] at h ⊢
    split at h <;> simp only [Outcome.state?, Option.some.injEq] at h <;> subst h <;>
      simp [Counters.recordedFrom, Counters.afterLoopStart]

/-- Every statement other than `KUT_EXECFUNC` appends its failure site, if it has one,
to both vectors and counts it in `count_fail`. -/
theorem Op.exec_recorded (op : Op) (s t : State) (hop : op.isExecFunc = false)
    (ht : (op.exec s).state? = some t) : t.counters.recordedFrom s.counters op.failureSite := by
  have lift : ∀ (o : Outcome State) (oc : Outcome Counters), o.map State.counters = oc →
      o.state? = some t → oc.state? = some t.counters := by
    intro o oc h1 h2
    rw [← h1, Outcome.state?_map, h2]
    rfl
  cases op with
  | assert site a =>
    exact afterAssertion_recorded _ _ _ _ (lift _ _ (Assertion.exec_counters site a s) ht)
  | KUT_EQ_F site a b va vb =>
    exact afterAssertion_recorded _ _ _ _ (lift _ _ (KUT_EQ_F_counters a b va vb site s) ht)
  | KUT_TRUE_2 site a b va vb =>
    exact afterAssertion_recorded _ _ _ _ (lift _ _ (KUT_TRUE_2_counters a b va vb site s) ht)
  | KUT_TRUE_2P site a b va =>
    exact afterAssertion_recorded _ _ _ _ (lift _ _ (KUT_TRUE_2P_counters a b va site s) ht)
  | KUT_MSG a =>
    simp only [Op.exec, Outcome.state?, Option.some.injEq] at ht
    subst ht
    simp only [Kut.KUT_MSG, State.counters, Counters.recordedFrom, Op.failureSite]
    split <;> simp [KUT_LOG, KUT_LOG2]
  | KUT_STOP_ON_FAIL a =>
    simp only [Op.exec, Outcome.state?, Option.some.injEq] at ht
    subst ht
    cases a <;>
      simp [Kut.KUT_STOP_ON_FAIL, State.counters, Counters.recordedFrom, Op.failureSite, KUT_LOG,
        KUT_LOG2]
  | KUT_TRY_NOTHROW site a r =>
    exact afterTryNoThrow_recorded a r site _ _
      (lift _ _ (KUT_TRY_NOTHROW_counters a r site s).1 ht)
  | KUT_TRY_THROW site a r =>
    exact afterTryThrow_recorded a r site _ _
      (lift _ _ (KUT_TRY_THROW_counters a r site s).1 ht)
  | KUT_LOOP start finish nb_iter body =>
    exact afterLoop_recorded _ _ _ _ _
      (lift _ _ (KUT_LOOP_counters_of_state start finish nb_iter body s t ht) ht)
  | KUT_EXECFUNC a callee => cases hop

theorem recordedFrom_lengths (c2 c : Counters) (site : Option (String × Nat))
    (h : c2.recordedFrom c site)
    (h1 : c.kut_fail_file.length = c.kut_fail_line.length)
    (h2 : (c.kut_fail_line.length : Int) = c.kut_data.count_fail) :
    c2.kut_fail_file.length = c2.kut_fail_line.length ∧
    (c2.kut_fail_line.length : Int) = c2.kut_data.count_fail := by
  obtain ⟨e1, e2, e3⟩ := h
  rw [e1, e2, e3]
  cases site <;> simp [h1, ← h2]

/-- Both vectors have the length `count_fail` wherever a run of statements other than
`KUT_EXECFUNC` leaves a state, if they had it at the start. -/
theorem run_sites_lengths (ops : List Op) (s t : State)
    (hops : ∀ op ∈ ops, op.isExecFunc = false)
    (h1 : s.g.kut_fail_file.length = s.g.kut_fail_line.length)
    (h2 : (s.g.kut_fail_line.length : Int) = s.kut_data.count_fail)
    (ht : (run ops s).state? = some t) :
    t.g.kut_fail_file.length = t.g.kut_fail_line.length ∧
    (t.g.kut_fail_line.length : Int) = t.kut_data.count_fail := by
  induction ops generalizing s with
  | nil =>
    simp only [run, Outcome.state?, Option.some.injEq] at ht
    subst ht
    exact ⟨h1, h2⟩
  | cons op ops ih =>
    have hop : op.isExecFunc = false := hops op (List.mem_cons_self _ _)
    have step : ∀ u, (op.exec s).state? = some u →
        u.g.kut_fail_file.length = u.g.kut_fail_line.length ∧
        (u.g.kut_fail_line.length : Int) = u.kut_data.count_fail :=
      fun u hu => recordedFrom_lengths u.counters s.counters _
        (Op.exec_recorded op s u hop hu) h1 h2
    simp only [run] at ht
    cases ho : op.exec s with
    | next u =>
      rw [ho] at ht step
      obtain ⟨k1, k2⟩ := step u rfl
      exact ih u (fun x hx => hops x (List.mem_cons_of_mem _ hx)) k1 k2 ht
    | returned u =>
      rw [ho] at ht step
      exact step t ht
    | exited u c =>
      rw [ho] at ht step
      exact step t ht
    | thrown u =>
      rw [ho] at ht step
      exact step t ht
    | undefined =>
      rw [ho] at ht
      cases ht

/-- A run of statements other than `KUT_EXECFUNC` that falls through has appended to the
vectors the failure sites of its statements, in order. -/
theorem run_sites_listed (ops : List Op) (s t : State)
    (hops : ∀ op ∈ ops, op.isExecFunc = false) (ht : run ops s = .next t) :
    t.g.kut_fail_file =
      s.g.kut_fail_file ++ ops.filterMap (fun op => op.failureSite.map Prod.fst) ∧
    t.g.kut_fail_line =
      s.g.kut_fail_line ++ ops.filterMap (fun op => op.failureSite.map Prod.snd) := by
  induction ops generalizing s with
  | nil =>
    simp only [run, Outcome.next.injEq] at ht
    subst ht
    simp
  | cons op ops ih =>
    have hop : op.isExecFunc = false := hops op (List.mem_cons_self _ _)
    simp only [run] at ht
    cases ho : op.exec s with
    | next u =>
      rw [ho, Outcome.next_andThen] at ht
      obtain ⟨e1, e2, -⟩ := Op.exec_recorded op s u hop (by rw [ho]; rfl)
      obtain ⟨k1, k2⟩ := ih u (fun x hx => hops x (List.mem_cons_of_mem _ hx)) ht
      simp only [State.counters] at e1 e2
      rw [k1, k2, e1, e2]
      cases hsite : op.failureSite <;> simp [List.filterMap_cons, hsite]
    | returned u => rw [ho] at ht; cases ht
    | exited u c => rw [ho] at ht; cases ht
    | thrown u => rw [ho] at ht; cases ht
    | undefined => rw [ho] at ht; cases ht

/-- One line of `main` whose test returns: the records grow by that test exactly when
its `count_fail` is not zero. -/
theorem UnitTest.exec_records (t : UnitTest) (s : Suite) (r : State)
    (h : t.call s = .returned r) :
    ∃ s1, t.exec s = .next s1 ∧
      s1.kut_m.v_failed_test_name = s.kut_m.v_failed_test_name ++
        (if r.kut_data.count_fail != 0 then [t.name] else []) ∧
      s1.kut_m.v_failed_test_type = s.kut_m.v_failed_test_type ++
        (if r.kut_data.count_fail != 0 then [t.type] else []) ∧
      s1.kut_m.v_failed_test_logline.length = s.kut_m.v_failed_test_logline.length +
        (if r.kut_data.count_fail != 0 then 1 else 0) ∧
      s1.kut_m.NbUTFailures = s.kut_m.NbUTFailures +
        (if r.kut_data.count_fail != 0 then 1 else 0) := by
  cases t with
  | KUT_TEST_CLASS A cutm =>
    simp only [UnitTest.call] at h
    simp only [UnitTest.exec, Kut.KUT_TEST_CLASS, callUnitTest, h]
    refine ⟨_, rfl, ?_⟩
    by_cases h0 : r.kut_data.count_fail = 0 <;>
      simp [recordUnitTest, announceUnitTest, h0, UnitTest.name, UnitTest.type]
  | KUT_TEST_FUNC a f =>
    simp only [UnitTest.call] at h
    simp only [UnitTest.exec, Kut.KUT_TEST_FUNC, callUnitTest, h]
    refine ⟨_, rfl, ?_⟩
    by_cases h0 : r.kut_data.count_fail = 0 <;>
      simp [recordUnitTest, announceUnitTest, h0, UnitTest.name, UnitTest.type]

theorem runTests_records (tests : List UnitTest) (s : Suite)
    (hret : (returnedContexts tests s).length = tests.length) :
    ∃ s1, runTests tests s = .next s1 ∧
      s1.kut_m.v_failed_test_name = s.kut_m.v_failed_test_name ++
        (failedTests tests (returnedContexts tests s)).map UnitTest.name ∧
      s1.kut_m.v_failed_test_type = s.kut_m.v_failed_test_type ++
        (failedTests tests (returnedContexts tests s)).map UnitTest.type ∧
      s1.kut_m.v_failed_test_logline.length = s.kut_m.v_failed_test_logline.length +
        (failedTests tests (returnedContexts tests s)).length ∧
      s1.kut_m.NbUTFailures = s.kut_m.NbUTFailures +
        (failedTests tests (returnedContexts tests s)).length := by
  induction tests generalizing s with
  | nil => exact ⟨s, rfl, by simp [failedTests], by simp [failedTests], by simp [failedTests],
      by simp [failedTests]⟩
  | cons t ts ih =>
    cases hcall : t.call s with
    | returned r =>
      obtain ⟨s1, hs1, h1, h2, h3, h4⟩ := UnitTest.exec_records t s r hcall
      have hrc : returnedContexts (t :: ts) s = r.kut_data :: returnedContexts ts s1 := by
        simp only [returnedContexts, hcall, hs1]
      rw [hrc] at hret ⊢
      obtain ⟨s2, hs2, k1, k2, k3, k4⟩ := ih s1 (by simpa using hret)
      refine ⟨s2, by simp only [runTests, hs1, Outcome.next_andThen, hs2], ?_, ?_, ?_, ?_⟩
      · rw [k1, h1]
        by_cases h0 : r.kut_data.count_fail = 0 <;>
          simp [failedTests, List.zip_cons_cons, List.filter_cons, h0]
      · rw [k2, h2]
        by_cases h0 : r.kut_data.count_fail = 0 <;>
          simp [failedTests, List.zip_cons_cons, List.filter_cons, h0]
      · rw [k3, h3]
        by_cases h0 : r.kut_data.count_fail = 0
        · simp [failedTests, List.zip_cons_cons, List.filter_cons, h0]
        · simp [failedTests, List.zip_cons_cons, List.filter_cons, h0]
          omega
      · rw [k4, h4]
        by_cases h0 : r.kut_data.count_fail = 0
        · simp [failedTests, List.zip_cons_cons, List.filter_cons, h0]
        · simp [failedTests, List.zip_cons_cons, List.filter_cons, h0]
          omega
    | next r => simp [returnedContexts, hcall] at hret
    | exited r c => simp [returnedContexts, hcall] at hret
    | thrown r => simp [returnedContexts, hcall] at hret
    | undefined => simp [returnedContexts, hcall] at hret

/-- C12: after the lines of `main` have run their unit tests (every test returning), the
vectors `v_failed_test_name`, `v_failed_test_type` and `v_failed_test_logline` have the
same length, which is `NbUTFailures`, and the first two list, in the order the tests
were run, the names of exactly the tests whose returned `count_fail` is not zero
(`failedTests`) and their tags: 0 for `KUT_TEST_CLASS`, 1 for `KUT_TEST_FUNC`
(`UnitTest.type`). -/
theorem failed_test_records (v : Bool) (asctime : String) (tests : List UnitTest)
    (hret : (returnedContexts tests (KUT_MAIN_START_log asctime (KUT_ALLOC v))).length
      = tests.length) :
    ∃ s, runTests tests (KUT_MAIN_START_log asctime (KUT_ALLOC v)) = .next s ∧
      s.kut_m.v_failed_test_name =
        (failedTests tests
          (returnedContexts tests (KUT_MAIN_START_log asctime (KUT_ALLOC v)))).map
          UnitTest.name ∧
      s.kut_m.v_failed_test_type =
        (failedTests tests
          (returnedContexts tests (KUT_MAIN_START_log asctime (KUT_ALLOC v)))).map
          UnitTest.type ∧
      s.kut_m.v_failed_test_type.length = s.kut_m.v_failed_test_name.length ∧
      s.kut_m.v_failed_test_logline.length = s.kut_m.v_failed_test_name.length ∧
      s.kut_m.NbUTFailures = s.kut_m.v_failed_test_name.length := by
  obtain ⟨s, hs, h1, h2, h3, h4⟩ := runTests_records tests _ hret
  have e1 : s.kut_m.v_failed_test_name = (failedTests tests
      (returnedContexts tests (KUT_MAIN_START_log asctime (KUT_ALLOC v)))).map
      UnitTest.name := by
    simpa [KUT_MAIN_START_log, KUT_MASTER.init] using h1
  have e2 : s.kut_m.v_failed_test_type = (failedTests tests
      (returnedContexts tests (KUT_MAIN_START_log asctime (KUT_ALLOC v)))).map
      UnitTest.type := by
    simpa [KUT_MAIN_START_log, KUT_MASTER.init] using h2
  refine ⟨s, hs, e1, e2, ?_, ?_, ?_⟩
  · rw [e1, e2]; simp
  · rw [e1, h3]; simp [KUT_MAIN_START_log, KUT_MASTER.init]
  · rw [e1, h4]; simp [KUT_MAIN_START_log, KUT_MASTER.init]

/-- Witness of C12: of the three example tests the first (a class test) and the third (a
function test) fail: the records name them in this order, with tags 0 and 1. -/
theorem failed_test_records_witness :
    (returnedContexts exampleMain3 (KUT_MAIN_START_log "now" (KUT_ALLOC true))).length
      = exampleMain3.length ∧
    ∃ s, runTests exampleMain3 (KUT_MAIN_START_log "now" (KUT_ALLOC true)) = .next s ∧
      s.kut_m.v_failed_test_name = ["ClassA", "MyTestFunc"] ∧
      s.kut_m.v_failed_test_type = [0, 1] ∧
      s.kut_m.v_failed_test_logline.length = 2 ∧ s.kut_m.NbUTFailures = 2 := by
  have hret : (returnedContexts exampleMain3
      (KUT_MAIN_START_log "now" (KUT_ALLOC true))).length = exampleMain3.length := by decide
  obtain ⟨s, hs, h1, h2, -, h4, h5⟩ := failed_test_records true "now" exampleMain3 hret
  have e1 : (failedTests exampleMain3 (returnedContexts exampleMain3
      (KUT_MAIN_START_log "now" (KUT_ALLOC true)))).map UnitTest.name
      = ["ClassA", "MyTestFunc"] := by decide
  have e2 : (failedTests exampleMain3 (returnedContexts exampleMain3
      (KUT_MAIN_START_log "now" (KUT_ALLOC true)))).map UnitTest.type = [0, 1] := by decide
  rw [e1] at h1
  rw [e2] at h2
  refine ⟨hret, s, hs, h1, h2, ?_, ?_⟩
  · rw [h4, h1]; rfl
  · rw [h5, h1]; rfl

/-! ## The stop-on-fail policy -/

theorem KUT_STOP_ON_FAIL_frame (b : Bool) (s : State) :
    (KUT_STOP_ON_FAIL b s).kut_data = { s.kut_data with StopTestOnFail := b } ∧
    (KUT_STOP_ON_FAIL b s).g.kut_fail_file = s.g.kut_fail_file ∧
    (KUT_STOP_ON_FAIL b s).g.kut_fail_line = s.g.kut_fail_line ∧
    (KUT_STOP_ON_FAIL b s).g.kut_verbose = s.g.kut_verbose := by
  cases b <;> exact ⟨rfl, rfl, rfl, rfl⟩

theorem run_toggles (bs : List Bool) (s : State) :
    ∃ t, run (bs.map Op.KUT_STOP_ON_FAIL) s = .next t ∧
      t.kut_data =
        { s.kut_data with StopTestOnFail := bs.getLast?.getD s.kut_data.StopTestOnFail } := by
  induction bs generalizing s with
  | nil => exact ⟨s, rfl, rfl⟩
  | cons b bs ih =>
    obtain ⟨t, ht, hd⟩ := ih (KUT_STOP_ON_FAIL b s)
    refine ⟨t, by simpa [run, Op.exec] using ht, ?_⟩
    rw [hd, (KUT_STOP_ON_FAIL_frame b s).1]
    cases bs with
    | nil => rfl
    | cons c cs =>
      obtain ⟨x, hx⟩ : ∃ x, (c :: cs).getLast? = some x :=
        ⟨_, List.getLast?_eq_getLast _ (by simp)⟩
      simp [List.getLast?_cons_cons, hx]

/-- C13: `KUT_STOP_ON_FAIL( b )` sets `StopTestOnFail` to `b` and leaves every other
field of the context, and the recorded failure sites, unchanged; so after any sequence
of toggles from a fresh context the policy is the argument of the last toggle (`false`
if there was none), and a failing regular assertion then ends the run by `exit(1)` if
and only if that value is `true`, and falls through otherwise. -/
theorem stop_on_fail_is_last_toggle (b : Bool) (s : State) (bs : List Bool) (g : Globals)
    (site : Site) (a : Assertion) (hfail : a.pred = false) :
    ((KUT_STOP_ON_FAIL b s).kut_data = { s.kut_data with StopTestOnFail := b } ∧
      (KUT_STOP_ON_FAIL b s).g.kut_fail_file = s.g.kut_fail_file ∧
      (KUT_STOP_ON_FAIL b s).g.kut_fail_line = s.g.kut_fail_line) ∧
    ∃ t, run (bs.map Op.KUT_STOP_ON_FAIL) { kut_data := KUT_TYPE.init, g := g } = .next t ∧
      t.kut_data = { KUT_TYPE.init with StopTestOnFail := bs.getLast?.getD false } ∧
      ((∃ u, a.exec site t = .exited u 1) ↔ bs.getLast?.getD false = true) ∧
      ((∃ u, a.exec site t = .next u) ↔ bs.getLast?.getD false = false) := by
  obtain ⟨h1, h2, h3, -⟩ := KUT_STOP_ON_FAIL_frame b s
  refine ⟨⟨h1, h2, h3⟩, ?_⟩
  obtain ⟨t, ht, hd⟩ := run_toggles bs { kut_data := KUT_TYPE.init, g := g }
  have hd2 : t.kut_data = { KUT_TYPE.init with StopTestOnFail := bs.getLast?.getD false } := hd
  have hstop : t.kut_data.StopTestOnFail = bs.getLast?.getD false := by rw [hd2]
  refine ⟨t, ht, hd2, ?_, ?_⟩
  · cases hl : bs.getLast?.getD false
    · rw [hl] at hstop
      obtain ⟨u, hu, -⟩ := Assertion.exec_next site a t hstop
      simp [hu]
    · rw [hl] at hstop
      obtain ⟨u, hu, -⟩ := Assertion.exec_exited site a t hstop hfail
      simp [hu]
  · cases hl : bs.getLast?.getD false
    · rw [hl] at hstop
      obtain ⟨u, hu, -⟩ := Assertion.exec_next site a t hstop
      simp [hu]
    · rw [hl] at hstop
      obtain ⟨u, hu, -⟩ := Assertion.exec_exited site a t hstop hfail
      simp [hu]

/-- Witness of C13: after the toggles on, off, on, a failing `KUT_TRUE_NS` ends the run;
after on, off it falls through. -/
theorem stop_on_fail_is_last_toggle_witness :
    (Assertion.KUT_TRUE_NS "x" 0).pred = false ∧
    (∃ t, run ([true, false, true].map Op.KUT_STOP_ON_FAIL)
        { kut_data := KUT_TYPE.init, g := KUT_ALLOC true } = .next t ∧
      t.kut_data.StopTestOnFail = true ∧
      ∃ u, (Assertion.KUT_TRUE_NS "x" 0).exec (exampleSite 120) t = .exited u 1) := by
  obtain ⟨-, t, ht, hd, h1, -⟩ := stop_on_fail_is_last_toggle true (exampleState false true)
    [true, false, true] (KUT_ALLOC true) (exampleSite 120) (.KUT_TRUE_NS "x" 0) rfl
  exact ⟨rfl, t, ht, by rw [hd]; rfl, h1.mpr rfl⟩

/-! ## Fresh context of every unit test -/

/-- A test without statements returns the fresh context. -/
theorem empty_test_returned (a : String) (site : Site) (g : Globals) :
    (∃ t, classTest a site [] g = .returned t ∧ t.kut_data = KUT_TYPE.init) ∧
    (∃ t, functionTest a site [] g = .returned t ∧ t.kut_data = KUT_TYPE.init) :=
  ⟨⟨_, rfl, rfl⟩, ⟨_, rfl, rfl⟩⟩

/-- C14: `KUT_CTM_START` and `KUT_FT_START` give every unit test the same fresh context,
whatever globals `g` the earlier tests left: all four counters 0, `StopTestOnFail`,
`DoQuit` and the fail flag false, both failure-site vectors empty.  Hence a test made of
regular assertions `as` always returns (no stop-on-fail setting of an earlier test makes
it exit), a test with no assertion returns `count_test = 0` and `count_fail = 0`, and
`KUT_TEST_CLASS` / `KUT_TEST_FUNC` count such a test as one unit test without failure. -/
theorem unit_test_starts_fresh (a : String) (site : Site) (g : Globals)
    (as : List (Site × Assertion)) (s : Suite) :
    (∀ start ∈ [KUT_CTM_START, KUT_FT_START],
      (start a site g).kut_data =
        { count_fail := 0, count_test := 0, count_test1 := 0, count_test2 := 0,
          StopTestOnFail := false, DoQuit := false, kut_failflag := false } ∧
      (start a site g).g.kut_fail_file = [] ∧ (start a site g).g.kut_fail_line = []) ∧
    (∀ test ∈ [classTest, functionTest],
      (∃ t, test a site (assertions as) g = .returned t) ∧
      (∃ t, test a site [] g = .returned t ∧
        t.kut_data.count_test = 0 ∧ t.kut_data.count_fail = 0)) ∧
    (∀ line ∈ [UnitTest.KUT_TEST_CLASS a (classTest a site []),
               UnitTest.KUT_TEST_FUNC a (functionTest a site [])],
      ∃ s1, line.exec s = .next s1 ∧
        s1.kut_m.NbUnitTests = s.kut_m.NbUnitTests + 1 ∧
        s1.kut_m.NbTestTot = s.kut_m.NbTestTot ∧
        s1.kut_m.NbFailureTot = s.kut_m.NbFailureTot ∧
        s1.kut_m.NbUTFailures = s.kut_m.NbUTFailures ∧
        s1.kut_m.v_failed_test_name = s.kut_m.v_failed_test_name) := by
  refine ⟨?_, ?_, ?_⟩
  · intro start hstart
    simp only [List.mem_cons, List.mem_singleton, List.not_mem_nil, or_false] at hstart
    rcases hstart with rfl | rfl <;> exact ⟨rfl, rfl, rfl⟩
  · intro test htest
    simp only [List.mem_cons, List.mem_singleton, List.not_mem_nil, or_false] at htest
    rcases htest with rfl | rfl
    · obtain ⟨t, ht, -, -, -, hff, hfl⟩ := run_assertions as (KUT_CTM_START a site g) rfl
      obtain ⟨u, hu, -⟩ := KUT_CTM_END_returned a t (by
        rw [hff, hfl]; simp [KUT_CTM_START, KUT_LOG2])
      obtain ⟨v, hv, hd⟩ := (empty_test_returned a site g).1
      exact ⟨⟨u, by simp only [classTest, ht, Outcome.next_andThen, hu]⟩,
        ⟨v, hv, by rw [hd]; rfl, by rw [hd]; rfl⟩⟩
    · obtain ⟨t, ht, -⟩ := run_assertions as (KUT_FT_START a site g) rfl
      obtain ⟨u, hu, -⟩ := KUT_FT_END_returned t
      obtain ⟨v, hv, hd⟩ := (empty_test_returned a site g).2
      exact ⟨⟨u, by simp only [functionTest, ht, Outcome.next_andThen, hu]⟩,
        ⟨v, hv, by rw [hd]; rfl, by rw [hd]; rfl⟩⟩
  · intro line hline
    simp only [List.mem_cons, List.mem_singleton, List.not_mem_nil, or_false] at hline
    rcases hline with rfl | rfl
    · obtain ⟨v, hv, hd⟩ := (empty_test_returned a site
        (announceUnitTest ", testing class " a s).g).1
      obtain ⟨s1, hs1, h1, h2, h3, h4⟩ :=
        UnitTest.exec_returned (.KUT_TEST_CLASS a (classTest a site [])) s v hv
      obtain ⟨s2, hs2, k1, -⟩ :=
        UnitTest.exec_records (.KUT_TEST_CLASS a (classTest a site [])) s v hv
      rw [hs1] at hs2
      cases hs2
      rw [hd] at h2 h3 h4 k1
      exact ⟨s1, hs1, h1, by simpa [KUT_TYPE.init] using h2, by simpa [KUT_TYPE.init] using h3,
        by simpa [KUT_TYPE.init] using h4, by simpa [KUT_TYPE.init] using k1⟩
    · obtain ⟨v, hv, hd⟩ := (empty_test_returned a site
        (announceUnitTest ", testing function " a s).g).2
      obtain ⟨s1, hs1, h1, h2, h3, h4⟩ :=
        UnitTest.exec_returned (.KUT_TEST_FUNC a (functionTest a site [])) s v hv
      obtain ⟨s2, hs2, k1, -⟩ :=
        UnitTest.exec_records (.KUT_TEST_FUNC a (functionTest a site [])) s v hv
      rw [hs1] at hs2
      cases hs2
      rw [hd] at h2 h3 h4 k1
      exact ⟨s1, hs1, h1, by simpa [KUT_TYPE.init] using h2, by simpa [KUT_TYPE.init] using h3,
        by simpa [KUT_TYPE.init] using h4, by simpa [KUT_TYPE.init] using k1⟩

/-- Witness of C14: a function test that switches stop-on-fail on, followed by a function
test whose only assertion fails: the second test returns, and `main` goes on with two
unit tests run, one of them failed. -/
theorem unit_test_starts_fresh_witness :
    ∃ s, runTests [.KUT_TEST_FUNC "First" exampleTestStop,
        .KUT_TEST_FUNC "MyTestFunc" exampleTestF]
        (KUT_MAIN_START_log "now" (KUT_ALLOC true)) = .next s ∧
      s.kut_m.NbUnitTests = 2 ∧ s.kut_m.NbTestTot = 2 ∧ s.kut_m.NbFailureTot = 1 ∧
      s.kut_m.NbUTFailures = 1 ∧ s.kut_m.v_failed_test_name = ["MyTestFunc"] :=
  ⟨_, rfl, rfl, rfl, rfl, rfl, rfl⟩

/-! ## Passing assertions and the fail flag -/

/-- A regular assertion whose predicate is true falls through, whatever the policy. -/
theorem Assertion.exec_passed (site : Site) (a : Assertion) (s : State) (hp : a.pred = true) :
    ∃ t, a.exec site s = .next t ∧
      t.kut_data.count_test = s.kut_data.count_test + 1 ∧
      t.kut_data.count_fail = s.kut_data.count_fail ∧
      t.kut_data.kut_failflag = false ∧
      t.g.kut_fail_file = s.g.kut_fail_file ∧
      t.g.kut_fail_line = s.g.kut_fail_line := by
  have key := Assertion.exec_counters site a s
  simp only [Counters.afterAssertion, hp, if_true] at key
  obtain ⟨t, ht, hc⟩ := Outcome.map_eq_next key
  have e1 := congrArg Counters.kut_data hc
  have e2 := congrArg Counters.kut_fail_file hc
  have e3 := congrArg Counters.kut_fail_line hc
  simp only [State.counters, Counters.afterP2] at e1 e2 e3
  exact ⟨t, ht, by rw [e1], by rw [e1], by rw [e1], e2, e3⟩

/-- C15: for a value `x` of a type whose `==` holds of `x` and `x`, whose `!=` is the
negation of `==` there and whose `<` does not hold of `x` and `x`, the assertions
`KUT_EQ( x, x )`, `KUT_FALSE( x < x )` and `KUT_FALSE( x != x )` pass in every context:
each falls through, adds 1 to `count_test`, leaves `count_fail` unchanged and appends no
failure site.  A `bool` argument of `KUT_FALSE` has the integer value 1 or 0. -/
theorem self_comparison_passes {α : Type} (eq ne lt : α → α → Bool) (x : α)
    (tx vx tlt tne : String) (site : Site) (s : State)
    (hrefl : eq x x = true) (hne : ne x x = !(eq x x)) (hirr : lt x x = false) :
    ∀ a ∈ [Assertion.KUT_EQ tx tx vx vx (eq x x),
           Assertion.KUT_FALSE tlt (if lt x x then 1 else 0),
           Assertion.KUT_FALSE tne (if ne x x then 1 else 0)],
      ∃ t, a.exec site s = .next t ∧
        t.kut_data.count_test = s.kut_data.count_test + 1 ∧
        t.kut_data.count_fail = s.kut_data.count_fail ∧
        t.g.kut_fail_file = s.g.kut_fail_file ∧
        t.g.kut_fail_line = s.g.kut_fail_line := by
  intro a ha
  have hp : a.pred = true := by
    simp only [List.mem_cons, List.mem_singleton, List.not_mem_nil, or_false] at ha
    rcases ha with rfl | rfl | rfl
    · exact hrefl
    · simp [Assertion.pred, hirr]
    · simp [Assertion.pred, hne, hrefl]
  obtain ⟨t, ht, h1, h2, -, h4, h5⟩ := Assertion.exec_passed site a s hp
  exact ⟨t, ht, h1, h2, h4, h5⟩

/-- Witness of C15: the integer 5 with the comparisons of the integers, in a context
with stop-on-fail on: `KUT_FALSE( x < x )` falls through with 8 tests and 2 failures. -/
theorem self_comparison_passes_witness :
    (((5 : Int) == 5) = true ∧ ((5 : Int) != 5) = !((5 : Int) == 5) ∧
      decide ((5 : Int) < 5) = false) ∧
    ∃ t, (Assertion.KUT_FALSE "x < x" (if decide ((5 : Int) < 5) then 1 else 0)).exec
        (exampleSite 140) (exampleState true true) = .next t ∧
      t.kut_data.count_test = 8 ∧ t.kut_data.count_fail = 2 ∧
      t.g.kut_fail_line = [12, 15] := by
  refine ⟨⟨by decide, by decide, by decide⟩, ?_⟩
  obtain ⟨t, ht, h1, h2, -, h4⟩ := self_comparison_passes
    (fun a b : Int => a == b) (fun a b : Int => a != b) (fun a b : Int => decide (a < b)) 5
    "x" "5" "x < x" "x != x" (exampleSite 140) (exampleState true true)
    (by decide) (by decide) (by decide)
    (Assertion.KUT_FALSE "x < x" (if decide ((5 : Int) < 5) then 1 else 0))
    (List.mem_cons_of_mem _ (List.mem_cons_self _ _))
  exact ⟨t, ht, h1, h2, h4⟩

/-- C16: with stop-on-fail off, every regular assertion falls through and right after it
`KUT_FAILED` is true if and only if its predicate was false, whatever the fail flag
and the counters were before. -/
theorem failed_flag_is_last_assertion (site : Site) (a : Assertion) (s : State)
    (hstop : s.kut_data.StopTestOnFail = false) :
    ∃ t, a.exec site s = .next t ∧ (KUT_FAILED t = true ↔ a.pred = false) := by
  obtain ⟨t, ht, -, -, -, hf, -⟩ := Assertion.exec_next site a s hstop
  refine ⟨t, ht, ?_⟩
  unfold KUT_FAILED
  rw [hf]
  cases a.pred <;> simp

/-- Witness of C16: in a context whose fail flag is set, a passing `KUT_DIFF_NS` leaves
`KUT_FAILED` false, and a failing one leaves it true. -/
theorem failed_flag_is_last_assertion_witness :
    exampleStateFailed.kut_data.StopTestOnFail = false ∧
    KUT_FAILED exampleStateFailed = true ∧
    (∃ t, (Assertion.KUT_DIFF_NS "a" "b" true).exec (exampleSite 150) exampleStateFailed
        = .next t ∧ KUT_FAILED t = false) ∧
    (∃ t, (Assertion.KUT_DIFF_NS "a" "b" false).exec (exampleSite 151) exampleStateFailed
        = .next t ∧ KUT_FAILED t = true) := by
  obtain ⟨t, ht, h⟩ := failed_flag_is_last_assertion (exampleSite 150)
    (.KUT_DIFF_NS "a" "b" true) exampleStateFailed rfl
  obtain ⟨u, hu, k⟩ := failed_flag_is_last_assertion (exampleSite 151)
    (.KUT_DIFF_NS "a" "b" false) exampleStateFailed rfl
  refine ⟨rfl, rfl, ⟨t, ht, ?_⟩, ⟨u, hu, k.mpr rfl⟩⟩
  cases hf : KUT_FAILED t
  · rfl
  · exact absurd (h.mp hf) (by decide)

/-! ## Monotony of the counters -/

/-- Counterexample of C17: in a context with 7 tests and 2 failures, `KUT_EXECFUNC` of a
test function written with `KUT_FT_START` and `KUT_FT_END` that makes one passing
assertion leaves `count_test = 1` and `count_fail = 0`: both counters decreased. -/
theorem execfunc_decreases_counters :
    (exampleState false true).kut_data.count_test = 7 ∧
    (exampleState false true).kut_data.count_fail = 2 ∧
    ∃ t, (Op.KUT_EXECFUNC "MyTestFunc()" exampleCallee).exec (exampleState false true)
        = .next t ∧
      t.kut_data.count_test = 1 ∧ t.kut_data.count_fail = 0 ∧
      t.kut_data.count_test < (exampleState false true).kut_data.count_test ∧
      t.kut_data.count_fail < (exampleState false true).kut_data.count_fail :=
  ⟨rfl, rfl, _, rfl, rfl, rfl, by decide, by decide⟩

/-- C17, amended: every statement of a test function other than `KUT_EXECFUNC`
(assertion macros, `KUT_MSG`, `KUT_STOP_ON_FAIL`, loop blocks) leaves `count_test` and
`count_fail` greater than or equal to their values before it; `KUT_EXECFUNC( a )`
evaluates `a` in a context with the same two counters and assigns to `kut_data` the
context `a` returns, so that the counters after it are those the callee returned. -/
theorem counters_after_statement (op : Op) (s t : State)
    (ht : (op.exec s).state? = some t) :
    (op.isExecFunc = false →
      s.kut_data.count_test ≤ t.kut_data.count_test ∧
      s.kut_data.count_fail ≤ t.kut_data.count_fail) ∧
    (∀ a callee, op = .KUT_EXECFUNC a callee →
      (KUT_EXECFUNC_before a s).kut_data.count_test = s.kut_data.count_test ∧
      (KUT_EXECFUNC_before a s).kut_data.count_fail = s.kut_data.count_fail ∧
      ∀ r, callee (KUT_EXECFUNC_before a s) = .returned r → t.kut_data = r.kut_data) := by
  constructor
  · intro hop
    have h := Op.exec_countedFrom op s t hop ht
    exact ⟨h.1, h.2.1⟩
  · intro a callee hop
    subst hop
    refine ⟨rfl, rfl, ?_⟩
    intro r hr
    simp only [Op.exec, KUT_EXECFUNC, hr] at ht
    split at ht <;> simp only [Outcome.state?, Option.some.injEq] at ht <;> rw [← ht]

/-- Witness of C17: the failing loop block of the example raises the counters from 7
and 2 to 8 and 3. -/
theorem counters_after_statement_witness :
    ∃ t, (Op.KUT_LOOP (exampleSite 50) (exampleSite 54) 5 exampleLoopBody).exec
        (exampleState false true) = .next t ∧
      t.kut_data.count_test = 8 ∧ t.kut_data.count_fail = 3 ∧
      (exampleState false true).kut_data.count_test ≤ t.kut_data.count_test ∧
      (exampleState false true).kut_data.count_fail ≤ t.kut_data.count_fail := by
  have e : ∃ t, (Op.KUT_LOOP (exampleSite 50) (exampleSite 54) 5 exampleLoopBody).exec
      (exampleState false true) = .next t ∧
      t.kut_data.count_test = 8 ∧ t.kut_data.count_fail = 3 := ⟨_, rfl, rfl, rfl⟩
  obtain ⟨t, ht, h1, h2⟩ := e
  obtain ⟨h, -⟩ := counters_after_statement _ (exampleState false true) t (by rw [ht]; rfl)
  exact ⟨t, ht, h1, h2, (h rfl).1, (h rfl).2⟩

/-! ## The line counter of the log -/

/-- C18 on the code: in verbose mode, after `KUT_FT_START` the line counter is 1 and one
line is written; a failing `KUT_EQ_NS` then writes one line (a single `std::endl`) and
advances the counter by 2, once in `KUT_P2` and once in `KUT_P_FAILURE`: the counter is
3 when 2 lines are written. -/
theorem line_counter_overtakes_log :
    (KUT_FT_START "MyFunc" (exampleSite 100) (KUT_ALLOC true)).g.kut_line_counter = 1 ∧
    linesWritten (KUT_FT_START "MyFunc" (exampleSite 100) (KUT_ALLOC true)).g = 1 ∧
    ∃ t, KUT_EQ_NS "a" "b" false (exampleSite 101)
        (KUT_FT_START "MyFunc" (exampleSite 100) (KUT_ALLOC true)) = .next t ∧
      t.g.kut_line_counter = 3 ∧ linesWritten t.g = 2 :=
  ⟨rfl, by decide, _, rfl, rfl, by decide⟩

/-! ## What a failing loop block reports -/

/-- C19 on the code: a failing loop block whose `KUT_LOOP_START` stands at line 50 and
whose `KUT_LOOP_END` stands at line 54 appends the line 50 to `kut_fail_line`, not the
line 54. -/
theorem loop_failure_recorded_at_start_line :
    anyFailed exampleLoopBody 5 = true ∧
    (exampleState false false).g.kut_fail_line = [12, 15] ∧
    ∃ t, KUT_LOOP (exampleSite 50) (exampleSite 54) 5 exampleLoopBody
        (exampleState false false) = .next t ∧
      t.g.kut_fail_line = [12, 15, 50] ∧ t.g.kut_fail_line ≠ [12, 15, 54] :=
  ⟨by decide, rfl, _, rfl, rfl, by decide⟩

/-- C20 on the code: `KUT_LOOP_START` and `KUT_LOOP_END` never write `kut_failflag`.
After a loop block that fails in a context whose last assertion passed `KUT_FAILED` is
false, and after a loop block that passes in a context whose last assertion failed
`KUT_FAILED` is true; both blocks add 1 to `count_test`. -/
theorem loop_leaves_failed_flag :
    (anyFailed exampleLoopBody 5 = true ∧ KUT_FAILED (exampleState false true) = false ∧
      ∃ t, KUT_LOOP (exampleSite 50) (exampleSite 54) 5 exampleLoopBody
          (exampleState false true) = .next t ∧
        t.kut_data.count_test = 8 ∧ t.kut_data.count_fail = 3 ∧ KUT_FAILED t = false) ∧
    (anyFailed exampleLoopBodyPassing 5 = false ∧ KUT_FAILED exampleStateFailed = true ∧
      ∃ t, KUT_LOOP (exampleSite 50) (exampleSite 54) 5 exampleLoopBodyPassing
          exampleStateFailed = .next t ∧
        t.kut_data.count_test = 8 ∧ t.kut_data.count_fail = 2 ∧ KUT_FAILED t = true) :=
  ⟨⟨by decide, rfl, _, rfl, rfl, rfl, rfl⟩, ⟨by decide, rfl, _, rfl, rfl, rfl, rfl⟩⟩

/-! ## The floating point comparison -/

theorem afterFailure_ne_next (site : Site) (c d : Counters)
    (h : d.kut_data.count_fail = c.kut_data.count_fail) :
    c.afterFailure site ≠ .next d := by
  unfold Counters.afterFailure
  split
  · intro h1; cases h1
  · intro h1
    injection h1 with h1
    subst h1
    simp at h

/-- C21: with the operands taken as exact rationals, `KUT_EQ_F( a, b )` passes (it falls
through with the counters of a passed assertion, `count_fail` unchanged) if and only if
`|a - b| < KUT_EPSILON`, where `KUT_EPSILON` is `1e-9`; otherwise it has the effect of a
failed assertion.  The inequality is strict: operands that differ by exactly
`KUT_EPSILON` fail, in either order.  The effect on the counters is the same for
`( a, b )` as for `( b, a )`, and equal operands pass. -/
theorem KUT_EQ_F_passes_iff (a b : String) (va vb : Rat) (site : Site) (s : State) :
    KUT_EPSILON = 1 / 10 ^ 9 ∧
    ((KUT_EQ_F a b va vb site s).map State.counters = .next s.counters.afterP2 ↔
      |va - vb| < KUT_EPSILON) ∧
    ((KUT_EQ_F a b va vb site s).map State.counters = s.counters.afterP2.afterFailure site ↔
      ¬ |va - vb| < KUT_EPSILON) ∧
    ((∃ t, KUT_EQ_F a b va vb site s = .next t ∧
        t.kut_data.count_fail = s.kut_data.count_fail ∧ t.kut_data.kut_failflag = false) ↔
      |va - vb| < KUT_EPSILON) ∧
    (KUT_EQ_F a b (vb + KUT_EPSILON) vb site s).map State.counters =
      s.counters.afterP2.afterFailure site ∧
    (KUT_EQ_F a b va (va + KUT_EPSILON) site s).map State.counters =
      s.counters.afterP2.afterFailure site ∧
    (KUT_EQ_F a b va vb site s).map State.counters =
      (KUT_EQ_F b a vb va site s).map State.counters ∧
    (KUT_EQ_F a b va va site s).map State.counters = .next s.counters.afterP2 := by
  have hne : s.counters.afterP2.afterFailure site ≠ .next s.counters.afterP2 :=
    afterFailure_ne_next site _ _ rfl
  have heps : (0 : Rat) < KUT_EPSILON := by unfold KUT_EPSILON; norm_num
  have hexact : ∀ x y : Rat, |x - y| = KUT_EPSILON →
      (KUT_EQ_F a b x y site s).map State.counters = s.counters.afterP2.afterFailure site := by
    intro x y hxy
    rw [KUT_EQ_F_counters, hxy]
    simp [Counters.afterAssertion]
  refine ⟨by unfold KUT_EPSILON; norm_num, ?_, ?_, ?_, ?_, ?_, ?_, ?_⟩
  · rw [KUT_EQ_F_counters]
    unfold Counters.afterAssertion
    by_cases h : |va - vb| < KUT_EPSILON
    · simp [h]
    · simp [h, hne]
  · rw [KUT_EQ_F_counters]
    unfold Counters.afterAssertion
    by_cases h : |va - vb| < KUT_EPSILON
    · simp only [h, decide_True, if_true, not_true_eq_false, iff_false]
      exact fun h1 => hne h1.symm
    · simp [h]
  · constructor
    · rintro ⟨t, ht, hf, _⟩
      by_contra h
      have hc := KUT_EQ_F_counters a b va vb site s
      rw [ht] at hc
      simp only [Counters.afterAssertion, h, decide_False, Outcome.map] at hc
      exact afterFailure_ne_next site _ t.counters (by simpa [State.counters, Counters.afterP2] using hf) hc.symm
    · intro h
      have hc := KUT_EQ_F_counters a b va vb site s
      simp only [Counters.afterAssertion, h, decide_True, if_true] at hc
      obtain ⟨t, ht, htc⟩ := Outcome.map_eq_next hc
      refine ⟨t, ht, ?_, ?_⟩
      · have := congrArg (fun c => c.kut_data.count_fail) htc
        simpa [State.counters, Counters.afterP2] using this
      · have := congrArg (fun c => c.kut_data.kut_failflag) htc
        simpa [State.counters, Counters.afterP2] using this
  · exact hexact _ _ (by rw [add_sub_cancel_left, abs_of_pos heps])
  · exact hexact _ _ (by rw [sub_add_cancel_left, abs_neg, abs_of_pos heps])
  · rw [KUT_EQ_F_counters, KUT_EQ_F_counters, abs_sub_comm]
  · rw [KUT_EQ_F_counters]
    simp [Counters.afterAssertion, heps]

/-! ## The message marker -/

/-- C22: `KUT_MSG( text )` adds exactly 1 to `count_test1`, sets `count_test2` to 0, and
leaves `count_test`, `count_fail`, `StopTestOnFail`, `DoQuit`, `kut_failflag` and the
failure sites `kut_fail_file`, `kut_fail_line` unchanged, whatever the state it is
expanded in: with `kut_verbose` set as well as without. -/
theorem KUT_MSG_frame (a : String) (s : State) :
    (KUT_MSG a s).kut_data.count_test1 = s.kut_data.count_test1 + 1 ∧
    (KUT_MSG a s).kut_data.count_test2 = 0 ∧
    (KUT_MSG a s).kut_data.count_test = s.kut_data.count_test ∧
    (KUT_MSG a s).kut_data.count_fail = s.kut_data.count_fail ∧
    (KUT_MSG a s).kut_data.StopTestOnFail = s.kut_data.StopTestOnFail ∧
    (KUT_MSG a s).kut_data.DoQuit = s.kut_data.DoQuit ∧
    (KUT_MSG a s).kut_data.kut_failflag = s.kut_data.kut_failflag ∧
    (KUT_MSG a s).g.kut_fail_file = s.g.kut_fail_file ∧
    (KUT_MSG a s).g.kut_fail_line = s.g.kut_fail_line ∧
    (KUT_MSG a s).g.kut_verbose = s.g.kut_verbose ∧
    (Op.KUT_MSG a).exec s = .next (KUT_MSG a s) := by
  refine ⟨rfl, rfl, rfl, rfl, rfl, rfl, rfl, ?_, ?_, ?_, rfl⟩ <;>
  · unfold KUT_MSG
    cases hv : s.g.kut_verbose <;> simp [KUT_LOG, KUT_LOG2, hv]

/-! ## The minor index and the loop block -/

theorem afterLoopEnd_count_test2 (file : String) (line : Nat) (failed : Bool) (c : Counters) :
    (c.afterLoopEnd file line failed).state?.map (fun d => d.kut_data.count_test2) =
      some c.kut_data.count_test2 := by
  unfold Counters.afterLoopEnd
  cases failed <;> cases c.kut_data.StopTestOnFail <;> rfl

/-- C23 on the code: a loop block adds 1 to `count_test` but never changes `count_test2`,
whereas a regular assertion adds 1 to both.  In the context of `exampleState`, where
`count_test` is 7 and `count_test2` is 4, a passing loop block leaves 8 and 4 and its log
line carries the label `(1.4)` of the assertion before it, and a passing `KUT_TRUE` leaves
8 and 5. -/
theorem loop_block_keeps_count_test2 :
    (∀ (start finish : Site) (nb_iter : Nat) (body : Nat → List LoopCheck) (s : State),
      (KUT_LOOP start finish nb_iter body s).state?.map (fun t => t.kut_data.count_test2) =
        (KUT_LOOP start finish nb_iter body s).state?.map
          (fun _ => s.kut_data.count_test2)) ∧
    (exampleState false true).kut_data.count_test = 7 ∧
    (exampleState false true).kut_data.count_test2 = 4 ∧
    (∃ t, KUT_LOOP (exampleSite 50) (exampleSite 54) 5 exampleLoopBodyPassing
        (exampleState false true) = .next t ∧
      t.kut_data.count_test = 8 ∧ t.kut_data.count_test2 = 4 ∧
      t.g.kut_logfile.take 7 =
        [.str " * Test ", .int 8, .str " (loop type) (", .int 1, .str ".", .int 4,
         .str ")\n"]) ∧
    (∃ u, (Assertion.KUT_TRUE "ok" 1).exec (exampleSite 50) (exampleState false true) =
        .next u ∧
      u.kut_data.count_test = 8 ∧ u.kut_data.count_test2 = 5) := by
  refine ⟨?_, rfl, rfl, ⟨_, rfl, rfl, rfl, rfl⟩, ⟨_, rfl, rfl, rfl⟩⟩
  intro start finish nb_iter body s
  rcases KUT_LOOP_counters_any start finish nb_iter body s with h | ⟨failed, line, h⟩
  · rw [h]; rfl
  · have h1 := afterLoopEnd_count_test2 finish.file line failed s.counters.afterLoopStart
    rw [← h, Outcome.state?_map, Option.map_map] at h1
    cases hs : (KUT_LOOP start finish nb_iter body s).state? with
    | none => rfl
    | some t =>
      rw [hs] at h1
      simpa [State.counters, Counters.afterLoopStart] using h1

/-! ## The falsity check inside and outside a loop block -/

/-- C24 on the code: `KUT_LOOP_FALSE( v )` compares with `(v)==true` and registers a
failure exactly when `v` is 1, while `KUT_FALSE( v )` compares with `false == (v)` and
fails exactly when `v` is not 0.  At `v = 2` the stand-alone assertion fails
(`count_fail` goes from 2 to 3) and the loop check registers no failure in any of three
iterations (the slot stays at 0, the flag stays false, `count_fail` stays at 2); at
`v = 1` both fail. -/
theorem loop_false_differs_from_false :
    (∀ (a : String) (v : Int), (LoopCheck.KUT_LOOP_FALSE a v).failed = true ↔ v = 1) ∧
    (∀ (a : String) (v : Int), (Assertion.KUT_FALSE a v).pred = false ↔ v ≠ 0) ∧
    (∃ t, (Assertion.KUT_FALSE "v" 2).exec (exampleSite 50) (exampleState false false) =
        .next t ∧ t.kut_data.count_fail = 3 ∧ t.kut_data.kut_failflag = true) ∧
    (∃ w, loopFor (fun _ => [.KUT_LOOP_FALSE "v" 2]) 3 (LoopVars.init 50 3) = some w ∧
      w.kut_loop_fails = [0] ∧ w.kut_fail_flag = false) ∧
    (∃ t, KUT_LOOP (exampleSite 50) (exampleSite 54) 3 (fun _ => [.KUT_LOOP_FALSE "v" 2])
        (exampleState false false) = .next t ∧ t.kut_data.count_fail = 2) ∧
    (∃ w, loopFor (fun _ => [.KUT_LOOP_FALSE "v" 1]) 3 (LoopVars.init 50 3) = some w ∧
      w.kut_loop_fails = [3] ∧ w.kut_fail_flag = true) ∧
    (∃ t, (Assertion.KUT_FALSE "v" 1).exec (exampleSite 50) (exampleState false false) =
        .next t ∧ t.kut_data.count_fail = 3) := by
  refine ⟨?_, ?_, ⟨_, rfl, rfl, rfl⟩, ⟨_, rfl, rfl, rfl⟩, ⟨_, rfl, rfl⟩, ⟨_, rfl, rfl, rfl⟩,
    ⟨_, rfl, rfl⟩⟩
  · intro a v
    simp [LoopCheck.failed]
  · intro a v
    show (0 == v) = false ↔ v ≠ 0
    rw [beq_eq_false_iff_ne]
    exact ⟨fun h e => h e.symm, fun h e => h e.symm⟩

/-! ## The logging mode -/

theorem Outcome.map_map {σ τ υ : Type} (f : σ → τ) (g : τ → υ) (o : Outcome σ) :
    (o.map f).map g = o.map (fun s => g (f s)) := by
  cases o <;> rfl

theorem Outcome.eq_exited_of_map {σ τ : Type} (f : σ → τ) (o : Outcome σ) (c : τ) (n : Int)
    (u : σ) (h : o.map f = .exited c n) (hu : o.state? = some u) : o = .exited u n := by
  cases o with
  | exited s m =>
    simp only [Outcome.map, Outcome.exited.injEq] at h
    simp only [Outcome.state?, Option.some.injEq] at hu
    rw [hu, h.2]
  | next s => cases h
  | returned s => cases h
  | thrown s => cases h
  | undefined => cases h

theorem afterFailure_stop (site : Site) (c : Counters)
    (hstop : c.kut_data.StopTestOnFail = true) :
    ∃ d, c.afterP2.afterFailure site = .exited d 1 := by
  have h : c.afterP2.kut_data.StopTestOnFail = true := hstop
  unfold Counters.afterFailure
  rw [h]
  exact ⟨_, rfl⟩

/-- With stop-on-fail on, a failing statement other than `KUT_EXECFUNC` calls
`exit( 1 )`. -/
theorem Op.exec_exits (op : Op) (st u : State) (hop : op.isExecFunc = false)
    (hstop : st.kut_data.StopTestOnFail = true) (hfail : op.failureSite.isSome = true)
    (hu : (op.exec st).state? = some u) : op.exec st = .exited u 1 := by
  have key : ∀ site : Site, ∃ d, st.counters.afterP2.afterFailure site = .exited d 1 :=
    fun site => afterFailure_stop site st.counters hstop
  cases op with
  | assert site a =>
    obtain ⟨d, hd⟩ := key site
    have hp : a.pred = false := by
      cases h : a.pred
      · rfl
      · simp [Op.failureSite, h] at hfail
    have h1 := Assertion.exec_counters site a st
    rw [hp] at h1
    exact Outcome.eq_exited_of_map _ _ d 1 u (h1.trans hd) hu
  | KUT_EQ_F site a b va vb =>
    obtain ⟨d, hd⟩ := key site
    have hp : decide (|va - vb| < KUT_EPSILON) = false := by
      cases h : decide (|va - vb| < KUT_EPSILON)
      · rfl
      · simp [Op.failureSite, h] at hfail
    have h1 := KUT_EQ_F_counters a b va vb site st
    rw [hp] at h1
    exact Outcome.eq_exited_of_map _ _ d 1 u (h1.trans hd) hu
  | KUT_TRUE_2 site a b va vb =>
    obtain ⟨d, hd⟩ := key site
    have hp : (va != 0) = false := by
      cases h : (va != 0)
      · rfl
      · simp [Op.failureSite, h] at hfail
    have h1 := KUT_TRUE_2_counters a b va vb site st
    rw [hp] at h1
    exact Outcome.eq_exited_of_map _ _ d 1 u (h1.trans hd) hu
  | KUT_TRUE_2P site a b va =>
    obtain ⟨d, hd⟩ := key site
    have hp : (va != 0) = false := by
      cases h : (va != 0)
      · rfl
      · simp [Op.failureSite, h] at hfail
    have h1 := KUT_TRUE_2P_counters a b va site st
    rw [hp] at h1
    exact Outcome.eq_exited_of_map _ _ d 1 u (h1.trans hd) hu
  | KUT_MSG a => simp [Op.failureSite] at hfail
  | KUT_STOP_ON_FAIL b => simp [Op.failureSite] at hfail
  | KUT_TRY_NOTHROW site a r =>
    obtain ⟨d, hd⟩ := key site
    have h1 := (KUT_TRY_NOTHROW_counters a r site st).1
    cases r with
    | nothing => simp [Op.failureSite] at hfail
    | stdException what => exact Outcome.eq_exited_of_map _ _ d 1 u (h1.trans hd) hu
    | other =>
      refine Outcome.eq_exited_of_map _ _ d 1 u (h1.trans ?_) hu
      simp only [Counters.afterTryNoThrow, hd, Outcome.exited_andThen]
  | KUT_TRY_THROW site a r =>
    obtain ⟨d, hd⟩ := key site
    have h1 := (KUT_TRY_THROW_counters a r site st).1
    cases r with
    | nothing => exact Outcome.eq_exited_of_map _ _ d 1 u (h1.trans hd) hu
    | stdException what => simp [Op.failureSite] at hfail
    | other =>
      refine Outcome.eq_exited_of_map _ _ d 1 u (h1.trans ?_) hu
      simp only [Counters.afterTryThrow, hd, Outcome.exited_andThen]
  | KUT_LOOP start finish nb_iter body =>
    have hp : anyFailed body nb_iter = true := by
      cases h : anyFailed body nb_iter
      · simp [Op.failureSite, h] at hfail
      · rfl
    have h1 := KUT_LOOP_counters_of_state start finish nb_iter body st u hu
    rw [hp] at h1
    have h2 : st.counters.afterLoopStart.kut_data.StopTestOnFail = true := hstop
    have h3 : ∃ d, st.counters.afterLoopStart.afterLoopEnd finish.file start.line true =
        .exited d 1 := by
      simp only [Counters.afterLoopEnd, h2, if_true]
      exact ⟨_, rfl⟩
    obtain ⟨d, hd⟩ := h3
    exact Outcome.eq_exited_of_map _ _ d 1 u (h1.trans hd) hu
  | KUT_EXECFUNC a callee => cases hop

theorem UnitTest.exec_of_exited_call (t : UnitTest) (s : Suite) (r : State) (c : Int)
    (h : t.call s = .exited r c) :
    t.exec s = .exited { kut_m := { s.kut_m with NbUnitTests := s.kut_m.NbUnitTests + 1 },
                         g := r.g } c := by
  cases t with
  | KUT_TEST_CLASS A cutm =>
    simp only [UnitTest.call] at h
    simp only [UnitTest.exec, Kut.KUT_TEST_CLASS, callUnitTest, h]
    rfl
  | KUT_TEST_FUNC a f =>
    simp only [UnitTest.call] at h
    simp only [UnitTest.exec, Kut.KUT_TEST_FUNC, callUnitTest, h]
    rfl

theorem runTests_append (xs ys : List UnitTest) (s : Suite) :
    runTests (xs ++ ys) s = (runTests xs s).andThen (runTests ys) := by
  induction xs generalizing s with
  | nil => rfl
  | cons x xs ih =>
    show ((x.exec s).andThen (runTests (xs ++ ys))) = _
    cases hx : x.exec s <;> simp [runTests, hx, Outcome.andThen, ih]

/-- C26: when a statement of a unit test (a regular assertion, an exception check or a
loop block) fails while stop-on-fail is on, `main` ends there by `exit( 1 )`, whatever
the counters of the test and the totals of the earlier unit tests are and whatever unit
tests follow in `main`: no later unit test is run and `KUT_MAIN_END` is not reached, so
that the status is 1 and not `NbFailureTot`.  The totals `NbTestTot`, `NbFailureTot`,
`NbUTFailures` and the list of failed tests are those the earlier unit tests left: the
aborted test is not added to them (only `NbUnitTests`, incremented before the call,
counts it).  The unit test `t` is any line of `main` whose test function runs the
statements `pre`, `op`, `rest` from the state `s0` its start macro leaves. -/
theorem abort_ends_run (v : Bool) (asctime : String) (before : List UnitTest) (s1 : Suite)
    (t : UnitTest) (s0 st u : State) (finish : State → Outcome State)
    (pre rest : List Op) (op : Op)
    (hbefore : runTests before (KUT_MAIN_START_log asctime (KUT_ALLOC v)) = .next s1)
    (hcall : t.call s1 = (run (pre ++ op :: rest) s0).andThen finish)
    (hpre : run pre s0 = .next st)
    (hstop : st.kut_data.StopTestOnFail = true)
    (hop : op.isExecFunc = false) (hfail : op.failureSite.isSome = true)
    (hu : (op.exec st).state? = some u) :
    op.exec st = .exited u 1 ∧
    u.kut_data.count_fail = st.kut_data.count_fail + 1 ∧
    ∃ s2, (∀ after, testMain v true true asctime (before ++ t :: after) = .exited s2 1) ∧
      s2.g = u.g ∧
      s2.kut_m.NbTestTot = s1.kut_m.NbTestTot ∧
      s2.kut_m.NbFailureTot = s1.kut_m.NbFailureTot ∧
      s2.kut_m.NbUTFailures = s1.kut_m.NbUTFailures ∧
      s2.kut_m.v_failed_test_name = s1.kut_m.v_failed_test_name ∧
      s2.kut_m.v_failed_test_type = s1.kut_m.v_failed_test_type ∧
      s2.kut_m.v_failed_test_logline = s1.kut_m.v_failed_test_logline ∧
      s2.kut_m.NbUnitTests = s1.kut_m.NbUnitTests + 1 := by
  have hex := Op.exec_exits op st u hop hstop hfail hu
  have hrec := Op.exec_recorded op st u hop hu
  have hrun : run (pre ++ op :: rest) s0 = .exited u 1 := by
    rw [run_append, hpre]
    simp only [Outcome.next_andThen, run, hex, Outcome.exited_andThen]
  rw [hrun, Outcome.exited_andThen] at hcall
  have ht := UnitTest.exec_of_exited_call t s1 u 1 hcall
  refine ⟨hex, ?_,
    { kut_m := { s1.kut_m with NbUnitTests := s1.kut_m.NbUnitTests + 1 }, g := u.g },
    fun after => ?_, rfl, rfl, rfl, rfl, rfl, rfl, rfl, rfl⟩
  · have h3 := hrec.2.2
    cases hs : op.failureSite with
    | none => rw [hs] at hfail; cases hfail
    | some x => rw [hs] at h3; simpa [State.counters] using h3
  · simp only [testMain, KUT_MAIN_START, Bool.not_true, Bool.false_eq_true, if_false,
      Outcome.next_andThen, runTests_append, hbefore, runTests, ht, Outcome.exited_andThen]

/-- Witness of C26: in the example application, run in quiet mode, the three unit tests
of `exampleMain3` leave 6 tests and 2 failures in the totals.  The class test that follows
switches stop-on-fail on after one passed assertion and fails in its loop block: `main`
ends with `exit( 1 )` although a fifth unit test follows, with the totals still at 6
tests, 2 failures and 2 failed unit tests, and `NbUnitTests` at 4. -/
theorem abort_ends_run_witness :
    exampleSuite3.kut_m.NbFailureTot = 2 ∧ exampleSuite3.kut_m.NbTestTot = 6 ∧
    exampleSuite3.kut_m.NbUnitTests = 3 ∧
    ∃ s2, testMain false true true "Mon Jan  1 00:00:00 2024\n"
        (exampleMain3 ++ .KUT_TEST_CLASS "ClassC" exampleTestAbort ::
          [.KUT_TEST_CLASS "ClassB" exampleTestB]) = .exited s2 1 ∧
      s2.kut_m.NbFailureTot = 2 ∧ s2.kut_m.NbTestTot = 6 ∧ s2.kut_m.NbUTFailures = 2 ∧
      s2.kut_m.NbUnitTests = 4 ∧ s2.g.kut_fail_line = [143] := by
  obtain ⟨hex, hfail, s2, hmain, hg, h1, h2, h3, -, -, -, h4⟩ :=
    abort_ends_run false "Mon Jan  1 00:00:00 2024\n" exampleMain3 exampleSuite3
      (.KUT_TEST_CLASS "ClassC" exampleTestAbort)
      (KUT_CTM_START "ClassC" (exampleSite 140)
        (announceUnitTest ", testing class " "ClassC" exampleSuite3).g)
      _ _ (KUT_CTM_END "ClassC")
      [.KUT_MSG "part one", .assert (exampleSite 141) (.KUT_TRUE "c.ok()" 1),
        .KUT_STOP_ON_FAIL true]
      [.assert (exampleSite 148) (.KUT_TRUE "c.done()" 0), .KUT_STOP_ON_FAIL false]
      (.KUT_LOOP (exampleSite 143) (exampleSite 147) 5 exampleLoopBody)
      rfl rfl rfl rfl rfl rfl rfl
  refine ⟨rfl, rfl, rfl, s2, hmain _, ?_, ?_, ?_, ?_, ?_⟩
  · rw [h2]; rfl
  · rw [h1]; rfl
  · rw [h3]; rfl
  · rw [h4]; rfl
  · rw [hg]; rfl

/-! ## The iterations of a loop block -/

/-- The state a loop block leaves, from its effect on the counters. -/
theorem KUT_LOOP_outcome (start finish : Site) (nb_iter checks : Nat)
    (body : Nat → List LoopCheck) (s : State)
    (hlen : ∀ i, i < nb_iter → (body i).length = checks) :
    ∃ t, KUT_LOOP start finish nb_iter body s =
        (if (anyFailed body nb_iter && s.kut_data.StopTestOnFail) = true then .exited t 1
          else .next t) ∧
      t.g.kut_fail_line =
        s.g.kut_fail_line ++ (if anyFailed body nb_iter = true then [start.line] else []) ∧
      t.g.kut_fail_file =
        s.g.kut_fail_file ++ (if anyFailed body nb_iter = true then [finish.file] else []) ∧
      t.kut_data.count_test = s.kut_data.count_test + 1 ∧
      t.kut_data.count_fail =
        s.kut_data.count_fail + (if anyFailed body nb_iter = true then 1 else 0) := by
  have hc := KUT_LOOP_counters start finish nb_iter checks body s hlen
  cases hf : anyFailed body nb_iter
  · rw [hf] at hc
    obtain ⟨t, ht, htc⟩ := Outcome.map_eq_next (c := s.counters.afterLoopStart) hc
    refine ⟨t, by simpa using ht, ?_, ?_, ?_, ?_⟩
    · simpa [State.counters, Counters.afterLoopStart] using congrArg Counters.kut_fail_line htc
    · simpa [State.counters, Counters.afterLoopStart] using congrArg Counters.kut_fail_file htc
    · simpa [State.counters, Counters.afterLoopStart] using
        congrArg (fun c => c.kut_data.count_test) htc
    · simpa [State.counters, Counters.afterLoopStart] using
        congrArg (fun c => c.kut_data.count_fail) htc
  · rw [hf] at hc
    cases hs : s.kut_data.StopTestOnFail
    · have h2 : s.counters.afterLoopStart.kut_data.StopTestOnFail = false := hs
      simp only [Counters.afterLoopEnd, h2, if_true, Bool.false_eq_true, if_false] at hc
      obtain ⟨t, ht, htc⟩ := Outcome.map_eq_next hc
      refine ⟨t, by simpa using ht, ?_, ?_, ?_, ?_⟩
      · simpa [State.counters, Counters.afterLoopStart] using congrArg Counters.kut_fail_line htc
      · simpa [State.counters, Counters.afterLoopStart] using congrArg Counters.kut_fail_file htc
      · simpa [State.counters, Counters.afterLoopStart] using
          congrArg (fun c => c.kut_data.count_test) htc
      · simpa [State.counters, Counters.afterLoopStart] using
          congrArg (fun c => c.kut_data.count_fail) htc
    · have h2 : s.counters.afterLoopStart.kut_data.StopTestOnFail = true := hs
      simp only [Counters.afterLoopEnd, h2, if_true] at hc
      obtain ⟨t, ht, htc⟩ := Outcome.map_eq_exited hc
      refine ⟨t, by simpa using ht, ?_, ?_, ?_, ?_⟩
      · simpa [State.counters, Counters.afterLoopStart] using congrArg Counters.kut_fail_line htc
      · simpa [State.counters, Counters.afterLoopStart] using congrArg Counters.kut_fail_file htc
      · simpa [State.counters, Counters.afterLoopStart] using
          congrArg (fun c => c.kut_data.count_test) htc
      · simpa [State.counters, Counters.afterLoopStart] using
          congrArg (fun c => c.kut_data.count_fail) htc

/-- C27: inside a loop block a failing check never short-circuits.  For a loop block
whose iterations all make the same number of checks, whatever `StopTestOnFail` is, the
`for` statement runs to its end and leaves in slot `j` the number of iterations, among
all `nb_iter`, in which check `j` failed; the block is `KUT_LOOP_START`, the `for`
statement, which does not touch the context, and `KUT_LOOP_END`, which alone can call
`exit( 1 )`, and does so exactly when some check failed and stop-on-fail is on.  The block
appends one failure site when some check failed and none otherwise, and adds 1 to
`count_test` and at most 1 to `count_fail`. -/
theorem loop_never_short_circuits (start finish : Site) (nb_iter checks : Nat)
    (body : Nat → List LoopCheck) (s : State)
    (hlen : ∀ i, i < nb_iter → (body i).length = checks) :
    ∃ v t, loopFor body nb_iter (LoopVars.init start.line nb_iter) = some v ∧
      (∀ j, v.kut_loop_fails.getD j 0 =
        (List.range nb_iter).countP (fun i => failedAt body i j)) ∧
      v.kut_fail_flag = anyFailed body nb_iter ∧
      KUT_LOOP start finish nb_iter body s =
        KUT_LOOP_END finish v (KUT_LOOP_START nb_iter start s).1 ∧
      KUT_LOOP start finish nb_iter body s =
        (if (anyFailed body nb_iter && s.kut_data.StopTestOnFail) = true then .exited t 1
          else .next t) ∧
      t.g.kut_fail_line =
        s.g.kut_fail_line ++ (if anyFailed body nb_iter = true then [start.line] else []) ∧
      t.g.kut_fail_file =
        s.g.kut_fail_file ++ (if anyFailed body nb_iter = true then [finish.file] else []) ∧
      t.kut_data.count_test = s.kut_data.count_test + 1 ∧
      t.kut_data.count_fail =
        s.kut_data.count_fail + (if anyFailed body nb_iter = true then 1 else 0) := by
  obtain ⟨v, hv, -, hcount, vf, -, -⟩ :=
    loopFor_some body checks nb_iter start.line nb_iter hlen
  obtain ⟨t, ht, h1, h2, h3, h4⟩ := KUT_LOOP_outcome start finish nb_iter checks body s hlen
  refine ⟨v, t, hv, hcount, vf, ?_, ht, h1, h2, h3, h4⟩
  show (match loopFor body nb_iter (KUT_LOOP_START nb_iter start s).2 with
    | some v => KUT_LOOP_END finish v (KUT_LOOP_START nb_iter start s).1
    | none => Outcome.undefined) = _
  rw [(KUT_LOOP_START_counters nb_iter start s).2, hv]

/-- Witness of C27: with stop-on-fail on, the loop block of the example, whose second
check fails in iterations 3 and 4 of 5, runs all five iterations (the slots end at 0 and
2), records the single site of line 50 and ends with `exit( 1 )`. -/
theorem loop_never_short_circuits_witness :
    (∀ i, i < 5 → (exampleLoopBody i).length = 2) ∧
    (exampleState true false).kut_data.StopTestOnFail = true ∧
    ∃ v t, loopFor exampleLoopBody 5 (LoopVars.init 50 5) = some v ∧
      v.kut_loop_fails = [0, 2] ∧
      KUT_LOOP (exampleSite 50) (exampleSite 54) 5 exampleLoopBody (exampleState true false) =
        .exited t 1 ∧
      t.g.kut_fail_line = [12, 15, 50] ∧
      t.kut_data.count_test = 8 ∧ t.kut_data.count_fail = 3 := by
  have hlen : ∀ i, i < 5 → (exampleLoopBody i).length = 2 := fun _ _ => rfl
  obtain ⟨v, t, hv, -, -, -, ht, h1, -, h2, h3⟩ :=
    loop_never_short_circuits (exampleSite 50) (exampleSite 54) 5 2 exampleLoopBody
      (exampleState true false) hlen
  have hv2 : loopFor exampleLoopBody 5 (LoopVars.init 50 5) = some
      ((loopFor exampleLoopBody 5 (LoopVars.init 50 5)).getD (LoopVars.init 50 5)) := rfl
  refine ⟨hlen, rfl, v, t, hv, ?_, ht, h1, h2, h3⟩
  have e : some v = some _ := hv.symm.trans hv2
  injection e with e
  rw [e]
  rfl

/-! ## The accesses to the slots of a loop block -/

theorem loopChecks_append (i : Nat) (xs ys : List LoopCheck) (v : LoopVars) :
    loopChecks i (xs ++ ys) v = (loopChecks i xs v).bind (loopChecks i ys) := by
  induction xs generalizing v with
  | nil => rfl
  | cons x xs ih =>
    show (x.exec i v).bind (loopChecks i (xs ++ ys)) = _
    cases hx : x.exec i v with
    | none => simp [loopChecks, hx]
    | some u => simp [loopChecks, hx, ih]

theorem loopFor_none (body : Nat → List LoopCheck) (n m : Nat) (v : LoopVars)
    (h : loopFor body n v = none) (hnm : n ≤ m) : loopFor body m v = none := by
  induction m with
  | zero =>
    have : n = 0 := by omega
    subst this
    exact h
  | succ m ih =>
    rcases Nat.lt_or_ge n (m + 1) with h1 | h1
    · show (loopFor body m v).bind (loopIteration m (body m)) = none
      rw [ih (by omega)]
      rfl
    · have : n = m + 1 := by omega
      subst this
      exact h

/-- The variables of a loop block just before check `j` of iteration `i`, when the
iterations before `i` made `checks` checks each and `j` does not exceed `checks`: the
position counter is `j`, and the vector has `j` slots in iteration 0 and `checks` slots in
a later iteration. -/
theorem loopChecks_position (body : Nat → List LoopCheck) (checks i j line nb : Nat)
    (hlen : ∀ k, k < i → (body k).length = checks) (hj : j ≤ (body i).length)
    (hjs : i ≠ 0 → j ≤ checks) :
    ∃ v0 w, loopFor body i (LoopVars.init line nb) = some v0 ∧
      loopChecks i ((body i).take j) { v0 with kut_loop_macro_count := 0 } = some w ∧
      w.kut_loop_macro_count = j ∧
      w.kut_loop_fails.length = (if i = 0 then j else checks) := by
  obtain ⟨v0, hv0, hl0, -⟩ := loopFor_some body checks i line nb hlen
  have hlt : ((body i).take j).length = j := by
    rw [List.length_take]; omega
  obtain ⟨w, hw, hc, hl, -⟩ := loopChecks_some i ((body i).take j)
    { v0 with kut_loop_macro_count := 0 }
    (by intro h0; rw [hl0, if_pos h0])
    (by intro h0; show 0 + ((body i).take j).length ≤ v0.kut_loop_fails.length
        rw [hlt, hl0, if_neg h0, Nat.zero_add]; exact hjs h0)
  refine ⟨v0, w, hv0, hw, ?_, ?_⟩
  · rw [hc, hlt]; exact Nat.zero_add j
  · rw [hl, hlt]
    show v0.kut_loop_fails.length + _ = _
    rw [hl0]
    by_cases h0 : i = 0 <;> simp [h0]

/-- C28: when the first `nb_iter` iterations of a loop block make `checks` checks each,
the `for` statement runs without an access outside `kut_loop_fails`, which has `checks`
slots from iteration 0 on.  Before check `j` of iteration `i` the position counter
`kut_loop_macro_count` is `j`, the access `kut_loop_fails[kut_loop_macro_count]` that
the check makes when it fails has its index `j` below the size of the vector, and the
check leaves the position counter at `j + 1` whether it failed or passed.  If the next
iteration (number `nb_iter`, not the first one) makes more checks, the extra check of
position `checks` finds the position counter equal to the size of the vector: when it
fails its access is out of bounds and the loop block has undefined behaviour however many
iterations follow, and when it passes it makes no access. -/
theorem loop_accesses_in_bounds (body : Nat → List LoopCheck) (nb_iter checks line nb : Nat)
    (hlen : ∀ i, i < nb_iter → (body i).length = checks) :
    (∃ v, loopFor body nb_iter (LoopVars.init line nb) = some v ∧
      v.kut_loop_fails.length = (if nb_iter = 0 then 0 else checks)) ∧
    (∀ i j c, i < nb_iter → (body i).get? j = some c →
      ∃ v0 w x y, loopFor body i (LoopVars.init line nb) = some v0 ∧
        loopChecks i ((body i).take j) { v0 with kut_loop_macro_count := 0 } = some w ∧
        w.kut_loop_macro_count = j ∧
        c.exec i w = KUT_LOOP_P2 c.failed x ∧
        x.kut_loop_macro_count = j ∧ x.kut_loop_fails.length = (if i = 0 then j + 1 else checks) ∧
        x.kut_loop_macro_count < x.kut_loop_fails.length ∧
        c.exec i w = some y ∧ y.kut_loop_macro_count = j + 1) ∧
    (∀ c, 1 ≤ nb_iter → (body nb_iter).get? checks = some c →
      ∃ v0 w x, loopFor body nb_iter (LoopVars.init line nb) = some v0 ∧
        loopChecks nb_iter ((body nb_iter).take checks)
          { v0 with kut_loop_macro_count := 0 } = some w ∧
        c.exec nb_iter w = KUT_LOOP_P2 c.failed x ∧
        x.kut_loop_macro_count = checks ∧ x.kut_loop_fails.length = checks ∧
        (c.failed = true → c.exec nb_iter w = none ∧
          ∀ n, nb_iter < n → loopFor body n (LoopVars.init line nb) = none) ∧
        (c.failed = false →
          c.exec nb_iter w = some { x with kut_loop_macro_count := checks + 1 })) := by
  refine ⟨?_, ?_, ?_⟩
  · obtain ⟨v, hv, hl, -⟩ := loopFor_some body checks nb_iter line nb hlen
    exact ⟨v, hv, hl⟩
  · intro i j c hi hc
    have hj : j < (body i).length := by
      by_contra h
      rw [List.get?_eq_none.mpr (by omega)] at hc
      cases hc
    have hjc : j < checks := by rw [← hlen i hi]; exact hj
    obtain ⟨v0, w, hv0, hw, hwc, hwl⟩ := loopChecks_position body checks i j line nb
      (fun k hk => hlen k (by omega)) (by omega) (fun _ => by omega)
    obtain ⟨x, hx, xf, xc, -⟩ := LoopCheck.exec_eq i c w
    have hxl : x.kut_loop_fails.length = (if i = 0 then j + 1 else checks) := by
      rw [xf]
      by_cases h0 : i = 0
      · simp [h0, hwl]
      · simp [h0, hwl]
    obtain ⟨y, hy, hyc, -⟩ := LoopCheck.exec_some i c w
      (by intro h0; rw [hwc, hwl, if_pos h0])
      (by intro h0; rw [hwc, hwl, if_neg h0]; exact hjc)
    refine ⟨v0, w, x, y, hv0, hw, hwc, hx, by rw [xc, hwc], hxl, ?_, hy, by rw [hyc, hwc]⟩
    rw [xc, hwc, hxl]
    by_cases h0 : i = 0
    · simp [h0]
    · simp [h0]; exact hjc
  · intro c hK hc
    have hj : checks < (body nb_iter).length := by
      by_contra h
      rw [List.get?_eq_none.mpr (by omega)] at hc
      cases hc
    have hK0 : nb_iter ≠ 0 := by omega
    obtain ⟨v0, w, hv0, hw, hwc, hwl⟩ := loopChecks_position body checks nb_iter checks line nb
      hlen (by omega) (fun _ => le_refl _)
    rw [if_neg hK0] at hwl
    obtain ⟨x, hx, xf, xc, -⟩ := LoopCheck.exec_eq nb_iter c w
    rw [if_neg hK0] at xf
    have hxl : x.kut_loop_fails.length = checks := by rw [xf, hwl]
    have hxc : x.kut_loop_macro_count = checks := by rw [xc, hwc]
    refine ⟨v0, w, x, hv0, hw, hx, hxc, hxl, ?_, ?_⟩
    · intro hf
      have hnone : c.exec nb_iter w = none := by
        rw [hx, hf]
        simp [KUT_LOOP_P2, hxc, hxl]
      refine ⟨hnone, fun n hn => loopFor_none body (nb_iter + 1) n _ ?_ hn⟩
      show (loopFor body nb_iter (LoopVars.init line nb)).bind
        (loopIteration nb_iter (body nb_iter)) = none
      rw [hv0, Option.some_bind]
      have hsplit : body nb_iter =
          (body nb_iter).take checks ++ c :: (body nb_iter).drop (checks + 1) := by
        have h1 := List.take_append_drop checks (body nb_iter)
        have h2 : (body nb_iter).drop checks = c :: (body nb_iter).drop (checks + 1) := by
          rw [List.drop_eq_getElem_cons hj]
          congr 1
          rw [List.get?_eq_getElem? , List.getElem?_eq_getElem hj] at hc
          exact Option.some.inj hc
        rw [h2] at h1
        exact h1.symm
      unfold loopIteration
      rw [hsplit, loopChecks_append, hw, Option.some_bind]
      show (c.exec nb_iter w).bind _ = none
      rw [hnone]
      rfl
    · intro hf
      rw [hx, hf]
      simp [KUT_LOOP_P2, hxc]

/-- Witness of C28: the first two iterations of `exampleLoopBodyExtra` make two checks
each and leave two slots; iteration 2 makes a third check, which fails, and the loop
block of five iterations has undefined behaviour. -/
theorem loop_accesses_in_bounds_witness :
    (∀ i, i < 2 → (exampleLoopBodyExtra i).length = 2) ∧
    (exampleLoopBodyExtra 2).get? 2 = some (.KUT_LOOP_TRUE "extra()" 0) ∧
    (∃ v, loopFor exampleLoopBodyExtra 2 (LoopVars.init 50 5) = some v ∧
      v.kut_loop_fails.length = 2) ∧
    loopFor exampleLoopBodyExtra 5 (LoopVars.init 50 5) = none ∧
    KUT_LOOP (exampleSite 50) (exampleSite 54) 5 exampleLoopBodyExtra (exampleState false true)
      = .undefined := by
  have hlen : ∀ i, i < 2 → (exampleLoopBodyExtra i).length = 2 := by
    intro i hi
    interval_cases i <;> rfl
  obtain ⟨h1, -, h3⟩ := loop_accesses_in_bounds exampleLoopBodyExtra 2 2 50 5 hlen
  obtain ⟨v0, w, x, -, -, -, -, -, hfail, -⟩ := h3 (.KUT_LOOP_TRUE "extra()" 0) (by decide) rfl
  exact ⟨hlen, rfl, h1, (hfail rfl).2 5 (by decide), rfl⟩

/-! ## The divisor of the percentage -/

theorem KUT_LOOP_P2_nb_iter (failed : Bool) (u w : LoopVars)
    (h : KUT_LOOP_P2 failed u = some w) : w.kut_loop_nb_iter = u.kut_loop_nb_iter := by
  unfold KUT_LOOP_P2 at h
  cases failed
  · simp only [Bool.false_eq_true, if_false, Option.some.injEq] at h
    subst h
    rfl
  · simp only [if_true] at h
    split at h
    · simp only [Option.some.injEq] at h
      subst h
      rfl
    · cases h

theorem loopChecks_nb_iter (i : Nat) (cs : List LoopCheck) (v w : LoopVars)
    (h : loopChecks i cs v = some w) : w.kut_loop_nb_iter = v.kut_loop_nb_iter := by
  induction cs generalizing v with
  | nil =>
    simp only [loopChecks, Option.some.injEq] at h
    subst h
    rfl
  | cons c cs ih =>
    simp only [loopChecks] at h
    cases hc : c.exec i v with
    | none => simp [hc] at h
    | some u =>
      rw [hc, Option.some_bind] at h
      obtain ⟨x, hx, -, -, -, -, xn⟩ := LoopCheck.exec_eq i c v
      rw [hx] at hc
      rw [ih u h, KUT_LOOP_P2_nb_iter _ _ _ hc, xn]

theorem loopFor_nb_iter (body : Nat → List LoopCheck) (n : Nat) (v w : LoopVars)
    (h : loopFor body n v = some w) : w.kut_loop_nb_iter = v.kut_loop_nb_iter := by
  induction n generalizing w with
  | zero =>
    simp only [loopFor, Option.some.injEq] at h
    subst h
    rfl
  | succ n ih =>
    simp only [loopFor] at h
    cases hu : loopFor body n v with
    | none => simp [hu] at h
    | some u =>
      rw [hu, Option.some_bind] at h
      rw [loopChecks_nb_iter n (body n) _ w h]
      exact ih u hu

/-- C29: the percentage `100.0*kut_loop_fails.at(kut_i)/kut_loop_nb_iter` of
`KUT_LOOP_END` never divides by zero.  After the `for` statement of a loop block of
`nb_iter` iterations, whatever its body, `kut_loop_nb_iter` is `nb_iter`, and for every
index `kut_i` the summary loop visits (`kut_i < kut_loop_fails.size()`) it is at least 1.
With `nb_iter = 0` the four vectors are empty although the body contains checks, and
`KUT_LOOP_END` in verbose mode writes the line `PASS, 0 iterations, at line ...` and no
summary line. -/
theorem loop_percent_divisor_positive (body : Nat → List LoopCheck) (nb_iter line : Nat)
    (v : LoopVars) (h : loopFor body nb_iter (LoopVars.init line nb_iter) = some v) :
    v.kut_loop_nb_iter = nb_iter ∧
    (∀ kut_i, kut_i < v.kut_loop_fails.length →
      1 ≤ v.kut_loop_nb_iter ∧ (v.kut_loop_nb_iter : Rat) ≠ 0 ∧
      loopPercent (v.kut_loop_fails.getD kut_i 0) v.kut_loop_nb_iter * (nb_iter : Rat) =
        100 * (v.kut_loop_fails.getD kut_i 0 : Rat)) ∧
    (nb_iter = 0 →
      v.kut_loop_fails = [] ∧ v.kut_loop_expr_a = [] ∧ v.kut_loop_expr_b = [] ∧
      v.kut_loop_expr_op = [] ∧
      ∀ (site : Site) (s : State), s.g.kut_verbose = true →
        KUT_LOOP_END site v s = .next ⟨s.kut_data,
          KUT_LOG [.str "PASS", .str ", ", .int 0, .str " iterations, at line ", .int line,
                   .endl] s.g⟩) := by
  have hn : v.kut_loop_nb_iter = nb_iter := loopFor_nb_iter body nb_iter _ v h
  have h0 : nb_iter = 0 → v = LoopVars.init line 0 := by
    intro e
    subst e
    simp only [loopFor, Option.some.injEq] at h
    exact h.symm
  refine ⟨hn, ?_, ?_⟩
  · intro kut_i hk
    have hpos : 1 ≤ nb_iter := by
      by_contra hc
      have e : nb_iter = 0 := by omega
      rw [h0 e] at hk
      exact absurd hk (by simp [LoopVars.init])
    have hq : (nb_iter : Rat) ≠ 0 := by
      have : (0 : Rat) < (nb_iter : Rat) := by exact_mod_cast hpos
      exact ne_of_gt this
    refine ⟨by rw [hn]; exact hpos, by rw [hn]; exact hq, ?_⟩
    unfold loopPercent
    rw [hn, div_mul_cancel₀ _ hq]
  · intro e
    rw [h0 e]
    refine ⟨rfl, rfl, rfl, rfl, ?_⟩
    intro site s hv
    simp [KUT_LOOP_END, LoopVars.init, hv]

/-- Witness of C29: a loop block of 5 iterations of the example body leaves
`kut_loop_nb_iter = 5` and two slots, the second with 2 failures, that is 40 %; the
same body with 0 iterations leaves no slot. -/
theorem loop_percent_divisor_positive_witness :
    (∃ v, loopFor exampleLoopBody 5 (LoopVars.init 50 5) = some v ∧
      v.kut_loop_nb_iter = 5 ∧ v.kut_loop_fails = [0, 2] ∧
      loopPercent (v.kut_loop_fails.getD 1 0) v.kut_loop_nb_iter = 40) ∧
    ∃ v, loopFor exampleLoopBody 0 (LoopVars.init 50 0) = some v ∧ v.kut_loop_fails = [] := by
  have h5 : loopFor exampleLoopBody 5 (LoopVars.init 50 5) =
      some ((loopFor exampleLoopBody 5 (LoopVars.init 50 5)).getD (LoopVars.init 50 5)) := rfl
  have h0 : loopFor exampleLoopBody 0 (LoopVars.init 50 0) = some (LoopVars.init 50 0) := rfl
  refine ⟨⟨_, h5, (loop_percent_divisor_positive exampleLoopBody 5 50 _ h5).1, rfl, ?_⟩,
    ⟨_, h0, ((loop_percent_divisor_positive exampleLoopBody 0 50 _ h0).2.2 rfl).1⟩⟩
  show loopPercent 2 5 = 40
  unfold loopPercent
  norm_num

/-! ## Failure sites in the log at the end of a test -/

/-- The loop of `KUT_CTM_END` writes one line for each recorded failure site and leaves
the recorded sites as they are. -/
theorem logFailedSites_log (lines : List Nat) (files : List String) (g : Globals)
    (h : lines.length ≤ files.length) :
    (logFailedSites lines files g).1.kut_logfile =
      g.kut_logfile ++ ((lines.zip files).map fun p =>
        [LogItem.str " - failed at line ", .int p.1, .str " of file ", .str p.2,
         .endl]).flatten ∧
    (logFailedSites lines files g).1.kut_fail_line = g.kut_fail_line ∧
    (logFailedSites lines files g).1.kut_fail_file = g.kut_fail_file := by
  induction lines generalizing files g with
  | nil => simp [logFailedSites]
  | cons l ls ih =>
    cases files with
    | nil => simp at h
    | cons f fs =>
      simp only [logFailedSites]
      obtain ⟨h1, h2, h3⟩ := ih fs
        (KUT_LOG [.str " - failed at line ", .int l, .str " of file ", .str f, .endl] g)
        (by simpa using h)
      refine ⟨?_, h2, h3⟩
      rw [h1]
      simp [KUT_LOG, KUT_LOG2]

/-- Every failure site recorded during a class test is written to the log by the end of
the test, whatever `kut_verbose` is.  When the statements of a class test
(any statements but `KUT_EXECFUNC`) fall through to `KUT_CTM_END`, the test returns, the
recorded sites are those of the failing statements, as many files as lines, and
`KUT_CTM_END` writes its summary line followed by one line
`- failed at line L of file F` for each recorded site.  `KUT_FT_END` writes the
numbers of tests and failures and nothing else, and `KUT_P_FAILURE` (stop-on-fail off)
records the site and writes it to the log when `kut_verbose` is set, and writes nothing
when it is not. -/
theorem class_test_logs_failure_sites (name : String) (site : Site) (g : Globals)
    (ops : List Op) (s : State)
    (hops : ∀ op ∈ ops, op.isExecFunc = false)
    (hrun : run ops (KUT_CTM_START name site g) = .next s) :
    (∃ t, classTest name site ops g = .returned t ∧
      t.kut_data = s.kut_data ∧
      t.g.kut_fail_line = s.g.kut_fail_line ∧ t.g.kut_fail_file = s.g.kut_fail_file ∧
      s.g.kut_fail_line = ops.filterMap (fun op => op.failureSite.map Prod.snd) ∧
      s.g.kut_fail_file = ops.filterMap (fun op => op.failureSite.map Prod.fst) ∧
      s.g.kut_fail_line.length = s.g.kut_fail_file.length ∧
      t.g.kut_logfile =
        s.g.kut_logfile ++
        [.str "- END Unit test of class ", .str name, .str ", ", .int s.kut_data.count_test,
         .str " tests done and ", .int s.kut_data.count_fail, .str " failure(s)",
         .str " TEMP ", .int (s.g.kut_line_counter + 1 : Nat), .endl] ++
        ((s.g.kut_fail_line.zip s.g.kut_fail_file).map fun p =>
          [LogItem.str " - failed at line ", .int p.1, .str " of file ", .str p.2,
           .endl]).flatten ++
        [.endl]) ∧
    (∀ u : State, ∃ t, KUT_FT_END u = .returned t ∧
      t.g.kut_logfile = u.g.kut_logfile ++
        [.str "\n- END of test function, ", .int u.kut_data.count_test, .str " tests and ",
         .int u.kut_data.count_fail, .str " failure(s)\n\n"]) ∧
    (∀ (failing : Site) (u : State), u.kut_data.StopTestOnFail = false →
      ∃ t, KUT_P_FAILURE failing u = .next t ∧
        t.g.kut_fail_line = u.g.kut_fail_line ++ [failing.line] ∧
        t.g.kut_fail_file = u.g.kut_fail_file ++ [failing.file] ∧
        t.g.kut_logfile = u.g.kut_logfile ++
          (if u.g.kut_verbose then
            [.str "FAIL (", .int (u.kut_data.count_fail + 1), .str "), on line ",
             .int failing.line, .str " of file ", .str failing.file]
          else [])) := by
  have hstart : (KUT_CTM_START name site g).g.kut_fail_file = [] ∧
      (KUT_CTM_START name site g).g.kut_fail_line = [] ∧
      (KUT_CTM_START name site g).kut_data.count_fail = 0 := ⟨rfl, rfl, rfl⟩
  obtain ⟨f0, l0, c0⟩ := hstart
  obtain ⟨hl1, hl2⟩ := run_sites_lengths ops _ s hops rfl rfl
    (by rw [hrun]; rfl)
  obtain ⟨k1, k2⟩ := run_sites_listed ops _ s hops hrun
  rw [f0, List.nil_append] at k1
  rw [l0, List.nil_append] at k2
  refine ⟨?_, fun u => ⟨_, rfl, ?_⟩, ?_⟩
  · have hcall : classTest name site ops g = KUT_CTM_END name s := by
      show (run ops (KUT_CTM_START name site g)).andThen (KUT_CTM_END name) = _
      rw [hrun]
      rfl
    rw [hcall]
    unfold KUT_CTM_END
    by_cases hc : s.kut_data.count_fail > 0
    · simp only [hc, if_true]
      rw [logFailedSites_ok _ _ _ (le_of_eq hl1.symm)]
      obtain ⟨e1, e2, e3⟩ := logFailedSites_log s.g.kut_fail_line s.g.kut_fail_file
        (KUT_LOG2 [.str "- END Unit test of class ", .str name, .str ", ",
                   .int s.kut_data.count_test, .str " tests done and ",
                   .int s.kut_data.count_fail, .str " failure(s)", .str " TEMP ",
                   .int (s.g.kut_line_counter + 1 : Nat), .endl]
          { s.g with kut_line_counter := s.g.kut_line_counter + 1 })
        (le_of_eq hl1.symm)
      refine ⟨_, rfl, rfl, ?_, ?_, k2, k1, hl1.symm, ?_⟩
      · simpa [KUT_LOG, KUT_LOG2] using e2
      · simpa [KUT_LOG, KUT_LOG2] using e3
      · simp only [KUT_LOG, KUT_LOG2] at e1 ⊢
        simp only [e1]
    · simp only [hc, if_false]
      have hz : s.g.kut_fail_line = [] := by
        have : (s.g.kut_fail_line.length : Int) ≤ 0 := by rw [hl2]; omega
        exact List.length_eq_zero.mp (by omega)
      refine ⟨_, rfl, rfl, rfl, rfl, k2, k1, hl1.symm, ?_⟩
      simp [KUT_LOG, KUT_LOG2, hz]
  · simp [KUT_LOG, KUT_LOG2]
  · intro failing u hstop
    unfold KUT_P_FAILURE
    simp only [hstop]
    cases hv : u.g.kut_verbose <;> simp [KUT_LOG, KUT_LOG2]

/-- C30 on the code: `KUT_FT_END` does not list the recorded failure sites, as
`KUT_CTM_END` does, and in quiet mode `KUT_P_FAILURE` writes nothing.  The function test
of the example, run in quiet mode, records the site of its failing assertion (line 31 of
`test_funcs.cpp`) and returns with `count_fail = 1`, and its log holds the line of
`KUT_FT_START` and the line of `KUT_FT_END` with the numbers of tests and failures:
neither the line 31 nor the file name was written.  The class test of the example, run in
quiet mode as well, records line 12 of `test_classes.cpp` and its log holds
`- failed at line 12 of file test_classes.cpp`; the same function test run in verbose
mode has `on line 31 of file test_funcs.cpp` in its log. -/
theorem function_test_site_not_logged :
    (∃ t, exampleTestF (KUT_ALLOC false) = .returned t ∧
      t.kut_data.count_fail = 1 ∧
      t.g.kut_fail_line = [31] ∧ t.g.kut_fail_file = ["test_funcs.cpp"] ∧
      t.g.kut_logfile =
        [.str "- BEGIN unit test of function \x27", .str "MyFunc",
         .str "()\x27 through test function ", .str "MyTestFunc", .str " TEMP ", .int 1, .endl,
         .str "\n- END of test function, ", .int 1, .str " tests and ", .int 1,
         .str " failure(s)\n\n"] ∧
      LogItem.int 31 ∉ t.g.kut_logfile ∧ LogItem.str "test_funcs.cpp" ∉ t.g.kut_logfile) ∧
    (∃ t, exampleTestA (KUT_ALLOC false) = .returned t ∧
      t.kut_data.count_fail = 1 ∧
      t.g.kut_fail_line = [12] ∧ t.g.kut_fail_file = ["test_classes.cpp"] ∧
      (t.g.kut_logfile.drop 17).take 5 =
        [.str " - failed at line ", .int 12, .str " of file ", .str "test_classes.cpp",
         .endl]) ∧
    (∃ t, exampleTestF (KUT_ALLOC true) = .returned t ∧
      t.g.kut_fail_line = [31] ∧
      (t.g.kut_logfile.drop 18).take 4 =
        [.str "), on line ", .int 31, .str " of file ", .str "test_funcs.cpp"]) :=
  ⟨⟨_, rfl, rfl, rfl, rfl, rfl, by decide, by decide⟩, ⟨_, rfl, rfl, rfl, rfl, rfl⟩,
    ⟨_, rfl, rfl, rfl⟩⟩

end Kut
